import Mathlib

/-!
# SmartSpectra C++ SDK: containers, telemetry, video sources

A shallow embedding of the orchestration layer of the SmartSpectra C++ SDK
(`smartspectra/container`, `smartspectra/video_source`) together with theorems
about it.

Modelling conventions used throughout:

* `int64_t` / `int32_t` values are `Int`.  Signed overflow is undefined behaviour in
  C++; the model covers the executions in which no signed overflow occurs.
* `double` values are exact rationals (`ℚ`); rounding is not modelled.
* `std::set<int64_t>` is its ascending list of elements, `std::vector<T>` is `List T`,
  `std::map<K, V>` is its list of key/value pairs in ascending key order.
* `std::function<Sig>` is `Option Sig`; `none` is the empty function, the one that
  compares equal to `nullptr`.
* An operation whose C++ execution has undefined behaviour or throws returns `none`.
* `mediapipe::CalculatorGraph`, the pollers, OpenCV, the video source and the clock lie
  outside these sources.  What a call on them returns is a parameter of the operation that
  makes the call; the calls made are recorded in the state (`CalculatorGraph`) or in the
  result (`Invocation`).
-/

namespace absl

/-- The subset of `absl::StatusCode` used by the SDK. -/
inductive StatusCode where
  | kOk
  | kInvalidArgument
  | kFailedPrecondition
  | kUnavailable
  | kNotFound
  | kInternal
  | kUnknown
  | kPermissionDenied
  deriving DecidableEq, Repr

/-- An `absl::Status`: a code and a message. -/
structure Status where
  code : StatusCode
  message : String
  deriving DecidableEq, Repr

def OkStatus : Status := ⟨StatusCode.kOk, ""⟩

def InvalidArgumentError (message : String) : Status := ⟨StatusCode.kInvalidArgument, message⟩

def FailedPreconditionError (message : String) : Status :=
  ⟨StatusCode.kFailedPrecondition, message⟩

def UnknownError (message : String) : Status := ⟨StatusCode.kUnknown, message⟩

def PermissionDeniedError (message : String) : Status :=
  ⟨StatusCode.kPermissionDenied, message⟩

def Status.ok (s : Status) : Bool := s.code == StatusCode.kOk

end absl

namespace cv

/-- A `cv::Mat`: a decoded image.  `cv::Mat()` is the image with no rows, columns or data. -/
structure Mat where
  rows : Nat
  cols : Nat
  data : List Nat
  deriving DecidableEq, Repr

/-- The default-constructed `cv::Mat()`. -/
def Mat.mk0 : Mat := ⟨0, 0, []⟩

/-- `cv::Mat::empty()`: no elements. -/
def Mat.empty (m : Mat) : Bool := m.rows == 0 || m.cols == 0 || m.data.isEmpty

/-- A `cv::Size`. -/
structure Size where
  width : Int
  height : Int
  deriving DecidableEq, Repr

end cv

namespace physiology

/-- The status codes of `physiology::StatusCode` the containers refer to by name. -/
inductive StatusCode where
  | OK
  | PROCESSING_NOT_STARTED
  | OTHER (code : Nat)
  deriving DecidableEq, Repr

/-- A `physiology::StatusValue` message: a status code with a timestamp. -/
structure StatusValue where
  value : StatusCode
  timestamp : Int
  deriving DecidableEq, Repr

/-- A `physiology::Metrics` message; the containers pass it on without reading it. -/
structure Metrics where
  deriving DecidableEq, Repr

/-- The metadata of a `physiology::MetricsBuffer`: the fields the containers read. -/
structure MetricsBufferMetadata where
  frame_timestamp : Int
  frame_count : Int
  deriving DecidableEq, Repr

/-- A `physiology::MetricsBuffer` message, reduced to its metadata. -/
structure MetricsBuffer where
  metadata : MetricsBufferMetadata
  deriving DecidableEq, Repr

end physiology

namespace presage.smartspectra.container

open absl

/-! ## `std::set<int64_t>` as an ascending list -/

/-- The call `std::set<int64_t>::insert(x)`: ordered insertion, a present element is kept once. -/
def set_insert (x : Int) : List Int → List Int
  | [] => [x]
  | y :: ys =>
      if x < y then x :: y :: ys
      else if x = y then y :: ys
      else y :: set_insert x ys

/-- The call `s.erase(s.begin(), s.find(x))`: the elements in front of the position of `x` are
removed; when `x` is not in the set, `find` returns `end()` and every element is removed. -/
def set_erase_begin_to_find (x : Int) : List Int → List Int
  | [] => []
  | y :: ys => if y = x then y :: ys else set_erase_begin_to_find x ys

/-! ## Container state -/

/-- The struct `Container::MetricsBufferBenchmarkingInfo`. -/
structure MetricsBufferBenchmarkingInfo where
  first_timestamp : Int
  last_timestamp : Int
  frame_count : Int
  latency_seconds : ℚ
  deriving DecidableEq

/-- The data members of `Container` that the callback setters and the benchmarking code
read or write (`container.hpp`). -/
structure Container where
  OnStatusChange : Option (physiology.StatusValue → Status)
  OnEdgeMetricsOutput : Option (physiology.Metrics → Status)
  OnCoreMetricsOutput : Option (physiology.MetricsBuffer → Int → Status)
  OnVideoOutput : Option (cv.Mat → Int → Status × cv.Mat)
  OnFrameSentThrough : Option (Bool → Int → Status)
  OnCorePerformanceTelemetry : Option (Option (ℚ → ℚ → Int → Status))
  initialized : Bool
  running : Bool
  status : physiology.StatusValue
  recording : Bool
  frames_in_graph_timestamps : List Int
  metrics_buffer_benchmarking_info_buffer : List MetricsBufferBenchmarkingInfo
  offset_from_system_time : Option ℚ

/-- The constant `Container::fps_averaging_window_microseconds` (3 seconds). -/
def fps_averaging_window_microseconds : Int := 3 * 1000000

/-- The state set up by the constructor `Container::Container` and the default member
initialisers; `now_us` is the system clock reading used for the initial status. -/
def Container.new (now_us : Int) : Container where
  OnStatusChange := some (fun _ => OkStatus)
  OnEdgeMetricsOutput := some (fun _ => OkStatus)
  OnCoreMetricsOutput := some (fun _ _ => OkStatus)
  OnVideoOutput := some (fun output_frame _ => (OkStatus, output_frame))
  OnFrameSentThrough := some (fun _ _ => OkStatus)
  OnCorePerformanceTelemetry := none
  initialized := false
  running := false
  status := ⟨physiology.StatusCode.PROCESSING_NOT_STARTED, now_us⟩
  recording := false
  frames_in_graph_timestamps := []
  metrics_buffer_benchmarking_info_buffer := []
  offset_from_system_time := none

/-! ## Callback registration (`container_impl.hpp`, lines 120-206) -/

/-- The function template `CheckCallbackNotNull`. -/
def CheckCallbackNotNull {Sig : Type} (callback : Option Sig) : Status :=
  match callback with
  | none => InvalidArgumentError "Callback cannot be nullptr."
  | some _ => OkStatus

def Container.SetOnStatusChange (c : Container)
    (on_status_change : Option (physiology.StatusValue → Status)) : Container × Status :=
  if (CheckCallbackNotNull on_status_change).ok then
    ({ c with OnStatusChange := on_status_change }, OkStatus)
  else (c, CheckCallbackNotNull on_status_change)

def Container.SetOnEdgeMetricsOutput (c : Container)
    (on_edge_metrics_output : Option (physiology.Metrics → Status)) : Container × Status :=
  if (CheckCallbackNotNull on_edge_metrics_output).ok then
    ({ c with OnEdgeMetricsOutput := on_edge_metrics_output }, OkStatus)
  else (c, CheckCallbackNotNull on_edge_metrics_output)

def Container.SetOnCoreMetricsOutput (c : Container)
    (on_core_metrics_output : Option (physiology.MetricsBuffer → Int → Status)) :
    Container × Status :=
  if (CheckCallbackNotNull on_core_metrics_output).ok then
    ({ c with OnCoreMetricsOutput := on_core_metrics_output }, OkStatus)
  else (c, CheckCallbackNotNull on_core_metrics_output)

def Container.SetOnVideoOutput (c : Container)
    (on_video_output : Option (cv.Mat → Int → Status × cv.Mat)) : Container × Status :=
  if (CheckCallbackNotNull on_video_output).ok then
    ({ c with OnVideoOutput := on_video_output }, OkStatus)
  else (c, CheckCallbackNotNull on_video_output)

def Container.SetOnFrameSentThrough (c : Container)
    (on_dropped_frame : Option (Bool → Int → Status)) : Container × Status :=
  if (CheckCallbackNotNull on_dropped_frame).ok then
    ({ c with OnFrameSentThrough := on_dropped_frame }, OkStatus)
  else (c, CheckCallbackNotNull on_dropped_frame)

def Container.SetOnCorePerformanceTelemetry (c : Container)
    (on_effective_core_fps_output : Option (ℚ → ℚ → Int → Status)) : Container × Status :=
  if (CheckCallbackNotNull on_effective_core_fps_output).ok then
    ({ c with OnCorePerformanceTelemetry := some on_effective_core_fps_output }, OkStatus)
  else (c, CheckCallbackNotNull on_effective_core_fps_output)

/-! ## Benchmarking (`container_impl.hpp`, lines 209-312) -/

/-- The accessor `mediapipe::Timestamp::Seconds()`: microseconds to seconds. -/
def timestamp_seconds (value : Int) : ℚ := (value : ℚ) / 1000000

/-- The method `Container::AddFrameTimestampToBenchmarkingInfo`; `current_system_seconds` is the
reading of `std::chrono::system_clock::now()`. -/
def Container.AddFrameTimestampToBenchmarkingInfo (c : Container) (timestamp : Int)
    (current_system_seconds : ℚ) : Container :=
  if c.OnCorePerformanceTelemetry.isSome && c.recording then
    { c with
      offset_from_system_time :=
        match c.offset_from_system_time with
        | none => some (current_system_seconds - timestamp_seconds timestamp)
        | some offset => some offset
      frames_in_graph_timestamps := set_insert timestamp c.frames_in_graph_timestamps }
  else c

/-- The `while` loop of `ComputeCorePerformanceTelemetry` (lines 278-281): the distance from
`begin()` to the iterator the loop stops at, i.e. the number of leading records whose
`last_timestamp` lies before `current_window_start`. -/
def benchmarking_info_location (current_window_start : Int) :
    List MetricsBufferBenchmarkingInfo → Nat
  | [] => 0
  | info :: rest =>
      if info.last_timestamp < current_window_start then
        benchmarking_info_location current_window_start rest + 1
      else 0

/-- Lines 273-285: the scan followed by the guarded `erase(begin(), location--)`.  The
post-decrement hands the undecremented iterator to `erase`, so the range erased is
`[begin(), location)`. -/
def trim_benchmarking_info_buffer (current_window_start : Int)
    (buffer : List MetricsBufferBenchmarkingInfo) : List MetricsBufferBenchmarkingInfo :=
  let location := benchmarking_info_location current_window_start buffer
  if location > 0 + 1 then buffer.drop location else buffer

/-- The arguments of one invocation of the performance-telemetry callback. -/
structure TelemetryCall where
  effective_core_fps : ℚ
  effective_core_latency_seconds : ℚ
  first_buffer_input_timestamp : Int

/-- What one call of `ComputeCorePerformanceTelemetry` leaves behind: the container, the
callback invocation it made (if any) and the returned status. -/
structure TelemetryOutcome where
  container : Container
  call : Option TelemetryCall
  status : Status

/-- The loop of lines 292-295, frame-count accumulator. -/
def window_frame_count (buffer : List MetricsBufferBenchmarkingInfo) : Int :=
  buffer.foldl (fun count info => count + info.frame_count) 0

/-- The loop of lines 292-295, latency accumulator. -/
def aggregate_latency_seconds (buffer : List MetricsBufferBenchmarkingInfo) : ℚ :=
  buffer.foldl (fun total info => total + info.latency_seconds) 0

/-- The method `Container::ComputeCorePerformanceTelemetry`; `current_system_seconds` is the
reading of the system clock.  `none` stands for the executions that dereference `begin()` of
an empty container, call `value()` on an empty optional or call an empty function.  Where the
C++ quotient has a zero divisor (an infinity or a NaN), the quotient here is `0`. -/
def Container.ComputeCorePerformanceTelemetry (c : Container)
    (metrics_buffer : physiology.MetricsBuffer) (current_system_seconds : ℚ) :
    Option TelemetryOutcome :=
  match c.OnCorePerformanceTelemetry with
  | none => some ⟨c, none, OkStatus⟩
  | some callback =>
    let last_buffer_input_timestamp := metrics_buffer.metadata.frame_timestamp
    match c.frames_in_graph_timestamps with
    | [] => none
    | first_buffer_input_timestamp :: _ =>
      let frames :=
        set_erase_begin_to_find last_buffer_input_timestamp c.frames_in_graph_timestamps
      match c.offset_from_system_time with
      | none => none
      | some offset =>
        let absolute_last_output_system_seconds :=
          timestamp_seconds last_buffer_input_timestamp + offset
        let buffer_latency_seconds :=
          current_system_seconds - absolute_last_output_system_seconds
        let pushed := c.metrics_buffer_benchmarking_info_buffer ++
          [{ first_timestamp := first_buffer_input_timestamp
             last_timestamp := last_buffer_input_timestamp
             frame_count := metrics_buffer.metadata.frame_count
             latency_seconds := buffer_latency_seconds }]
        let current_window_start :=
          last_buffer_input_timestamp - fps_averaging_window_microseconds
        let buffer := trim_benchmarking_info_buffer current_window_start pushed
        match buffer with
        | [] => none
        | oldest :: _ =>
          let window_total_microseconds := last_buffer_input_timestamp - oldest.first_timestamp
          let effective_core_fps : ℚ :=
            ((window_frame_count buffer - 1 : Int) : ℚ) * 1000000 /
              ((window_total_microseconds : Int) : ℚ)
          let effective_core_latency_seconds : ℚ :=
            aggregate_latency_seconds buffer / (buffer.length : ℚ)
          let c1 : Container :=
            { c with
              frames_in_graph_timestamps := frames
              metrics_buffer_benchmarking_info_buffer := buffer }
          match callback with
          | none => none
          | some on_telemetry =>
            let callback_status := on_telemetry effective_core_fps
              effective_core_latency_seconds first_buffer_input_timestamp
            some ⟨c1,
              some ⟨effective_core_fps, effective_core_latency_seconds,
                first_buffer_input_timestamp⟩,
              if callback_status.ok then OkStatus else callback_status⟩

/-! ## Operation context (`operation_context.cpp`, `packet_helpers.hpp`) -/

/-- A `mediapipe::Packet` carrying a `T`; `contents = none` is the empty packet. -/
structure Packet (T : Type) where
  contents : Option T
  timestamp : Int

/-- What one non-blocking query of a `mediapipe::OutputStreamPoller` finds: `QueueSize()` is
zero, `Next` fails, or `Next` delivers a packet. -/
inductive PollerQuery (T : Type) where
  | queue_empty
  | next_failed
  | next (packet : Packet T)

/-- What `GetPacketContentsIfAny` leaves in its reference parameters, whether it logged the
packet, and its return status. -/
structure PacketContents (T : Type) where
  contents : T
  nonempty_packet_received : Bool
  timestamp : Int
  logged : Bool
  status : Status

/-- The function template `packet_helpers::GetPacketContentsIfAny` (predicate form, with
timestamp).  `report_if` is evaluated on the updated contents, as the lambda passed by the
caller captures them by reference. -/
def GetPacketContentsIfAny {T : Type} (contents : T) (timestamp : Int)
    (poller : PollerQuery T) (stream_name : String) (report_if : T → Bool) :
    PacketContents T :=
  match poller with
  | PollerQuery.queue_empty => ⟨contents, false, timestamp, false, OkStatus⟩
  | PollerQuery.next_failed =>
      ⟨contents, false, timestamp, false,
        UnknownError ("Failed to get packet from output stream " ++ stream_name ++ ".")⟩
  | PollerQuery.next packet =>
      match packet.contents with
      | none => ⟨contents, false, timestamp, false, OkStatus⟩
      | some received => ⟨received, true, packet.timestamp, report_if received, OkStatus⟩

/-- The struct `settings::OperationSettings<OperationMode::Spot>`. -/
structure SpotSettings where
  spot_duration_s : ℚ

/-- The data members of `OperationContext<settings::OperationMode::Spot>` (the poller is
passed to `QueryPollers` as the outcome of its query). -/
structure SpotOperationContext where
  time_left_s : ℚ
  spot_duration_s : ℚ

/-- The constructor of `OperationContext<Spot>`. -/
def SpotOperationContext.new (operation_settings : SpotSettings) : SpotOperationContext :=
  ⟨operation_settings.spot_duration_s, operation_settings.spot_duration_s⟩

/-- The method `OperationContext<Spot>::Reset`. -/
def SpotOperationContext.Reset (ctx : SpotOperationContext) : SpotOperationContext :=
  { ctx with time_left_s := ctx.spot_duration_s }

/-- The outcome of `OperationContext<Spot>::QueryPollers`: the context, the value left in the
reference parameter `operation_state_changed`, whether the packet was logged, the status. -/
structure SpotQuery where
  context : SpotOperationContext
  operation_state_changed : Bool
  logged : Bool
  status : Status

/-- The stream name `physiology::edge::graph::output_streams::spot::kTimeLeft`.  Its literal
is defined outside these sources; it only appears in the error message. -/
def kTimeLeft : String := "time_left"

/-- The method `OperationContext<Spot>::QueryPollers`; `time_left_poller` is what the query of
the time-left stream finds. -/
def SpotOperationContext.QueryPollers (ctx : SpotOperationContext)
    (time_left_poller : PollerQuery ℚ) (verbose : Bool) : SpotQuery :=
  let previous_time_left := ctx.time_left_s
  let got := GetPacketContentsIfAny ctx.time_left_s 0 time_left_poller kTimeLeft
    (fun time_left_s =>
      (decide (time_left_s < ctx.spot_duration_s) && decide (time_left_s ≠ previous_time_left))
        || verbose)
  ⟨{ ctx with time_left_s := got.contents }, got.nonempty_packet_received, got.logged,
    if got.status.ok then OkStatus else got.status⟩

end presage.smartspectra.container

namespace presage.camera

/-- The enum `CameraResolutionRange` (`camera.hpp`). -/
inductive CameraResolutionRange where
  | Low | Mid | High | Ultra | FourK | Giant | Complete | Unspecified_EnumEnd
  deriving DecidableEq, Repr

/-- The enum `CaptureCodec` (`camera.hpp`). -/
inductive CaptureCodec where
  | MJPG | UYVY
  deriving DecidableEq, Repr

namespace opencv

/-- The table `kCommonCameraResolutions` (`camera_opencv_resolution.cpp`, lines 58-164). -/
def kCommonCameraResolutions : List cv.Size := [
  cv.Size.mk 160 120, cv.Size.mk 192 144, cv.Size.mk 256 144, cv.Size.mk 240 160,
  cv.Size.mk 320 240, cv.Size.mk 360 240, cv.Size.mk 384 240, cv.Size.mk 400 240,
  cv.Size.mk 432 240, cv.Size.mk 480 320, cv.Size.mk 480 360, cv.Size.mk 640 360,
  cv.Size.mk 800 433, cv.Size.mk 600 480, cv.Size.mk 640 480, cv.Size.mk 720 480,
  cv.Size.mk 768 480, cv.Size.mk 800 480, cv.Size.mk 854 480, cv.Size.mk 960 480,
  cv.Size.mk 675 540, cv.Size.mk 960 540, cv.Size.mk 720 576, cv.Size.mk 768 576,
  cv.Size.mk 1024 576, cv.Size.mk 750 600, cv.Size.mk 800 600, cv.Size.mk 1024 600,
  cv.Size.mk 960 640, cv.Size.mk 1024 640, cv.Size.mk 1136 640, cv.Size.mk 960 720,
  cv.Size.mk 1152 720, cv.Size.mk 1280 720, cv.Size.mk 1440 720, cv.Size.mk 960 768,
  cv.Size.mk 1024 768, cv.Size.mk 1152 768, cv.Size.mk 1280 768, cv.Size.mk 1366 768,
  cv.Size.mk 1280 800, cv.Size.mk 1152 864, cv.Size.mk 1280 864, cv.Size.mk 1536 864,
  cv.Size.mk 1200 900, cv.Size.mk 1440 900, cv.Size.mk 1600 900, cv.Size.mk 1280 960,
  cv.Size.mk 1440 960, cv.Size.mk 1536 960, cv.Size.mk 1280 1024, cv.Size.mk 1600 1024,
  cv.Size.mk 1400 1050, cv.Size.mk 1680 1050, cv.Size.mk 1440 1080, cv.Size.mk 1920 1080,
  cv.Size.mk 2160 1080, cv.Size.mk 2280 1080, cv.Size.mk 2560 1080, cv.Size.mk 2048 1152,
  cv.Size.mk 1500 1200, cv.Size.mk 1600 1200, cv.Size.mk 1920 1200, cv.Size.mk 1920 1280,
  cv.Size.mk 2048 1280, cv.Size.mk 1920 1440, cv.Size.mk 2160 1440, cv.Size.mk 2304 1440,
  cv.Size.mk 2560 1440, cv.Size.mk 2880 1440, cv.Size.mk 2960 1440, cv.Size.mk 3040 1440,
  cv.Size.mk 3120 1440, cv.Size.mk 3200 1440, cv.Size.mk 3440 1440, cv.Size.mk 5120 1440,
  cv.Size.mk 2048 1536, cv.Size.mk 2304 1536, cv.Size.mk 2400 1600, cv.Size.mk 2560 1600,
  cv.Size.mk 3840 1600, cv.Size.mk 2880 1620, cv.Size.mk 2880 1800, cv.Size.mk 3200 1800,
  cv.Size.mk 2560 1920, cv.Size.mk 2880 1920, cv.Size.mk 3072 1920, cv.Size.mk 2560 2048,
  cv.Size.mk 2732 2048, cv.Size.mk 3200 2048, cv.Size.mk 2880 2160, cv.Size.mk 3240 2160,
  cv.Size.mk 3840 2160, cv.Size.mk 4320 2160, cv.Size.mk 5120 2160, cv.Size.mk 3200 2400,
  cv.Size.mk 3840 2400, cv.Size.mk 3840 2560, cv.Size.mk 4096 2560, cv.Size.mk 5120 2880,
  cv.Size.mk 5760 2880, cv.Size.mk 4096 3072, cv.Size.mk 7680 4320, cv.Size.mk 10240 4320]

/-- The map `kCommonCameraResolutionRanges` (lines 40-48) with `std::map::at`: a key without
an entry makes `at` throw (`none`). -/
def kCommonCameraResolutionRanges : CameraResolutionRange → Option (Int × Int)
  | CameraResolutionRange.Low => some (0, 16)
  | CameraResolutionRange.Mid => some (16, 35)
  | CameraResolutionRange.High => some (35, 61)
  | CameraResolutionRange.Ultra => some (61, 91)
  | CameraResolutionRange.FourK => some (91, 102)
  | CameraResolutionRange.Giant => some (102, 103)
  | CameraResolutionRange.Complete => some (0, 103)
  | CameraResolutionRange.Unspecified_EnumEnd => none

/-- A capture device as `cv::VideoCapture` sees it: whether `open` succeeds for the device
index and API, and the frame size `get` reports after a frame size has been `set`. -/
structure VideoCapture where
  opens : Bool
  frame_size_after_set : cv.Size → cv.Size

/-- The function `CheckCameraWorksWithResolution`: set the size, read it back, compare. -/
def CheckCameraWorksWithResolution (capture : VideoCapture) (resolution : cv.Size) : Bool :=
  let resolution_out := capture.frame_size_after_set resolution
  decide (resolution_out = resolution)

/-- The accumulators of the loop of `GetMaximumCameraResolutionFromRange`. -/
structure ResolutionScan where
  max_width : Int
  max_height : Int
  some_working_resolution_found : Bool
  deriving DecidableEq, Repr

/-- The `for` loop of `GetMaximumCameraResolutionFromRange` (lines 29-36), run over the
indices `i_resolution, i_resolution + 1, ...` (`count` of them).  An index outside the table
is an out-of-bounds `operator[]` (`none`). -/
def scan_resolutions (capture : VideoCapture) :
    Nat → Int → ResolutionScan → Option ResolutionScan
  | 0, _, acc => some acc
  | count + 1, i_resolution, acc =>
      if i_resolution < 0 then none
      else
        match kCommonCameraResolutions[i_resolution.toNat]? with
        | none => none
        | some resolution =>
            if CheckCameraWorksWithResolution capture resolution then
              scan_resolutions capture count (i_resolution + 1)
                ⟨max acc.max_width resolution.width, max acc.max_height resolution.height, true⟩
            else scan_resolutions capture count (i_resolution + 1) acc

/-- The function `GetMaximumCameraResolutionFromRange`; the device index and capture API
select the `capture` that is probed. -/
def GetMaximumCameraResolutionFromRange (capture : VideoCapture)
    (range_to_check : CameraResolutionRange) : Option (Bool × cv.Size) :=
  if !capture.opens then some (false, ⟨0, 0⟩)
  else
    match kCommonCameraResolutionRanges range_to_check with
    | none => none
    | some range =>
        match scan_resolutions capture (range.2 + 1 - range.1).toNat range.1 ⟨0, 0, false⟩ with
        | none => none
        | some acc => some (acc.some_working_resolution_found, ⟨acc.max_width, acc.max_height⟩)

end opencv

end presage.camera

namespace presage.smartspectra.video_source

open absl

/-- The enum `ResolutionSelectionMode`. -/
inductive ResolutionSelectionMode where
  | Auto | Exact | Range | Unknown_EnumEnd
  deriving DecidableEq, Repr

/-- The enum `InputTransformMode`. -/
inductive InputTransformMode where
  | None | Clockwise90 | Counterclockwise90 | Rotate180 | MirrorHorizontal | MirrorVertical
  | Unspecified_EnumEnd
  deriving DecidableEq, Repr

/-- The struct `VideoSourceSettings` (`video_source/settings.hpp`). -/
structure VideoSourceSettings where
  device_index : Int
  resolution_selection_mode : ResolutionSelectionMode
  capture_width_px : Int
  capture_height_px : Int
  resolution_range : camera.CameraResolutionRange
  codec : camera.CaptureCodec
  auto_lock : Bool
  input_transform_mode : InputTransformMode
  input_video_path : String
  input_video_time_path : String
  file_stream_path : String
  end_of_stream_filename : String
  rescan_retry_delay_ms : Int
  erase_read_files : Bool
  loop : Bool

/-- The method `InputTransformer::apply`; `cv_transform` stands for the `cv::rotate` and
`cv::flip` calls of the five transforming modes. -/
def InputTransformer_apply (mode : InputTransformMode)
    (cv_transform : InputTransformMode → cv.Mat → cv.Mat) (frame : cv.Mat) : cv.Mat :=
  if frame.empty then frame
  else
    match mode with
    | InputTransformMode.None => frame
    | InputTransformMode.Unspecified_EnumEnd => frame
    | transforming => cv_transform transforming frame

namespace file_stream

/-! ## The stream directory -/

/-- One entry of the stream directory: its file name, whether it is a regular file, and the
image `cv::imread` decodes from it (the empty `cv::Mat` when it does not decode). -/
structure DirectoryEntry where
  filename : String
  is_regular_file : Bool
  image : cv.Mat
  deriving DecidableEq, Repr

/-- The stream directory, in the order `std::filesystem::directory_iterator` lists it.  A path
inside the directory is identified with its file name. -/
abbrev Directory := List DirectoryEntry

/-- The call `std::filesystem::exists(directory / filename)` for a non-empty `filename`:
whether the directory lists an entry of that name.  (For the empty name the path is the
directory itself; see `FileStreamVideoSource.end_of_stream_path_exists`.) -/
def filesystem_exists (directory : Directory) (filename : String) : Bool :=
  directory.any (fun entry => entry.filename == filename)

/-- The call `std::filesystem::remove(directory / filename)`. -/
def filesystem_remove (directory : Directory) (filename : String) : Directory :=
  directory.filter (fun entry => entry.filename != filename)

/-- The call `cv::imread(directory / filename, cv::IMREAD_UNCHANGED)`: the image of the file,
the empty `cv::Mat` when there is no such file. -/
def imread (directory : Directory) (filename : String) : cv.Mat :=
  match directory.find? (fun entry => entry.filename == filename) with
  | some entry => entry.image
  | none => cv.Mat.mk0

/-- The statement `file_paths[key] = path` on a `std::map<int64_t, std::filesystem::path>`. -/
def map_assign (key : Int) (path : String) : List (Int × String) → List (Int × String)
  | [] => [(key, path)]
  | (k, p) :: rest =>
      if key < k then (key, path) :: (k, p) :: rest
      else if key = k then (key, path) :: rest
      else (k, p) :: map_assign key path rest

/-- The distance from `begin()` of the iterator `m.find(key)`; `none` is `end()`. -/
def map_find (key : Int) : List (Int × String) → Option Nat
  | [] => none
  | (k, _) :: rest => if k = key then some 0 else (map_find key rest).map (· + 1)

/-- The constant `FileStreamVideoSource::kTimestampNotYetSet`. -/
def kTimestampNotYetSet : Int := -1

/-- The value `std::numeric_limits<int64_t>::max()`. -/
def int64_max : Int := 9223372036854775807

/-- The data members of `FileStreamVideoSource` (`file_stream.hpp`) and the transform mode of
its `VideoSource` base.  `frame_filename_regex` is the compiled regular expression as it is
used: `std::regex_match` followed by `std::stoll` of the first group (a run of decimal
digits, hence a natural number), `none` when the name does not match; names whose digits
exceed the `int64_t` range, on which `std::stoll` throws, are outside the model.
`current_frame_data` is the iterator into `loop_frame_filenames`, as its distance from
`begin()`. -/
structure FileStreamVideoSource where
  input_transformer_mode : InputTransformMode
  frame_filename_regex : String → Option Nat
  end_of_stream_filename : String
  retry_delay_ms : Int
  erase_read_files : Bool
  loop : Bool
  current_frame_timestamp : Int
  end_of_stream_encountered : Bool
  loop_frame_filenames : List (Int × String)
  current_frame_data : Nat
  first_frame_width : Int
  first_frame_height : Int

/-- A default-constructed `FileStreamVideoSource` (default member initialisers; the two flags
without an initialiser are taken as `false`). -/
def FileStreamVideoSource.new : FileStreamVideoSource where
  input_transformer_mode := InputTransformMode.None
  frame_filename_regex := fun _ => none
  end_of_stream_filename := ""
  retry_delay_ms := 10
  erase_read_files := false
  loop := false
  current_frame_timestamp := kTimestampNotYetSet
  end_of_stream_encountered := false
  loop_frame_filenames := []
  current_frame_data := 0
  first_frame_width := -1
  first_frame_height := -1

/-- The loop body of `ScanInputDirectory` folded over the directory listing: the flag
`end_of_stream_encountered` and the map `file_paths` built so far are threaded through.
`std::stoll` (line 173) throws `std::out_of_range`, which nothing catches, when the digits of
a matching name exceed `int64_max`; the fold is the scan on listings where every matching
regular file has an index of at most `int64_max`, and statements over arbitrary listings
carry that bound as a hypothesis. -/
def scan_entries (frame_filename_regex : String → Option Nat)
    (end_of_stream_filename : String) :
    Directory → Bool → List (Int × String) → Bool × List (Int × String)
  | [], end_of_stream_encountered, file_paths => (end_of_stream_encountered, file_paths)
  | entry :: rest, end_of_stream_encountered, file_paths =>
      if !end_of_stream_encountered && entry.filename == end_of_stream_filename then
        scan_entries frame_filename_regex end_of_stream_filename rest true file_paths
      else if entry.is_regular_file then
        match frame_filename_regex entry.filename with
        | some i_frame =>
            scan_entries frame_filename_regex end_of_stream_filename rest
              end_of_stream_encountered (map_assign (i_frame : Int) entry.filename file_paths)
        | none =>
            scan_entries frame_filename_regex end_of_stream_filename rest
              end_of_stream_encountered file_paths
      else
        scan_entries frame_filename_regex end_of_stream_filename rest
          end_of_stream_encountered file_paths

/-- The method `FileStreamVideoSource::ScanInputDirectory`. -/
def FileStreamVideoSource.ScanInputDirectory (source : FileStreamVideoSource)
    (directory : Directory) : FileStreamVideoSource × List (Int × String) :=
  let scanned := scan_entries source.frame_filename_regex source.end_of_stream_filename
    directory source.end_of_stream_encountered []
  ({ source with end_of_stream_encountered := scanned.1 }, scanned.2)

/-- Why a pull produced no frame in the model. -/
inductive Fault where
  | undefined_behaviour
  | still_waiting
  deriving DecidableEq, Repr

/-- Lines 85-92: with `erase_read_files`, remove the files in front of the current frame. -/
def erase_up_to_current (current_frame_timestamp : Int) :
    List (Int × String) → Directory → Directory
  | [], directory => directory
  | (timestamp, path) :: rest, directory =>
      if timestamp < current_frame_timestamp then
        erase_up_to_current current_frame_timestamp rest (filesystem_remove directory path)
      else directory

/-- One pass through the body of the `while` loop of `ProducePreTransformFrame` (lines 40-93).
The frame component is `some` when the pass sets
`confirmed_next_frame_or_end_of_stream_written`, and `none` when the pass ends in a sleep.
`std::next` of `end()` is undefined (`Except.error`). -/
def FileStreamVideoSource.scan_pass (source : FileStreamVideoSource) (directory : Directory) :
    Except Fault (FileStreamVideoSource × Directory × Option cv.Mat) :=
  let scanned := source.ScanInputDirectory directory
  let source := scanned.1
  let file_paths := scanned.2
  if file_paths.isEmpty ||
      (source.current_frame_timestamp == kTimestampNotYetSet && file_paths.length == 1) then
    Except.ok (source, directory, none)
  else
    let latest_frame_present_timestamp := (file_paths.getLast?.map Prod.fst).getD (-1)
    let frame_data_pair : Option Nat :=
      if source.current_frame_timestamp == kTimestampNotYetSet then some 0
      else (map_find source.current_frame_timestamp file_paths).map (· + 1)
    match frame_data_pair with
    | none => Except.error Fault.undefined_behaviour
    | some position =>
      let stepped : FileStreamVideoSource × Directory × Option cv.Mat :=
        match file_paths[position]? with
        | some (timestamp, path) =>
            if latest_frame_present_timestamp > timestamp || source.end_of_stream_encountered
            then
              ({ source with current_frame_timestamp := timestamp }, directory,
                some (imread directory path))
            else (source, directory, none)
        | none =>
            if source.end_of_stream_encountered then
              ({ source with current_frame_timestamp := int64_max },
                if source.erase_read_files then
                  filesystem_remove directory source.end_of_stream_filename
                else directory,
                some cv.Mat.mk0)
            else (source, directory, none)
      if source.erase_read_files then
        Except.ok (stepped.1,
          erase_up_to_current stepped.1.current_frame_timestamp file_paths stepped.2.1,
          stepped.2.2)
      else Except.ok stepped

/-- The `while` loop of `ProducePreTransformFrame`, at most `rescans` passes.  Between two
passes the thread sleeps; the directory is changed by this source only. -/
def FileStreamVideoSource.rescan_loop :
    Nat → FileStreamVideoSource → Directory →
      Except Fault (FileStreamVideoSource × Directory × cv.Mat)
  | 0, _, _ => Except.error Fault.still_waiting
  | rescans + 1, source, directory =>
      match source.scan_pass directory with
      | Except.error fault => Except.error fault
      | Except.ok (source, directory, some frame) => Except.ok (source, directory, frame)
      | Except.ok (source, directory, none) =>
          FileStreamVideoSource.rescan_loop rescans source directory

/-- The call `std::filesystem::exists(this->end_of_stream_path)` of the loop branch (line 22),
where `Initialize` set `end_of_stream_path = directory / end_of_stream_filename`.  With an
empty `end_of_stream_filename` that path is the stream directory itself, which exists. -/
def FileStreamVideoSource.end_of_stream_path_exists (source : FileStreamVideoSource)
    (directory : Directory) : Bool :=
  source.end_of_stream_filename.isEmpty ||
    filesystem_exists directory source.end_of_stream_filename

/-- The method `FileStreamVideoSource::ProducePreTransformFrame`.  `rescans` bounds the number
of passes of the `while` loop of the non-loop branch.  In the loop branch, dereferencing
`current_frame_data` when it is `end()` is undefined. -/
def FileStreamVideoSource.ProducePreTransformFrame (rescans : Nat)
    (source : FileStreamVideoSource) (directory : Directory) :
    Except Fault (FileStreamVideoSource × Directory × cv.Mat) :=
  if source.loop then
    if source.end_of_stream_path_exists directory then
      Except.ok (source, directory, cv.Mat.mk0)
    else
      match source.loop_frame_filenames[source.current_frame_data]? with
      | none => Except.error Fault.undefined_behaviour
      | some (_, path) =>
          let frame := imread directory path
          let next_frame_data := source.current_frame_data + 1
          let current_frame_data :=
            if next_frame_data == source.loop_frame_filenames.length then 0
            else next_frame_data
          match source.loop_frame_filenames[current_frame_data]? with
          | none => Except.error Fault.undefined_behaviour
          | some (timestamp, _) =>
              Except.ok ({ source with
                  current_frame_data := current_frame_data
                  current_frame_timestamp := timestamp }, directory, frame)
  else FileStreamVideoSource.rescan_loop rescans source directory

/-- The operator `VideoSource::operator>>` on a `FileStreamVideoSource`. -/
def FileStreamVideoSource.operator_shr (rescans : Nat)
    (cv_transform : InputTransformMode → cv.Mat → cv.Mat)
    (source : FileStreamVideoSource) (directory : Directory) :
    Except Fault (FileStreamVideoSource × Directory × cv.Mat) :=
  match FileStreamVideoSource.ProducePreTransformFrame rescans source directory with
  | Except.error fault => Except.error fault
  | Except.ok (source, directory, frame) =>
      Except.ok (source, directory,
        InputTransformer_apply source.input_transformer_mode cv_transform frame)

/-- The file-name component `std::filesystem::path(p).filename()` of a path. -/
def path_filename (path : String) : String := (path.splitOn "/").getLastD ""

/-- The method `FileStreamVideoSource::Initialize` on a default-constructed source.
`BuildFrameFileNameRegex` is the static method of that name, taking the mask to the compiled
expression or to its error status; `create_directory` is the status returned by
`CreateDirectoryIfMissing`, after which `directory` is the content of the stream directory. -/
def FileStreamVideoSource.Initialize
    (BuildFrameFileNameRegex : String → Except Status (String → Option Nat))
    (create_directory : Status) (settings : VideoSourceSettings) (directory : Directory) :
    FileStreamVideoSource × Status :=
  let source : FileStreamVideoSource :=
    { FileStreamVideoSource.new with
      input_transformer_mode :=
        if settings.input_transform_mode = InputTransformMode.Unspecified_EnumEnd then
          InputTransformMode.None
        else settings.input_transform_mode }
  match BuildFrameFileNameRegex (path_filename settings.file_stream_path) with
  | Except.error status => (source, status)
  | Except.ok frame_filename_regex =>
    let source : FileStreamVideoSource :=
      { source with
        frame_filename_regex := frame_filename_regex
        end_of_stream_filename := settings.end_of_stream_filename
        retry_delay_ms := settings.rescan_retry_delay_ms
        erase_read_files := settings.erase_read_files
        loop := settings.loop }
    if settings.erase_read_files && settings.loop then
      (source, InvalidArgumentError "Cannot erase read files when looping.")
    else if !create_directory.ok then (source, create_directory)
    else
      let scanned := source.ScanInputDirectory directory
      let source : FileStreamVideoSource :=
        if source.loop then
          { scanned.1 with loop_frame_filenames := scanned.2, current_frame_data := 0 }
        else scanned.1
      match scanned.2 with
      | [] => (source, OkStatus)
      | (_, first_frame_path) :: _ =>
          let first_frame := imread directory first_frame_path
          ({ source with
              first_frame_width := first_frame.cols
              first_frame_height := first_frame.rows }, OkStatus)

end file_stream

end presage.smartspectra.video_source

/-! ## Call sequences -/

namespace presage.smartspectra.container

/-- The calls `AddFrameTimestampToBenchmarkingInfo(t)` for the timestamps `t` of a list, in
order; `clock t` is the system clock reading at the call for `t`. -/
def Container.AddFrameTimestamps (c : Container) (clock : Int → ℚ) (timestamps : List Int) :
    Container :=
  timestamps.foldl (fun c t => c.AddFrameTimestampToBenchmarkingInfo t (clock t)) c

/-- The assignment `this->recording = value`, made by the derived containers. -/
def Container.set_recording (c : Container) (value : Bool) : Container :=
  { c with recording := value }

/-- A container whose performance-telemetry callback has been registered through
`SetOnCorePerformanceTelemetry` and whose `recording` flag has been switched on. -/
def Container.benchmarked (now_us : Int) (on_telemetry : ℚ → ℚ → Int → absl.Status) :
    Container :=
  ((Container.new now_us).SetOnCorePerformanceTelemetry (some on_telemetry)).1.set_recording true

/-- The polls of a spot-mode run: `QueryPollers` once per element, each with what the poller
finds and the `verbose` flag. -/
def SpotOperationContext.QueryPollersMany (ctx : SpotOperationContext)
    (queries : List (PollerQuery ℚ × Bool)) : SpotOperationContext :=
  queries.foldl (fun ctx query => (ctx.QueryPollers query.1 query.2).context) ctx

end presage.smartspectra.container

namespace presage.smartspectra.video_source.file_stream

/-- The map entry `ScanInputDirectory` makes for a directory entry: the frame index and the
path of a regular file whose name matches the frame-name expression. -/
def frame_file_key (frame_filename_regex : String → Option Nat) (entry : DirectoryEntry) :
    Option (Int × String) :=
  if entry.is_regular_file then
    (frame_filename_regex entry.filename).map
      (fun (i_frame : Nat) => ((i_frame : Int), entry.filename))
  else none

/-- A frame-name expression for the mask `frame_0000.png`, tabulated on the five names
`frame_0000.png` to `frame_0004.png`. -/
def sample_frame_filename_regex (filename : String) : Option Nat :=
  if filename = "frame_0000.png" then some 0
  else if filename = "frame_0001.png" then some 1
  else if filename = "frame_0002.png" then some 2
  else if filename = "frame_0003.png" then some 3
  else if filename = "frame_0004.png" then some 4
  else none

/-- A one-pixel image with the given value. -/
def sample_image (value : Nat) : cv.Mat := ⟨1, 1, [value]⟩

/-- The five frame files `frame_0000.png` to `frame_0004.png`, each with its own image. -/
def sample_frames : List (Nat × DirectoryEntry) :=
  [(0, ⟨"frame_0000.png", true, sample_image 10⟩),
   (1, ⟨"frame_0001.png", true, sample_image 11⟩),
   (2, ⟨"frame_0002.png", true, sample_image 12⟩),
   (3, ⟨"frame_0003.png", true, sample_image 13⟩),
   (4, ⟨"frame_0004.png", true, sample_image 14⟩)]

/-- A listing of the directory that holds the five sample frame files, in no particular
order. -/
def sample_loop_directory : Directory :=
  [⟨"frame_0002.png", true, sample_image 12⟩,
   ⟨"frame_0000.png", true, sample_image 10⟩,
   ⟨"frame_0004.png", true, sample_image 14⟩,
   ⟨"frame_0001.png", true, sample_image 11⟩,
   ⟨"frame_0003.png", true, sample_image 13⟩]

/-- The same directory once the `end_of_stream` marker has been written. -/
def sample_directory : Directory :=
  ⟨"end_of_stream", true, cv.Mat.mk0⟩ :: sample_loop_directory

/-- Settings of a file-stream source over the sample directory (non-loop, no erasure). -/
def sample_settings : VideoSourceSettings where
  device_index := 0
  resolution_selection_mode := ResolutionSelectionMode.Auto
  capture_width_px := -1
  capture_height_px := -1
  resolution_range := camera.CameraResolutionRange.Unspecified_EnumEnd
  codec := camera.CaptureCodec.MJPG
  auto_lock := false
  input_transform_mode := InputTransformMode.None
  input_video_path := ""
  input_video_time_path := ""
  file_stream_path := "stream/frame_0000.png"
  end_of_stream_filename := "end_of_stream"
  rescan_retry_delay_ms := 0
  erase_read_files := false
  loop := false

/-- Successive pulls `source >> frame`, `pulls` of them, on a directory that only this source
changes; the frames are collected in order. -/
def FileStreamVideoSource.pull_frames (rescans : Nat)
    (cv_transform : InputTransformMode → cv.Mat → cv.Mat) :
    Nat → FileStreamVideoSource → Directory → Except Fault (List cv.Mat)
  | 0, _, _ => Except.ok []
  | pulls + 1, source, directory =>
      match FileStreamVideoSource.operator_shr rescans cv_transform source directory with
      | Except.error fault => Except.error fault
      | Except.ok (source, directory, frame) =>
          match FileStreamVideoSource.pull_frames rescans cv_transform pulls source directory with
          | Except.error fault => Except.error fault
          | Except.ok frames => Except.ok (frame :: frames)

end presage.smartspectra.video_source.file_stream

namespace presage.camera.opencv

/-- A capture device that opens and accepts exactly the frame sizes of `accepted`: a request
for any other size leaves it at `fallback`. -/
def camera_accepting (accepted : List cv.Size) (fallback : cv.Size) : VideoCapture :=
  ⟨true, fun requested => if requested ∈ accepted then requested else fallback⟩

/-- The entries of `kCommonCameraResolutions` a named range covers (both ends included). -/
def resolutions_of_range (range : CameraResolutionRange) : List cv.Size :=
  match kCommonCameraResolutionRanges range with
  | none => []
  | some bounds =>
      (kCommonCameraResolutions.drop bounds.1.toNat).take (bounds.2 + 1 - bounds.1).toNat

end presage.camera.opencv

namespace presage.smartspectra.video_source.file_stream

/-- Successive calls of `ProducePreTransformFrame`, `pulls` of them, on a directory that only
this source changes: the source and the directory after the last call, and the frames in
order. -/
def FileStreamVideoSource.pulled (rescans : Nat) :
    Nat → FileStreamVideoSource → Directory →
      Except Fault (FileStreamVideoSource × Directory × List cv.Mat)
  | 0, source, directory => Except.ok (source, directory, [])
  | pulls + 1, source, directory =>
      match FileStreamVideoSource.ProducePreTransformFrame rescans source directory with
      | Except.error fault => Except.error fault
      | Except.ok (source, directory, frame) =>
          match FileStreamVideoSource.pulled rescans pulls source directory with
          | Except.error fault => Except.error fault
          | Except.ok (source, directory, frames) =>
              Except.ok (source, directory, frame :: frames)

/-- A frame-name expression for the mask `frame_0000000000000000000.png` (nineteen digits),
tabulated on the two names of `wide_directory`; `std::stoll` reads the second index as
`INT64_MAX`. -/
def wide_frame_filename_regex (filename : String) : Option Nat :=
  if filename = "frame_0000000000000000000.png" then some 0
  else if filename = "frame_9223372036854775807.png" then some 9223372036854775807
  else none

/-- A finished stream of two frames under a nineteen-digit mask, the second with the largest
index an `int64_t` holds. -/
def wide_directory : Directory :=
  [⟨"end_of_stream", true, cv.Mat.mk0⟩,
   ⟨"frame_0000000000000000000.png", true, sample_image 10⟩,
   ⟨"frame_9223372036854775807.png", true, sample_image 11⟩]

/-- Settings of a non-loop source that erases read files, over `wide_directory`. -/
def wide_settings : VideoSourceSettings :=
  { sample_settings with
    file_stream_path := "stream/frame_0000000000000000000.png"
    erase_read_files := true }

end presage.smartspectra.video_source.file_stream

namespace presage.smartspectra.container

open absl

/-! ## The calculator graph as the containers drive it

`mediapipe::CalculatorGraph` is an external library class.  The containers only call it; what
each call answers is a parameter (`GraphResponses`), and the graph value records which calls
were made. -/

/-- The template parameter `platform_independence::DeviceType`. -/
inductive DeviceType where
  | Cpu
  | OpenGl
  deriving DecidableEq, Repr

/-- The template parameter `settings::OperationMode`. -/
inductive OperationMode where
  | Spot
  | Continuous
  deriving DecidableEq, Repr

/-- The graph input streams the containers feed (`graph::input_streams`). -/
inductive InputStream where
  | kRecording
  | kInputVideo
  deriving DecidableEq, Repr

/-- The graph output streams the containers observe or poll (`graph::output_streams`). -/
inductive OutputStream where
  | kStatusCode
  | kMetricsBuffer
  | kEdgeMetrics
  | kOutputVideo
  | kFrameSentThrough
  | kBlueTooth
  | kTimeLeft
  deriving DecidableEq, Repr

/-- What an input packet carries: `MakePacket<bool>` or an adopted image frame. -/
inductive InputPayload where
  | flag (value : Bool)
  | image (frame : cv.Mat)
  deriving DecidableEq, Repr

/-- A packet handed to `AddPacketToInputStream`: the stream, the payload and the timestamp
given to `At`. -/
structure InputPacket where
  stream : InputStream
  payload : InputPayload
  timestamp : Int
  deriving DecidableEq, Repr

/-- The calls a container has made on its `mediapipe::CalculatorGraph`: the streams with an
observer attached and with a poller added (in call order), every `AddPacketToInputStream`
call with the status it returned (in call order), whether `StartRun` succeeded, and what
`GraphInputStreamsClosed()` answers. -/
structure CalculatorGraph where
  observed_streams : List OutputStream
  polled_streams : List OutputStream
  input_packets : List (InputPacket × Status)
  run_started : Bool
  input_streams_closed : Bool
  deriving DecidableEq, Repr

/-- A graph on which no call has been made. -/
def CalculatorGraph.new : CalculatorGraph := ⟨[], [], [], false, false⟩

/-- The status each graph call returns, given the calls made so far. -/
structure GraphResponses where
  ObserveOutputStream : CalculatorGraph → OutputStream → Status
  AddOutputStreamPoller : CalculatorGraph → OutputStream → Status
  StartRun : CalculatorGraph → Status
  WaitUntilIdle : CalculatorGraph → Status
  AddPacketToInputStream : CalculatorGraph → InputPacket → Status
  CloseAllInputStreams : CalculatorGraph → Status
  CloseAllPacketSources : CalculatorGraph → Status
  WaitUntilDone : CalculatorGraph → Status

/-- A graph that accepts every call. -/
def GraphResponses.accepting : GraphResponses where
  ObserveOutputStream := fun _ _ => OkStatus
  AddOutputStreamPoller := fun _ _ => OkStatus
  StartRun := fun _ => OkStatus
  WaitUntilIdle := fun _ => OkStatus
  AddPacketToInputStream := fun _ _ => OkStatus
  CloseAllInputStreams := fun _ => OkStatus
  CloseAllPacketSources := fun _ => OkStatus
  WaitUntilDone := fun _ => OkStatus

/-- The call `graph.ObserveOutputStream(stream, observer)`. -/
def CalculatorGraph.ObserveOutputStream (responses : GraphResponses) (graph : CalculatorGraph)
    (stream : OutputStream) : CalculatorGraph × Status :=
  let status := responses.ObserveOutputStream graph stream
  (if status.ok then { graph with observed_streams := graph.observed_streams ++ [stream] }
    else graph, status)

/-- The call `graph.AddOutputStreamPoller(stream)`. -/
def CalculatorGraph.AddOutputStreamPoller (responses : GraphResponses)
    (graph : CalculatorGraph) (stream : OutputStream) : CalculatorGraph × Status :=
  let status := responses.AddOutputStreamPoller graph stream
  (if status.ok then { graph with polled_streams := graph.polled_streams ++ [stream] }
    else graph, status)

/-- The call `graph.StartRun({})`. -/
def CalculatorGraph.StartRun (responses : GraphResponses) (graph : CalculatorGraph) :
    CalculatorGraph × Status :=
  let status := responses.StartRun graph
  (if status.ok then { graph with run_started := true } else graph, status)

/-- The call `graph.AddPacketToInputStream(stream, packet)`. -/
def CalculatorGraph.AddPacketToInputStream (responses : GraphResponses)
    (graph : CalculatorGraph) (packet : InputPacket) : CalculatorGraph × Status :=
  let status := responses.AddPacketToInputStream graph packet
  ({ graph with input_packets := graph.input_packets ++ [(packet, status)] }, status)

/-- The call `graph.CloseAllInputStreams()`. -/
def CalculatorGraph.CloseAllInputStreams (responses : GraphResponses)
    (graph : CalculatorGraph) : CalculatorGraph × Status :=
  let status := responses.CloseAllInputStreams graph
  (if status.ok then { graph with input_streams_closed := true } else graph, status)

/-- The function `image_transfer::FeedFrameToGraph<TDeviceType>` (`image_transfer.cpp`): one
`AddPacketToInputStream` call.  On the OpenGL device the call is made by the function passed
to `gpu_helper.RunInGlContext`, which runs it in the GL context set up by
`InitializeComputingDevice` and returns its status. -/
def FeedFrameToGraph (device_type : DeviceType) (responses : GraphResponses)
    (input_frame : cv.Mat) (graph : CalculatorGraph) (frame_timestamp : Int)
    (video_stream : InputStream) : CalculatorGraph × Status :=
  match device_type with
  | DeviceType.Cpu =>
      graph.AddPacketToInputStream responses
        ⟨video_stream, InputPayload.image input_frame, frame_timestamp⟩
  | DeviceType.OpenGl =>
      let added := graph.AddPacketToInputStream responses
        ⟨video_stream, InputPayload.image input_frame, frame_timestamp⟩
      (added.1, if added.2.ok then OkStatus else added.2)

/-- The class template `OperationContext<TOperationMode>`: no state in continuous mode, the
spot state in spot mode. -/
inductive OperationContext where
  | Continuous
  | Spot (context : SpotOperationContext)

/-- The template argument an operation context was instantiated with. -/
def OperationContext.mode : OperationContext → OperationMode
  | OperationContext.Continuous => OperationMode.Continuous
  | OperationContext.Spot _ => OperationMode.Spot

/-- The method `OperationContext<TOperationMode>::Reset`. -/
def OperationContext.Reset : OperationContext → OperationContext
  | OperationContext.Continuous => OperationContext.Continuous
  | OperationContext.Spot context => OperationContext.Spot context.Reset

/-- The method `OperationContext<TOperationMode>::QueryPollers`: the context and the status. -/
def OperationContext.QueryPollers (context : OperationContext)
    (time_left_poller : PollerQuery ℚ) (verbose : Bool) : OperationContext × Status :=
  match context with
  | OperationContext.Continuous => (OperationContext.Continuous, OkStatus)
  | OperationContext.Spot spot =>
      let query := spot.QueryPollers time_left_poller verbose
      (OperationContext.Spot query.context, query.status)

/-- A call the container code makes while it handles graph output: one of the user callbacks
with its arguments, or the member function `ComputeCorePerformanceTelemetry` with the batch
it is given. -/
inductive Invocation where
  | OnStatusChange (status : physiology.StatusValue)
  | OnCoreMetricsOutput (metrics_buffer : physiology.MetricsBuffer) (input_timestamp : Int)
  | OnEdgeMetricsOutput (metrics : physiology.Metrics)
  | OnVideoOutput (output_frame : cv.Mat) (input_timestamp : Int)
  | OnFrameSentThrough (frame_sent_through : Bool) (input_timestamp : Int)
  | ComputeCorePerformanceTelemetry (metrics_buffer : physiology.MetricsBuffer)
  deriving DecidableEq, Repr

/-- The calls made by a piece of container code, in order, and where it ended: `none` when it
ran into undefined behaviour or an exception (a call of an empty `std::function`, a null
`video_source`, `begin()` of an empty set), otherwise the state and the returned status. -/
structure Handled (State : Type) where
  invocations : List Invocation
  outcome : Option (State × Status)

end presage.smartspectra.container

namespace presage.smartspectra.container

open absl

/-! ## The asynchronous container (`background_container_impl.hpp`) -/

/-- The fields of `settings::GeneralSettings` the containers read. -/
structure GeneralSettings where
  video_source : video_source.VideoSourceSettings
  headless : Bool
  interframe_delay_ms : Int
  start_with_recording_on : Bool
  start_time_offset_ms : Int
  enable_edge_metrics : Bool
  verbosity_level : Int

/-- The operation part of `settings::Settings<TOperationMode, TIntegrationMode>`. -/
inductive OperationSettings where
  | Continuous
  | Spot (spot : SpotSettings)

/-- The constructor of `OperationContext<TOperationMode>`. -/
def OperationContext.new : OperationSettings → OperationContext
  | OperationSettings.Continuous => OperationContext.Continuous
  | OperationSettings.Spot spot => OperationContext.Spot (SpotOperationContext.new spot)

/-- The data members of `BackgroundContainer`: those of `Container` listed above, the further
base-class members `settings`, `graph`, `output_frame_bgr` and `operation_context`, the member
`previous_status_code`, and the template argument `TDeviceType`. -/
structure BackgroundContainer extends Container where
  device_type : DeviceType
  settings : GeneralSettings
  graph : CalculatorGraph
  output_frame_bgr : cv.Mat
  operation_context : OperationContext
  previous_status_code : physiology.StatusCode

/-- The constructor `BackgroundContainer::BackgroundContainer` with the default member
initialisers. -/
def BackgroundContainer.new (device_type : DeviceType) (settings : GeneralSettings)
    (operation : OperationSettings) (now_us : Int) : BackgroundContainer where
  toContainer := Container.new now_us
  device_type := device_type
  settings := settings
  graph := CalculatorGraph.new
  output_frame_bgr := cv.Mat.mk0
  operation_context := OperationContext.new operation
  previous_status_code := physiology.StatusCode.PROCESSING_NOT_STARTED

/-- The method `BackgroundContainer::GraphIsRunning`. -/
def BackgroundContainer.GraphIsRunning (c : BackgroundContainer) : Bool := c.running

/-- The static function template `CheckCallbackNotNull(callback_name, callback)` of
`background_container_impl.hpp` (lines 59-68). -/
def BackgroundContainer.CheckCallbackNotNull {Sig : Type} (callback_name : String)
    (callback : Option Sig) : Status :=
  match callback with
  | none =>
      InvalidArgumentError (callback_name ++
        " callback is nullptr. Expecting a valid callback. " ++
        "Please ensure your callback doesn\x27t go out of scope and get destroyed while the graph is running.")
  | some _ => OkStatus

/-- One `MP_RETURN_IF_ERROR(CheckCallbackNotNull(..))` followed by
`MP_RETURN_IF_ERROR(graph.ObserveOutputStream(..))` of `StartGraph`: the container and the
status of the first of the two that failed (`OkStatus` when neither did). -/
def BackgroundContainer.check_and_observe {Sig : Type} (responses : GraphResponses)
    (c : BackgroundContainer) (callback_name : String) (callback : Option Sig)
    (stream : OutputStream) : BackgroundContainer × Status :=
  let checked := BackgroundContainer.CheckCallbackNotNull callback_name callback
  if checked.ok then
    let observed := c.graph.ObserveOutputStream responses stream
    ({ c with graph := observed.1 }, observed.2)
  else (c, checked)

/-- The method `BackgroundContainer::StartGraph` (lines 70-163). -/
def BackgroundContainer.StartGraph (responses : GraphResponses) (c : BackgroundContainer) :
    BackgroundContainer × Status :=
  if !c.initialized then (c, FailedPreconditionError "Container not initialized.")
  else
    let c := { c with running := true, operation_context := c.operation_context.Reset }
    let status_code :=
      c.check_and_observe responses "OnStatusChange" c.OnStatusChange OutputStream.kStatusCode
    if !status_code.2.ok then status_code
    else
      let c := status_code.1
      let core_metrics := c.check_and_observe responses "OnCoreMetricsOutput"
        c.OnCoreMetricsOutput OutputStream.kMetricsBuffer
      if !core_metrics.2.ok then core_metrics
      else
        let c := core_metrics.1
        let edge_metrics :=
          if c.operation_context.mode = OperationMode.Continuous
              ∧ c.settings.enable_edge_metrics = true then
            c.check_and_observe responses "OnEdgeMetricsOutput" c.OnEdgeMetricsOutput
              OutputStream.kEdgeMetrics
          else (c, OkStatus)
        if !edge_metrics.2.ok then edge_metrics
        else
          let c := edge_metrics.1
          let output_video := c.check_and_observe responses "OnVideoOutput" c.OnVideoOutput
            OutputStream.kOutputVideo
          if !output_video.2.ok then output_video
          else
            let c := output_video.1
            let frame_sent_through := c.check_and_observe responses "OnFrameSentThrough"
              c.OnFrameSentThrough OutputStream.kFrameSentThrough
            if !frame_sent_through.2.ok then frame_sent_through
            else
              let c := frame_sent_through.1
              let started := c.graph.StartRun responses
              let c := { c with graph := started.1 }
              if !started.2.ok then (c, started.2)
              else
                let idle := responses.WaitUntilIdle c.graph
                if !idle.ok then (c, idle)
                else ({ c with running := true }, OkStatus)

/-- The observer `StartGraph` attaches to `kStatusCode` (lines 78-92). -/
def BackgroundContainer.status_observer (c : BackgroundContainer)
    (status_packet : Packet physiology.StatusValue) : Handled BackgroundContainer :=
  match status_packet.contents with
  | none => ⟨[], some (c, OkStatus)⟩
  | some status =>
      if status.value ≠ c.previous_status_code then
        let c := { c with previous_status_code := status.value }
        match c.OnStatusChange with
        | none => ⟨[], none⟩
        | some on_status_change =>
            ⟨[Invocation.OnStatusChange status], some (c, on_status_change status)⟩
      else ⟨[], some (c, OkStatus)⟩

/-- The observer `StartGraph` attaches to `kMetricsBuffer` (lines 94-107);
`current_system_seconds` is the clock reading inside `ComputeCorePerformanceTelemetry`. -/
def BackgroundContainer.metrics_observer (c : BackgroundContainer)
    (output_packet : Packet physiology.MetricsBuffer) (current_system_seconds : ℚ) :
    Handled BackgroundContainer :=
  match output_packet.contents with
  | none => ⟨[], some (c, OkStatus)⟩
  | some metrics_buffer =>
      let computed := [Invocation.ComputeCorePerformanceTelemetry metrics_buffer]
      match c.toContainer.ComputeCorePerformanceTelemetry metrics_buffer
          current_system_seconds with
      | none => ⟨computed, none⟩
      | some telemetry =>
          let c := { c with toContainer := telemetry.container }
          if !telemetry.status.ok then ⟨computed, some (c, telemetry.status)⟩
          else
            match c.OnCoreMetricsOutput with
            | none => ⟨computed, none⟩
            | some on_core_metrics_output =>
                ⟨computed ++
                    [Invocation.OnCoreMetricsOutput metrics_buffer output_packet.timestamp],
                  some (c, on_core_metrics_output metrics_buffer output_packet.timestamp)⟩

/-- The method `BackgroundContainer::WaitUntilGraphIsIdle`. -/
def BackgroundContainer.WaitUntilGraphIsIdle (responses : GraphResponses)
    (c : BackgroundContainer) : BackgroundContainer × Status :=
  if !c.initialized then (c, FailedPreconditionError "Container not initialized.")
  else if !c.running then (c, FailedPreconditionError "Graph not started.")
  else
    let idle := responses.WaitUntilIdle c.graph
    if !idle.ok then (c, idle) else (c, OkStatus)

/-- The method `BackgroundContainer::SetRecording`. -/
def BackgroundContainer.SetRecording (c : BackgroundContainer) (recording_on : Bool) :
    BackgroundContainer × Status :=
  if !c.initialized then (c, FailedPreconditionError "Container not initialized.")
  else if !c.running then (c, FailedPreconditionError "Graph not started.")
  else ({ c with recording := recording_on }, OkStatus)

/-- The method `BackgroundContainer::AddFrameWithTimestamp`; `current_system_seconds` is the
clock reading inside `AddFrameTimestampToBenchmarkingInfo`. -/
def BackgroundContainer.AddFrameWithTimestamp (responses : GraphResponses)
    (c : BackgroundContainer) (frame_rgb : cv.Mat) (frame_timestamp_μs : Int)
    (current_system_seconds : ℚ) : BackgroundContainer × Status :=
  if !c.initialized then (c, FailedPreconditionError "Container not initialized.")
  else if !c.running then (c, FailedPreconditionError "Graph not started.")
  else
    let input_frame := frame_rgb
    let frame_timestamp := frame_timestamp_μs
    let c := { c with
      toContainer := c.toContainer.AddFrameTimestampToBenchmarkingInfo frame_timestamp
        current_system_seconds }
    let recording_state := c.graph.AddPacketToInputStream responses
      ⟨InputStream.kRecording, InputPayload.flag c.recording, frame_timestamp⟩
    let c := { c with graph := recording_state.1 }
    if !recording_state.2.ok then (c, recording_state.2)
    else
      let fed := FeedFrameToGraph c.device_type responses input_frame c.graph
        frame_timestamp_μs InputStream.kInputVideo
      let c := { c with graph := fed.1 }
      if !fed.2.ok then (c, fed.2) else (c, OkStatus)

/-- The method `BackgroundContainer::StopGraph`. -/
def BackgroundContainer.StopGraph (responses : GraphResponses) (c : BackgroundContainer) :
    BackgroundContainer × Status :=
  if !c.initialized then (c, FailedPreconditionError "Container not initialized.")
  else if c.graph.input_streams_closed then (c, OkStatus)
  else
    let closed := c.graph.CloseAllInputStreams responses
    let c := { c with graph := closed.1 }
    if !closed.2.ok then (c, closed.2)
    else
      let sources := responses.CloseAllPacketSources c.graph
      if !sources.ok then (c, sources)
      else
        let finished := responses.WaitUntilDone c.graph
        if !finished.ok then (c, finished)
        else
          ({ c with
              previous_status_code := physiology.StatusCode.PROCESSING_NOT_STARTED
              running := false }, OkStatus)

end presage.smartspectra.container

namespace cv

/-- The two `cv::ColorConversionCodes` the containers pass to `cv::cvtColor`. -/
inductive ColorConversionCodes where
  | COLOR_BGR2RGB
  | COLOR_RGB2BGR
  deriving DecidableEq, Repr

end cv

namespace presage.smartspectra.video_source

/-- The virtual interface `video_source::VideoSource` as the synchronous container uses it
apart from pulling frames: whether exposure controls are supported and the status each
exposure call returns. -/
structure VideoSource where
  SupportsExposureControls : Bool
  TurnOnAutoExposure : absl.Status
  TurnOffAutoExposure : absl.Status
  ToggleAutoExposure : absl.Status
  IncreaseExposure : absl.Status
  DecreaseExposure : absl.Status

end presage.smartspectra.video_source

namespace presage.smartspectra.container

open absl

/-! ## The synchronous container (`foreground_container_impl.hpp`, `keyboard_input.cpp`) -/

/-- The names of the output streams; their literals are defined outside these sources and
only appear in log and error messages. -/
def OutputStream.name : OutputStream → String
  | OutputStream.kStatusCode => "status_code"
  | OutputStream.kMetricsBuffer => "metrics_buffer"
  | OutputStream.kEdgeMetrics => "edge_metrics"
  | OutputStream.kOutputVideo => "output_video"
  | OutputStream.kFrameSentThrough => "frame_sent_through"
  | OutputStream.kBlueTooth => "blue_tooth"
  | OutputStream.kTimeLeft => presage.smartspectra.container.kTimeLeft

/-- The data members of `ForegroundContainer`: those of `Container` listed above, the further
base-class members `settings`, `graph`, `output_frame_bgr` and `operation_context`, the
members `load_video`, `video_source` (`none` is `nullptr`) and `keep_grabbing_frames`, and
the template argument `TDeviceType`.  The pollers are passed to the methods as what their
queries find. -/
structure ForegroundContainer extends Container where
  device_type : DeviceType
  settings : GeneralSettings
  graph : CalculatorGraph
  output_frame_bgr : cv.Mat
  operation_context : OperationContext
  load_video : Bool
  video_source : Option video_source.VideoSource
  keep_grabbing_frames : Bool

/-- The constructor `ForegroundContainer::ForegroundContainer`. -/
def ForegroundContainer.new (device_type : DeviceType) (settings : GeneralSettings)
    (operation : OperationSettings) (now_us : Int) : ForegroundContainer where
  toContainer := Container.new now_us
  device_type := device_type
  settings := settings
  graph := CalculatorGraph.new
  output_frame_bgr := cv.Mat.mk0
  operation_context := OperationContext.new operation
  load_video := !settings.video_source.input_video_path.isEmpty
  video_source := none
  keep_grabbing_frames := false

/-- What the collaborators of `Initialize` return: `init::InitializeGraph`,
`init::InitializeComputingDevice`, `video_source::BuildVideoSource` (an error status or the
source) and `init::InitializeGui`. -/
structure InitializeResponses where
  InitializeGraph : Status
  InitializeComputingDevice : Status
  BuildVideoSource : Except Status video_source.VideoSource
  InitializeGui : Status

/-- The method `Container::Initialize` (`container_impl.hpp`, lines 68-88);
`GetGraphFilePath` always returns a path. -/
def Container.Initialize (c : Container) (InitializeGraph InitializeComputingDevice : Status) :
    Container × Status :=
  if c.initialized then (c, OkStatus)
  else if !InitializeGraph.ok then (c, InitializeGraph)
  else if !InitializeComputingDevice.ok then (c, InitializeComputingDevice)
  else ({ c with initialized := true }, OkStatus)

/-- The method `ForegroundContainer::Initialize` (without `WITH_VIDEO_OUTPUT`).  The status of
`TurnOnAutoExposure` is only logged. -/
def ForegroundContainer.Initialize (responses : InitializeResponses)
    (c : ForegroundContainer) : ForegroundContainer × Status :=
  let base := c.toContainer.Initialize responses.InitializeGraph
    responses.InitializeComputingDevice
  let c := { c with toContainer := base.1 }
  if !base.2.ok then (c, base.2)
  else
    match responses.BuildVideoSource with
    | Except.error status => (c, status)
    | Except.ok built =>
        let c := { c with video_source := some built }
        if !responses.InitializeGui.ok then (c, responses.InitializeGui)
        else if c.load_video || c.settings.start_with_recording_on then
          ({ c with recording := true }, OkStatus)
        else (c, OkStatus)

/-- The function `keyboard_input::HandleKeyboardInput`; `pressed_key` is what `cv::waitKey`
returns.  The result is `grab_frames`, `recording` and the returned status. -/
def HandleKeyboardInput (pressed_key : Int) (grab_frames recording : Bool)
    (v_source : video_source.VideoSource) (settings : GeneralSettings)
    (status : physiology.StatusValue) : Bool × Bool × Status :=
  if pressed_key ≠ -1 then
    if pressed_key = 113 ∨ pressed_key = 27 then (false, recording, OkStatus)
    else if pressed_key = 101 then (grab_frames, recording, v_source.ToggleAutoExposure)
    else if pressed_key = 45 then (grab_frames, recording, v_source.DecreaseExposure)
    else if pressed_key = 61 then (grab_frames, recording, v_source.IncreaseExposure)
    else if pressed_key = 115 then
      if status.value = physiology.StatusCode.OK
          ∨ status.value = physiology.StatusCode.PROCESSING_NOT_STARTED then
        let recording := !recording
        if recording then
          if settings.video_source.auto_lock && v_source.SupportsExposureControls then
            (grab_frames, recording, v_source.TurnOffAutoExposure)
          else (grab_frames, recording, OkStatus)
        else
          if settings.video_source.auto_lock && v_source.SupportsExposureControls then
            (grab_frames, recording, v_source.TurnOnAutoExposure)
          else (grab_frames, recording, OkStatus)
      else (grab_frames, recording, OkStatus)
    else (grab_frames, recording, OkStatus)
  else (grab_frames, recording, OkStatus)

/-- The `do ... while (got_edge_metrics_output)` loop of `HandleOutputData` (lines 111-122);
the list holds what the successive queries of the edge-metrics poller find, and an exhausted
list is an empty queue. -/
def ForegroundContainer.poll_edge_metrics (c : ForegroundContainer) :
    List (PollerQuery physiology.Metrics) → Handled ForegroundContainer
  | [] => ⟨[], some (c, OkStatus)⟩
  | query :: rest =>
      let got := GetPacketContentsIfAny ({} : physiology.Metrics) 0 query
        OutputStream.kEdgeMetrics.name (fun _ => decide (c.settings.verbosity_level > 2))
      if !got.status.ok then ⟨[], some (c, got.status)⟩
      else if got.nonempty_packet_received then
        match c.OnEdgeMetricsOutput with
        | none => ⟨[], none⟩
        | some on_edge_metrics_output =>
            let returned := on_edge_metrics_output got.contents
            if !returned.ok then
              ⟨[Invocation.OnEdgeMetricsOutput got.contents], some (c, returned)⟩
            else
              let more := ForegroundContainer.poll_edge_metrics c rest
              ⟨Invocation.OnEdgeMetricsOutput got.contents :: more.invocations, more.outcome⟩
      else ⟨[], some (c, OkStatus)⟩

/-- Lines 79-106 of `HandleOutputData`: the core-metrics poll and what follows a received
batch. -/
def ForegroundContainer.handle_core_metrics (c : ForegroundContainer) (frame_timestamp : Int)
    (core_metrics_poller : PollerQuery physiology.MetricsBuffer)
    (current_system_seconds : ℚ) : Handled ForegroundContainer :=
  let got := GetPacketContentsIfAny (⟨⟨0, 0⟩⟩ : physiology.MetricsBuffer) 0
    core_metrics_poller OutputStream.kMetricsBuffer.name
    (fun _ => decide (c.settings.verbosity_level > 2))
  if !got.status.ok then ⟨[], some (c, got.status)⟩
  else if got.nonempty_packet_received then
    let metrics_buffer := got.contents
    match c.OnCoreMetricsOutput with
    | none => ⟨[], none⟩
    | some on_core_metrics_output =>
        let returned := on_core_metrics_output metrics_buffer frame_timestamp
        let called := [Invocation.OnCoreMetricsOutput metrics_buffer frame_timestamp]
        if !returned.ok then ⟨called, some (c, returned)⟩
        else
          match c.operation_context.mode with
          | OperationMode.Spot =>
              let c := { c with recording := false }
              if c.load_video then
                ⟨called, some ({ c with keep_grabbing_frames := false }, OkStatus)⟩
              else if c.settings.video_source.auto_lock then
                match c.video_source with
                | none => ⟨called, none⟩
                | some source =>
                    if source.SupportsExposureControls then
                      ⟨called, some (c, source.TurnOnAutoExposure)⟩
                    else ⟨called, some (c, OkStatus)⟩
              else ⟨called, some (c, OkStatus)⟩
          | OperationMode.Continuous =>
              let computed :=
                called ++ [Invocation.ComputeCorePerformanceTelemetry metrics_buffer]
              match c.toContainer.ComputeCorePerformanceTelemetry metrics_buffer
                  current_system_seconds with
              | none => ⟨computed, none⟩
              | some telemetry =>
                  ⟨computed, some ({ c with toContainer := telemetry.container },
                    telemetry.status)⟩
  else ⟨[], some (c, OkStatus)⟩

/-- The method `ForegroundContainer::HandleOutputData`. -/
def ForegroundContainer.HandleOutputData (c : ForegroundContainer) (frame_timestamp : Int)
    (core_metrics_poller : PollerQuery physiology.MetricsBuffer)
    (edge_metrics_poller : List (PollerQuery physiology.Metrics))
    (current_system_seconds : ℚ) : Handled ForegroundContainer :=
  let core := c.handle_core_metrics frame_timestamp core_metrics_poller current_system_seconds
  match core.outcome with
  | none => core
  | some (c, status) =>
      if !status.ok then core
      else if c.operation_context.mode = OperationMode.Continuous
          ∧ c.settings.enable_edge_metrics = true then
        let edge := c.poll_edge_metrics edge_metrics_poller
        ⟨core.invocations ++ edge.invocations, edge.outcome⟩
      else ⟨core.invocations, some (c, OkStatus)⟩

end presage.smartspectra.container

namespace presage.smartspectra.container

open absl

/-! ## The frame loop of `ForegroundContainer::Run` (lines 207-409)

Compiled without `WITH_VIDEO_OUTPUT` and `BENCHMARK_CAMERA_CAPTURE`. -/

/-- How a statement of the loop body ends: control falls through to the next statement, the
loop is left by `break`, or `Run` returns a status. -/
inductive LoopControl where
  | proceed
  | break_loop
  | return_status (status : Status)
  deriving DecidableEq, Repr

/-- The macro `MP_RETURN_IF_ERROR` inside the loop body. -/
def LoopControl.return_if_error (status : Status) : LoopControl :=
  if status.ok then LoopControl.proceed else LoopControl.return_status status

/-- What one pass of the loop finds outside the container: the frame the video source yields
and its timestamp, the clock readings, what the query of each poller finds, and the key
`cv::waitKey` returns. -/
structure IterationInputs where
  camera_frame_raw : cv.Mat
  frame_timestamp : Int
  frame_system_seconds : ℚ
  output_video_poller : PollerQuery cv.Mat
  status_code_poller : PollerQuery physiology.StatusValue
  blue_tooth_poller : PollerQuery ℚ
  time_left_poller : PollerQuery ℚ
  frame_sent_through_poller : PollerQuery Bool
  core_metrics_poller : PollerQuery physiology.MetricsBuffer
  edge_metrics_poller : List (PollerQuery physiology.Metrics)
  telemetry_system_seconds : ℚ
  pressed_key : Int

/-- The container together with the local variable `previous_status_code` of `Run`. -/
structure LoopState where
  container : ForegroundContainer
  previous_status_code : physiology.StatusCode

/-- A part of the loop body that has run: the state it leaves, the calls it made, and how it
ended. -/
structure Step where
  state : LoopState
  invocations : List Invocation
  control : LoopControl

/-- Sequencing of two parts of the loop body: the second runs when the first fell through.
`none` is undefined behaviour or an exception. -/
def Step.andThen (first : Option Step) (second : LoopState → Option Step) : Option Step :=
  match first with
  | none => none
  | some step =>
      match step.control with
      | LoopControl.proceed =>
          match second step.state with
          | none => none
          | some more => some ⟨more.state, step.invocations ++ more.invocations, more.control⟩
      | _ => some step

/-- The function `image_transfer::GetFrameFromPacket<TDeviceType>`: the frame in the packet
and `OkStatus` on either device; `Get` on an empty packet is fatal (`none`). -/
def GetFrameFromPacket (output_video_packet : Packet cv.Mat) : Option (cv.Mat × Status) :=
  match output_video_packet.contents with
  | none => none
  | some output_frame => some (output_frame, OkStatus)

/-- Lines 279-309: the frame timestamp is recorded for benchmarking, the frame is converted
to RGB, the recording state and then the frame are sent to the graph. -/
def ForegroundContainer.submit_frame (responses : GraphResponses)
    (cvtColor : cv.ColorConversionCodes → cv.Mat → cv.Mat) (c : ForegroundContainer)
    (camera_frame_raw : cv.Mat) (frame_timestamp : Int) (current_system_seconds : ℚ) :
    ForegroundContainer × Status :=
  let c := { c with
    toContainer := c.toContainer.AddFrameTimestampToBenchmarkingInfo frame_timestamp
      current_system_seconds }
  let camera_frame := cvtColor cv.ColorConversionCodes.COLOR_BGR2RGB camera_frame_raw
  let input_frame := camera_frame
  let recording_state := c.graph.AddPacketToInputStream responses
    ⟨InputStream.kRecording, InputPayload.flag c.recording, frame_timestamp⟩
  let c := { c with graph := recording_state.1 }
  if !recording_state.2.ok then (c, recording_state.2)
  else
    let fed := FeedFrameToGraph c.device_type responses input_frame c.graph frame_timestamp
      InputStream.kInputVideo
    ({ c with graph := fed.1 }, fed.2)

/-- Lines 313-336: the output-video poll. -/
def ForegroundContainer.video_poll
    (cvtColor : cv.ColorConversionCodes → cv.Mat → cv.Mat) (state : LoopState)
    (output_video_poller : PollerQuery cv.Mat) (frame_timestamp : Int) : Option Step :=
  let c := state.container
  match output_video_poller with
  | PollerQuery.queue_empty => some ⟨state, [], LoopControl.proceed⟩
  | PollerQuery.next_failed => some ⟨state, [], LoopControl.break_loop⟩
  | PollerQuery.next output_video_packet =>
      match GetFrameFromPacket output_video_packet with
      | none => none
      | some (output_frame_rgb, status) =>
          if !status.ok then some ⟨state, [], LoopControl.return_status status⟩
          else
            let converted := cvtColor cv.ColorConversionCodes.COLOR_RGB2BGR output_frame_rgb
            match c.OnVideoOutput with
            | none => none
            | some on_video_output =>
                let called := on_video_output converted frame_timestamp
                some ⟨{ state with container := { c with output_frame_bgr := called.2 } },
                  [Invocation.OnVideoOutput converted frame_timestamp],
                  LoopControl.return_if_error called.1⟩

/-- The default-constructed `physiology::StatusValue` the status poll starts from; the value
is read only after a packet has replaced it. -/
def status_value_not_yet_received : physiology.StatusValue :=
  ⟨physiology.StatusCode.PROCESSING_NOT_STARTED, 0⟩

/-- Lines 338-351: the status poll. -/
def ForegroundContainer.status_poll (state : LoopState)
    (status_code_poller : PollerQuery physiology.StatusValue) : Option Step :=
  let c := state.container
  let got := GetPacketContentsIfAny status_value_not_yet_received 0 status_code_poller
    OutputStream.kStatusCode.name (fun _ => decide (c.settings.verbosity_level > 2))
  if !got.status.ok then some ⟨state, [], LoopControl.return_status got.status⟩
  else if got.nonempty_packet_received then
    let c := { c with status := got.contents }
    if c.status.value ≠ state.previous_status_code then
      match c.OnStatusChange with
      | none => none
      | some on_status_change =>
          let returned := on_status_change c.status
          if !returned.ok then
            some ⟨{ state with container := c }, [Invocation.OnStatusChange c.status],
              LoopControl.return_status returned⟩
          else
            some ⟨⟨c, c.status.value⟩, [Invocation.OnStatusChange c.status],
              LoopControl.proceed⟩
    else some ⟨{ state with container := c }, [], LoopControl.proceed⟩
  else some ⟨state, [], LoopControl.proceed⟩

/-- Lines 353-374: the Bluetooth poll, the operation context's pollers and the
frame-sent-through poll. -/
def ForegroundContainer.diagnostics_poll (state : LoopState) (inputs : IterationInputs) :
    Option Step :=
  let c := state.container
  let blue_tooth := GetPacketContentsIfAny (0 : ℚ) 0 inputs.blue_tooth_poller
    OutputStream.kBlueTooth.name (fun _ => decide (c.settings.verbosity_level > 0))
  if !blue_tooth.status.ok then some ⟨state, [], LoopControl.return_status blue_tooth.status⟩
  else
    let queried := c.operation_context.QueryPollers inputs.time_left_poller
      (decide (c.settings.verbosity_level > 1))
    let c := { c with operation_context := queried.1 }
    let state := { state with container := c }
    if !queried.2.ok then some ⟨state, [], LoopControl.return_status queried.2⟩
    else
      let sent := GetPacketContentsIfAny false 0 inputs.frame_sent_through_poller
        OutputStream.kFrameSentThrough.name (fun _ => decide (c.settings.verbosity_level > 4))
      if !sent.status.ok then some ⟨state, [], LoopControl.return_status sent.status⟩
      else if sent.nonempty_packet_received then
        match c.OnFrameSentThrough with
        | none => none
        | some on_frame_sent_through =>
            some ⟨state, [Invocation.OnFrameSentThrough sent.contents sent.timestamp],
              LoopControl.return_if_error (on_frame_sent_through sent.contents sent.timestamp)⟩
      else some ⟨state, [], LoopControl.proceed⟩

/-- Line 376: `MP_RETURN_IF_ERROR(this->HandleOutputData(frame_timestamp))`. -/
def ForegroundContainer.output_data (state : LoopState) (inputs : IterationInputs) :
    Option Step :=
  let handled := state.container.HandleOutputData inputs.frame_timestamp
    inputs.core_metrics_poller inputs.edge_metrics_poller inputs.telemetry_system_seconds
  match handled.outcome with
  | none => none
  | some (c, status) =>
      some ⟨{ state with container := c }, handled.invocations,
        LoopControl.return_if_error status⟩

/-- Lines 378-396: in headless mode recording starts once the status is OK; otherwise the
keyboard is handled. -/
def ForegroundContainer.end_of_iteration (state : LoopState) (pressed_key : Int) :
    Option Step :=
  let c := state.container
  if c.settings.headless then
    if !c.load_video then
      if !c.recording && c.status.value == physiology.StatusCode.OK then
        if c.settings.video_source.auto_lock then
          match c.video_source with
          | none => none
          | some source =>
              if source.SupportsExposureControls then
                some ⟨state, [], LoopControl.return_status source.TurnOffAutoExposure⟩
              else
                some ⟨{ state with container := { c with recording := true } }, [],
                  LoopControl.proceed⟩
        else
          some ⟨{ state with container := { c with recording := true } }, [],
            LoopControl.proceed⟩
      else some ⟨state, [], LoopControl.proceed⟩
    else some ⟨state, [], LoopControl.proceed⟩
  else
    match c.video_source with
    | none => none
    | some source =>
        let keys := HandleKeyboardInput pressed_key c.keep_grabbing_frames c.recording source
          c.settings c.status
        some ⟨{ state with
            container := { c with keep_grabbing_frames := keys.1, recording := keys.2.1 } },
          [], LoopControl.return_if_error keys.2.2⟩

/-- The `else` branch of the loop body (lines 273-397): what happens to a non-empty frame. -/
def ForegroundContainer.iteration (responses : GraphResponses)
    (cvtColor : cv.ColorConversionCodes → cv.Mat → cv.Mat) (state : LoopState)
    (inputs : IterationInputs) : Option Step :=
  let submitted := state.container.submit_frame responses cvtColor inputs.camera_frame_raw
    inputs.frame_timestamp inputs.frame_system_seconds
  Step.andThen
    (some ⟨{ state with container := submitted.1 }, [],
      LoopControl.return_if_error submitted.2⟩)
    (fun state => Step.andThen
      (ForegroundContainer.video_poll cvtColor state inputs.output_video_poller
        inputs.frame_timestamp)
      (fun state => Step.andThen
        (ForegroundContainer.status_poll state inputs.status_code_poller)
        (fun state => Step.andThen
          (ForegroundContainer.diagnostics_poll state inputs)
          (fun state => Step.andThen
            (ForegroundContainer.output_data state inputs)
            (fun state => ForegroundContainer.end_of_iteration state inputs.pressed_key)))))

end presage.smartspectra.container

namespace presage.smartspectra.container

open absl

/-- The `while` loop inside `ScrollPastTimeOffset` (lines 199-202): frames are pulled while
the last one pulled is non-empty and lies before `recording_start_time`.  An exhausted list
is a source that yields empty frames. -/
def scroll_frames (recording_start_time : Int) (frame_timestamp : Int)
    (camera_frame_raw : cv.Mat) : List IterationInputs → List IterationInputs
  | [] => []
  | pulled :: rest =>
      if frame_timestamp < recording_start_time ∧ camera_frame_raw.empty = false then
        scroll_frames recording_start_time pulled.frame_timestamp pulled.camera_frame_raw rest
      else pulled :: rest

/-- The method `ForegroundContainer::ScrollPastTimeOffset`, as the frames left for the loop
out of those the source will yield. -/
def ForegroundContainer.ScrollPastTimeOffset (c : ForegroundContainer)
    (frames : List IterationInputs) : List IterationInputs :=
  if c.settings.start_time_offset_ms > 0 ∧ c.load_video = true then
    match frames with
    | [] => []
    | first :: rest =>
        if !first.camera_frame_raw.empty then
          scroll_frames (first.frame_timestamp + c.settings.start_time_offset_ms * 1000)
            first.frame_timestamp first.camera_frame_raw rest
        else rest
  else frames

/-- The loop `while (this->keep_grabbing_frames)` of `Run` (lines 258-398): the step the loop
ends with and the frames never pulled.  An exhausted list is a source that yields an empty
frame. -/
def ForegroundContainer.grab_frames (responses : GraphResponses)
    (cvtColor : cv.ColorConversionCodes → cv.Mat → cv.Mat) :
    List IterationInputs → LoopState → Option (Step × List IterationInputs)
  | [], state =>
      some (⟨{ state with
        container := { state.container with keep_grabbing_frames := false } }, [],
        LoopControl.proceed⟩, [])
  | inputs :: rest, state =>
      if !state.container.keep_grabbing_frames then
        some (⟨state, [], LoopControl.proceed⟩, inputs :: rest)
      else if inputs.camera_frame_raw.empty then
        ForegroundContainer.grab_frames responses cvtColor rest
          { state with container := { state.container with keep_grabbing_frames := false } }
      else
        match ForegroundContainer.iteration responses cvtColor state inputs with
        | none => none
        | some step =>
            match step.control with
            | LoopControl.proceed =>
                match ForegroundContainer.grab_frames responses cvtColor rest step.state with
                | none => none
                | some (more, unread) =>
                    some (⟨more.state, step.invocations ++ more.invocations, more.control⟩,
                      unread)
            | _ => some (step, rest)

/-- What a call of `Run` leaves behind: the container, the calls made while handling graph
output, the returned status and the frames of the source that were never pulled. -/
structure RunResult where
  container : ForegroundContainer
  invocations : List Invocation
  status : Status
  unread : List IterationInputs

/-- One `MP_ASSIGN_OR_RETURN(.., graph.AddOutputStreamPoller(stream))` of `Run`. -/
def ForegroundContainer.add_poller (responses : GraphResponses) (c : ForegroundContainer)
    (stream : OutputStream) : ForegroundContainer × Status :=
  let added := c.graph.AddOutputStreamPoller responses stream
  ({ c with graph := added.1 }, added.2)

/-- Lines 214-236 of `Run`: the four pollers of the loop, `InitializeOutputDataPollers`,
`operation_context.InitializePollers` and `StartRun`. -/
def ForegroundContainer.set_up_pollers (responses : GraphResponses) (c : ForegroundContainer) :
    ForegroundContainer × Status :=
  let output_video := c.add_poller responses OutputStream.kOutputVideo
  if !output_video.2.ok then output_video
  else
    let status_code := output_video.1.add_poller responses OutputStream.kStatusCode
    if !status_code.2.ok then status_code
    else
      let blue_tooth := status_code.1.add_poller responses OutputStream.kBlueTooth
      if !blue_tooth.2.ok then blue_tooth
      else
        let frame_sent_through :=
          blue_tooth.1.add_poller responses OutputStream.kFrameSentThrough
        if !frame_sent_through.2.ok then frame_sent_through
        else
          let core_metrics :=
            frame_sent_through.1.add_poller responses OutputStream.kMetricsBuffer
          if !core_metrics.2.ok then core_metrics
          else
            let edge_metrics :=
              match core_metrics.1.operation_context.mode with
              | OperationMode.Spot => (core_metrics.1, OkStatus)
              | OperationMode.Continuous =>
                  core_metrics.1.add_poller responses OutputStream.kEdgeMetrics
            if !edge_metrics.2.ok then edge_metrics
            else
              let time_left :=
                match edge_metrics.1.operation_context.mode with
                | OperationMode.Spot =>
                    edge_metrics.1.add_poller responses OutputStream.kTimeLeft
                | OperationMode.Continuous => (edge_metrics.1, OkStatus)
              if !time_left.2.ok then time_left
              else
                let started := time_left.1.graph.StartRun responses
                ({ time_left.1 with graph := started.1 }, started.2)

/-- Lines 400-408 of `Run`: the shutdown after the loop. -/
def ForegroundContainer.shut_down (responses : GraphResponses) (c : ForegroundContainer) :
    ForegroundContainer × Status :=
  let closed := c.graph.CloseAllInputStreams responses
  let c := { c with graph := closed.1 }
  if !closed.2.ok then (c, closed.2)
  else
    let sources := responses.CloseAllPacketSources c.graph
    if !sources.ok then (c, sources)
    else
      let finished := responses.WaitUntilDone c.graph
      if !finished.ok then (c, finished)
      else ({ c with running := false }, OkStatus)

/-- The method `ForegroundContainer::Run`; `frames` is what the video source yields, pull by
pull, with what each pass of the loop finds.  `none` is undefined behaviour or an
exception; pulling a frame through a null `video_source` is one. -/
def ForegroundContainer.Run (responses : GraphResponses)
    (cvtColor : cv.ColorConversionCodes → cv.Mat → cv.Mat) (c : ForegroundContainer)
    (frames : List IterationInputs) : Option RunResult :=
  let c := { c with operation_context := c.operation_context.Reset }
  if !c.initialized then some ⟨c, [], PermissionDeniedError "Client not initialized.", frames⟩
  else
    let c := { c with running := true }
    let polled := c.set_up_pollers responses
    if !polled.2.ok then some ⟨polled.1, [], polled.2, frames⟩
    else
      let c := { polled.1 with keep_grabbing_frames := true }
      match c.video_source with
      | none => none
      | some _ =>
          let frames := c.ScrollPastTimeOffset frames
          match ForegroundContainer.grab_frames responses cvtColor frames
              ⟨c, physiology.StatusCode.PROCESSING_NOT_STARTED⟩ with
          | none => none
          | some (step, unread) =>
              match step.control with
              | LoopControl.return_status status =>
                  some ⟨step.state.container, step.invocations, status, unread⟩
              | _ =>
                  let stopped := step.state.container.shut_down responses
                  some ⟨stopped.1, step.invocations, stopped.2, unread⟩

end presage.smartspectra.container

namespace presage.smartspectra.container

open absl

/-- The method `BackgroundContainer::Initialize` (lines 47-57). -/
def BackgroundContainer.Initialize (c : BackgroundContainer)
    (InitializeGraph InitializeComputingDevice : Status) : BackgroundContainer × Status :=
  if c.initialized then (c, OkStatus)
  else
    let base := c.toContainer.Initialize InitializeGraph InitializeComputingDevice
    let c := { c with toContainer := base.1 }
    if !base.2.ok then (c, base.2) else (c, OkStatus)

/-! ## Call sequences and sample inputs used in the statements below -/

/-- The channels `StartGraph` consumes, in the order it prepares them: the name of the
callback, whether its slot is null, and the output stream.  The edge-metrics channel is
consumed in continuous mode with edge metrics enabled. -/
def BackgroundContainer.consumed_channels (c : BackgroundContainer) :
    List (String × Bool × OutputStream) :=
  [("OnStatusChange", c.OnStatusChange.isNone, OutputStream.kStatusCode),
   ("OnCoreMetricsOutput", c.OnCoreMetricsOutput.isNone, OutputStream.kMetricsBuffer)] ++
  (if c.operation_context.mode = OperationMode.Continuous
      ∧ c.settings.enable_edge_metrics = true then
    [("OnEdgeMetricsOutput", c.OnEdgeMetricsOutput.isNone, OutputStream.kEdgeMetrics)]
   else []) ++
  [("OnVideoOutput", c.OnVideoOutput.isNone, OutputStream.kOutputVideo),
   ("OnFrameSentThrough", c.OnFrameSentThrough.isNone, OutputStream.kFrameSentThrough)]

/-- The first channel of a list whose callback slot is null, with the streams of the channels
in front of it. -/
def first_null_callback :
    List (String × Bool × OutputStream) → Option (String × List OutputStream)
  | [] => none
  | (callback_name, is_null, stream) :: rest =>
      if is_null then some (callback_name, [])
      else (first_null_callback rest).map (fun found => (found.1, stream :: found.2))

/-- The status code of the most recent non-empty packet among `earlier`, and `initial` when
there is none. -/
def status_code_before (initial : physiology.StatusCode)
    (earlier : List (Packet physiology.StatusValue)) : physiology.StatusCode :=
  ((earlier.filterMap (fun packet => packet.contents)).getLast?.map
    (fun status => status.value)).getD initial

/-- The status code of the most recent non-empty packet among `earlier`, and
`PROCESSING_NOT_STARTED` when there is none. -/
def most_recent_status_code (earlier : List (Packet physiology.StatusValue)) :
    physiology.StatusCode :=
  status_code_before physiology.StatusCode.PROCESSING_NOT_STARTED earlier

/-- The status-change calls a packet is expected to cause when `previous` is the code to
compare with: one call with the packet's status if the packet is non-empty and its code
differs from `previous`, none otherwise. -/
def status_change_calls_for (previous : physiology.StatusCode)
    (status_packet : Packet physiology.StatusValue) : List Invocation :=
  match status_packet.contents with
  | none => []
  | some status =>
      if status.value ≠ previous then [Invocation.OnStatusChange status] else []

/-- The status-change calls expected for each packet of a sequence, starting from the code
`previous`. -/
def status_change_calls (previous : physiology.StatusCode) :
    List (Packet physiology.StatusValue) → List (List Invocation)
  | [] => []
  | status_packet :: rest =>
      status_change_calls_for previous status_packet ::
        status_change_calls (status_code_before previous [status_packet]) rest

/-- Status packets delivered one after another to the status observer of the asynchronous
container: the calls made for each packet. -/
def BackgroundContainer.observe_status_packets :
    BackgroundContainer → List (Packet physiology.StatusValue) → List (List Invocation)
  | _, [] => []
  | c, status_packet :: rest =>
      let handled := c.status_observer status_packet
      handled.invocations ::
        match handled.outcome with
        | none => []
        | some (c, _) => BackgroundContainer.observe_status_packets c rest

/-- Status packets delivered one after another to the status poll of the synchronous loop:
the calls made for each packet, up to the first poll that does not fall through. -/
def ForegroundContainer.poll_status_packets :
    LoopState → List (Packet physiology.StatusValue) → List (List Invocation)
  | _, [] => []
  | state, status_packet :: rest =>
      match ForegroundContainer.status_poll state (PollerQuery.next status_packet) with
      | none => []
      | some step =>
          step.invocations ::
            match step.control with
            | LoopControl.proceed => ForegroundContainer.poll_status_packets step.state rest
            | _ => []

/-- The status codes the status-change callback was invoked with, in order. -/
def status_change_codes (invocations : List Invocation) : List physiology.StatusCode :=
  invocations.filterMap (fun invocation =>
    match invocation with
    | Invocation.OnStatusChange status => some status.value
    | _ => none)

/-- General settings of a headless run on a live source with `auto_lock` on. -/
def sample_general_settings : GeneralSettings where
  video_source := { video_source.file_stream.sample_settings with auto_lock := true }
  headless := true
  interframe_delay_ms := 20
  start_with_recording_on := false
  start_time_offset_ms := 0
  enable_edge_metrics := false
  verbosity_level := 0

/-- A video source with exposure controls whose calls all succeed. -/
def sample_video_source : video_source.VideoSource :=
  ⟨true, OkStatus, OkStatus, OkStatus, OkStatus, OkStatus⟩

/-- An initialisation in which every collaborator succeeds. -/
def sample_initialize_responses : InitializeResponses :=
  ⟨OkStatus, OkStatus, Except.ok sample_video_source, OkStatus⟩

/-- A pass of the loop with the given frame and timestamp in which every queue is empty and
no key is pressed. -/
def quiet_iteration (camera_frame_raw : cv.Mat) (frame_timestamp : Int) : IterationInputs where
  camera_frame_raw := camera_frame_raw
  frame_timestamp := frame_timestamp
  frame_system_seconds := 0
  output_video_poller := PollerQuery.queue_empty
  status_code_poller := PollerQuery.queue_empty
  blue_tooth_poller := PollerQuery.queue_empty
  time_left_poller := PollerQuery.queue_empty
  frame_sent_through_poller := PollerQuery.queue_empty
  core_metrics_poller := PollerQuery.queue_empty
  edge_metrics_poller := []
  telemetry_system_seconds := 0
  pressed_key := -1

/-- An initialized asynchronous container in continuous mode. -/
def sample_background_container : BackgroundContainer :=
  ((BackgroundContainer.new DeviceType.Cpu sample_general_settings
    OperationSettings.Continuous 0).Initialize OkStatus OkStatus).1

/-- An initialized synchronous container with the given operation settings and general
settings. -/
def sample_foreground_container (settings : GeneralSettings) (operation : OperationSettings) :
    ForegroundContainer :=
  ((ForegroundContainer.new DeviceType.Cpu settings operation 0).Initialize
    sample_initialize_responses).1

end presage.smartspectra.container

namespace physiology

/-- A `physiology::Measurement` message: the fields the trace plotter reads. -/
structure Measurement where
  time : ℚ
  value : ℚ
  deriving DecidableEq, Repr

end physiology

namespace presage.smartspectra.gui

/-! ## The trace plotter (`gui/opencv_trace_plotter.cpp`)

`google::protobuf::RepeatedPtrField<T>` is `List T`; `Get` with an index outside the field is
undefined (`none`). -/

/-- The two scan loops of `AppendOverlappingTimeSeries` (lines 47-50 and 55-58), which have
the same shape: `while (current_time < bound_time && i < series.size())
{ current_time = series.Get(i).time(); i++; }`.  `remaining` holds the measurements at the
indices from `i_measurement` on.  The result is `current_time` and the index after the
loop. -/
def scroll_series (bound_time : ℚ) :
    List physiology.Measurement → ℚ → Nat → ℚ × Nat
  | [], current_time, i_measurement => (current_time, i_measurement)
  | measurement :: remaining, current_time, i_measurement =>
      if current_time < bound_time then
        scroll_series bound_time remaining measurement.time (i_measurement + 1)
      else (current_time, i_measurement)

/-- The loop "update existing measurements" (lines 65-72) on the target measurements from
`i_target_measurement` on and the source measurements from `i_source_measurement` on: the
pairs are visited in step, and a target is replaced when the times are equal. -/
def update_existing_measurements :
    List physiology.Measurement → List physiology.Measurement → List physiology.Measurement
  | target_measurement :: targets, source_measurement :: sources =>
      (if source_measurement.time = target_measurement.time then source_measurement
        else target_measurement) :: update_existing_measurements targets sources
  | targets, [] => targets
  | [], _ :: _ => []

/-- The function template `AppendOverlappingTimeSeries`: the target series and
`target_start_index` after the call. -/
def AppendOverlappingTimeSeries (target_series source_series : List physiology.Measurement)
    (target_start_index : Int) : Option (List physiology.Measurement × Int) :=
  match source_series with
  | [] => some (target_series, target_start_index)
  | first_source :: _ =>
      let first_source_time := first_source.time
      let scrolled : Option (Nat × Nat) :=
        if target_series.isEmpty then
          if target_start_index < 0 then none else some (target_start_index.toNat, 0)
        else if target_start_index < 0 then none
        else
          match target_series[target_start_index.toNat]? with
          | none => none
          | some start_measurement =>
              let target_scan := scroll_series first_source_time
                (target_series.drop target_start_index.toNat) start_measurement.time
                target_start_index.toNat
              let first_target_time := target_scan.1
              let source_scan := scroll_series first_target_time source_series
                first_source_time 0
              some (target_scan.2, source_scan.2)
      match scrolled with
      | none => none
      | some (i_target_measurement, i_source_measurement) =>
          let updated := update_existing_measurements
            (target_series.drop i_target_measurement) (source_series.drop i_source_measurement)
          let visited := min (target_series.length - i_target_measurement)
            (source_series.length - i_source_measurement)
          some (target_series.take i_target_measurement ++ updated ++
            source_series.drop (i_source_measurement + visited), (i_target_measurement : Int))

/-- The data members of `OpenCvTracePlotter` that the updates read or write. -/
structure OpenCvTracePlotter where
  buffer : List physiology.Measurement
  max_points : Int
  last_overlap_area_start : Int
  deriving DecidableEq, Repr

/-- The constructor of `OpenCvTracePlotter` with the default member initialisers. -/
def OpenCvTracePlotter.new (max_points : Int) : OpenCvTracePlotter := ⟨[], max_points, 0⟩

/-- The method `OpenCvTracePlotter::UpdateTraceWithSampleRange`; `DeleteSubrange` past the end
of the buffer is undefined (`none`). -/
def OpenCvTracePlotter.UpdateTraceWithSampleRange (plotter : OpenCvTracePlotter)
    (new_values : List physiology.Measurement) : Option OpenCvTracePlotter :=
  match AppendOverlappingTimeSeries plotter.buffer new_values
      plotter.last_overlap_area_start with
  | none => none
  | some (buffer, last_overlap_area_start) =>
      if (buffer.length : Int) > plotter.max_points then
        let deleted_point_count := (buffer.length : Int) - plotter.max_points
        if deleted_point_count > (buffer.length : Int) then none
        else
          some { plotter with
            buffer := buffer.drop deleted_point_count.toNat
            last_overlap_area_start := max 0 (last_overlap_area_start - deleted_point_count) }
      else
        some { plotter with
          buffer := buffer
          last_overlap_area_start := last_overlap_area_start }

end presage.smartspectra.gui

namespace cv

/-- Enumerators of `cv::VideoCaptureAPIs` (OpenCV `videoio`); `CAP_V4L2` is an alias of
`CAP_V4L`. -/
inductive VideoCaptureAPIs where
  | CAP_ANY
  | CAP_V4L
  | CAP_FIREWIRE
  | CAP_DSHOW
  | CAP_AVFOUNDATION
  | CAP_MSMF
  | CAP_GSTREAMER
  | CAP_FFMPEG
  deriving DecidableEq, Repr

end cv

namespace presage.camera.opencv

/-! ## Backend preference (`camera_opencv.cpp`) -/

/-- The map `backendPriorities` of `DeterminePreferredBackendForCamera` with `find`: `none`
is `end()`. -/
def backendPriorities : cv.VideoCaptureAPIs → Option Int
  | cv.VideoCaptureAPIs.CAP_V4L => some 20
  | cv.VideoCaptureAPIs.CAP_AVFOUNDATION => some 10
  | cv.VideoCaptureAPIs.CAP_GSTREAMER => some 0
  | _ => none

/-- The comparison lambda `DeterminePreferredBackendForCamera` passes to `std::sort`
(lines 37-52): `true` orders `backend_a` before `backend_b`. -/
def backend_comparison (backend_a backend_b : cv.VideoCaptureAPIs) : Bool :=
  match backendPriorities backend_a with
  | none =>
      match backendPriorities backend_b with
      | none => true
      | some _ => false
  | some backend_a_priority =>
      match backendPriorities backend_b with
      | none => true
      | some backend_b_priority => decide (backend_a_priority > backend_b_priority)

end presage.camera.opencv

namespace presage.smartspectra.video_source.capture

open absl

/-! ## Camera resolution (`capture_video_source.cpp`) -/

/-- The region "SET CAMERA RESOLUTION" of `CaptureCameraSource::Initialize` (lines 152-203):
the frame size passed to `capture.set`, or the error returned.  `probed` is the capture
device the probe opens for the device index and backend; `none` is an exception of the
probe. -/
def CaptureCameraSource.select_camera_resolution (settings : VideoSourceSettings)
    (probed : camera.opencv.VideoCapture) : Option (Except Status cv.Size) :=
  let effective : ResolutionSelectionMode × Int × Int :=
    if settings.resolution_selection_mode = ResolutionSelectionMode.Auto
        ∧ settings.resolution_range = camera.CameraResolutionRange.Unspecified_EnumEnd
        ∧ settings.capture_width_px = -1 ∧ settings.capture_height_px = -1 then
      (ResolutionSelectionMode.Exact, 1280, 720)
    else (settings.resolution_selection_mode, settings.capture_width_px,
      settings.capture_height_px)
  let effective_resolution_selection_mode := effective.1
  let effective_capture_width_px := effective.2.1
  let effective_capture_height_px := effective.2.2
  let camera_resolution : cv.Size := ⟨0, 0⟩
  if effective_resolution_selection_mode = ResolutionSelectionMode.Range then
    if settings.resolution_range = camera.CameraResolutionRange.Unspecified_EnumEnd then
      some (Except.error (FailedPreconditionError
        "No camera resolution range specified with `range` resolution selection mode. Exiting."))
    else
      match camera.opencv.GetMaximumCameraResolutionFromRange probed
          settings.resolution_range with
      | none => none
      | some (suitable_resolution_found, found_resolution) =>
          if !suitable_resolution_found then
            some (Except.error
              (FailedPreconditionError "Failed to find a suitable camera resolution."))
          else some (Except.ok found_resolution)
  else if effective_resolution_selection_mode = ResolutionSelectionMode.Exact then
    if effective_capture_width_px < 0 ∨ effective_capture_height_px < 0 then
      some (Except.error (FailedPreconditionError
        ("Both `capture_width_px` and `capture_height_px` must be set to positive, nonzero " ++
          "values when using the `exact` resolution selection mode. Got: " ++
          toString effective_capture_width_px ++ " x " ++
          toString effective_capture_height_px ++ ". Exiting.")))
    else some (Except.ok ⟨effective_capture_width_px, effective_capture_height_px⟩)
  else some (Except.ok camera_resolution)

end presage.smartspectra.video_source.capture

namespace presage.smartspectra.container

open absl

/-- The inherited method `SetOnCorePerformanceTelemetry` on an asynchronous container. -/
def BackgroundContainer.SetOnCorePerformanceTelemetry (c : BackgroundContainer)
    (on_effective_core_fps_output : Option (ℚ → ℚ → Int → Status)) :
    BackgroundContainer × Status :=
  let registered := c.toContainer.SetOnCorePerformanceTelemetry on_effective_core_fps_output
  ({ c with toContainer := registered.1 }, registered.2)

/-- Lines 288-289 of `ComputeCorePerformanceTelemetry`: the divisor
`window_total_microseconds` for a batch whose last timestamp is
`last_buffer_input_timestamp`, given the benchmarking records retained after trimming
(`none`: `begin()` of an empty vector). -/
def window_total_microseconds (last_buffer_input_timestamp : Int)
    (buffer : List MetricsBufferBenchmarkingInfo) : Option Int :=
  match buffer with
  | [] => none
  | oldest :: _ => some (last_buffer_input_timestamp - oldest.first_timestamp)

end presage.smartspectra.container

namespace presage.smartspectra.video_source.file_stream

/-- The method `FileStreamVideoSource::GetFrameTimestamp` (lines 118-120). -/
def FileStreamVideoSource.GetFrameTimestamp (source : FileStreamVideoSource) : Int :=
  source.current_frame_timestamp

/-- A finished stream without frames: only the `end_of_stream` marker. -/
def marker_only_directory : Directory := [⟨"end_of_stream", true, cv.Mat.mk0⟩]

/-- A finished stream of one frame: the marker and `frame_0000.png`. -/
def single_frame_directory : Directory :=
  [⟨"end_of_stream", true, cv.Mat.mk0⟩, ⟨"frame_0000.png", true, sample_image 10⟩]

end presage.smartspectra.video_source.file_stream

namespace presage.smartspectra.container

/-- Batch cycles on one container, in order: for each item the frames `timestamps` are
recorded through `AddFrameTimestampToBenchmarkingInfo` (`clock t` is the clock reading for
`t`), then `ComputeCorePerformanceTelemetry` runs for the batch at the given clock reading.
`none` when one of the calls is undefined. -/
def Container.batch_cycles (c : Container) (clock : Int → ℚ) :
    List (List Int × physiology.MetricsBuffer × ℚ) → Option Container
  | [] => some c
  | (timestamps, metrics_buffer, current_system_seconds) :: rest =>
      match (c.AddFrameTimestamps clock timestamps).ComputeCorePerformanceTelemetry
          metrics_buffer current_system_seconds with
      | none => none
      | some out => out.container.batch_cycles clock rest

/-- Sample: a telemetry-registered, recording container after the frames 0 and 33333 and the
batch `(33333, 2 frames)`; its record sequence holds the one record `(0, 33333, 2)`. -/
def sample_container_one_record : Container :=
  ((Container.benchmarked 0 (fun _ _ _ => absl.OkStatus)).batch_cycles (fun _ => 0)
    [([0, 33333], ⟨⟨33333, 2⟩⟩, 1)]).get rfl

/-- Sample: a telemetry-registered, recording container after three batch cycles of one frame
each, at 0, 2000000 and 4000000 microseconds; its record sequence holds the three records
`(0, 0, 1)`, `(0, 2000000, 1)`, `(2000000, 4000000, 1)`. -/
def sample_container_three_records : Container :=
  ((Container.benchmarked 0 (fun _ _ _ => absl.OkStatus)).batch_cycles (fun _ => 0)
    [([0], ⟨⟨0, 1⟩⟩, 1), ([2000000], ⟨⟨2000000, 1⟩⟩, 3), ([4000000], ⟨⟨4000000, 1⟩⟩, 5)]).get rfl

/-- Sample: a telemetry-registered, recording container after one batch cycle of one frame at
0 microseconds; its record sequence holds the one record `(0, 0, 1)`. -/
def sample_container_lone_record : Container :=
  ((Container.benchmarked 0 (fun _ _ _ => absl.OkStatus)).batch_cycles (fun _ => 0)
    [([0], ⟨⟨0, 1⟩⟩, 1)]).get rfl

end presage.smartspectra.container

/-! # Theorems -/

namespace presage.smartspectra.container

open absl

/-! ## Callback registration -/

/-- C4: every callback setter, called with a null handler, returns the invalid-argument
error and hands back the container exactly as it was, so the slot keeps its handler and no
other slot or field changes. -/
theorem null_callback_is_rejected (c : Container) :
    c.SetOnStatusChange none = (c, InvalidArgumentError "Callback cannot be nullptr.") ∧
    c.SetOnCoreMetricsOutput none = (c, InvalidArgumentError "Callback cannot be nullptr.") ∧
    c.SetOnEdgeMetricsOutput none = (c, InvalidArgumentError "Callback cannot be nullptr.") ∧
    c.SetOnVideoOutput none = (c, InvalidArgumentError "Callback cannot be nullptr.") ∧
    c.SetOnFrameSentThrough none = (c, InvalidArgumentError "Callback cannot be nullptr.") ∧
    c.SetOnCorePerformanceTelemetry none =
      (c, InvalidArgumentError "Callback cannot be nullptr.") ∧
    (InvalidArgumentError "Callback cannot be nullptr.").code = StatusCode.kInvalidArgument := by
  refine ⟨rfl, rfl, rfl, rfl, rfl, rfl, rfl⟩

/-! ## The in-flight timestamp set -/

theorem set_insert_append (x : Int) (s : List Int) (h : ∀ y ∈ s, y < x) :
    set_insert x s = s ++ [x] := by
  induction s with
  | nil => rfl
  | cons y ys ih =>
      have hy : y < x := h y (List.mem_cons_self _ _)
      have hys : ∀ z ∈ ys, z < x := fun z hz => h z (List.mem_cons_of_mem _ hz)
      have h1 : ¬ x < y := not_lt.mpr (le_of_lt hy)
      have h2 : ¬ x = y := fun e => absurd hy (by rw [e]; exact lt_irrefl _)
      simp [set_insert, h1, h2, ih hys]

theorem AddFrameTimestampToBenchmarkingInfo_frames (c : Container) (t : Int) (now : ℚ)
    (hcb : c.OnCorePerformanceTelemetry.isSome = true) (hrec : c.recording = true) :
    (c.AddFrameTimestampToBenchmarkingInfo t now).frames_in_graph_timestamps =
        set_insert t c.frames_in_graph_timestamps ∧
      (c.AddFrameTimestampToBenchmarkingInfo t now).OnCorePerformanceTelemetry =
        c.OnCorePerformanceTelemetry ∧
      (c.AddFrameTimestampToBenchmarkingInfo t now).recording = true ∧
      (c.AddFrameTimestampToBenchmarkingInfo t now).metrics_buffer_benchmarking_info_buffer =
        c.metrics_buffer_benchmarking_info_buffer ∧
      (c.AddFrameTimestampToBenchmarkingInfo t now).offset_from_system_time.isSome = true := by
  unfold Container.AddFrameTimestampToBenchmarkingInfo
  simp only [hcb, hrec, Bool.and_self, if_true]
  cases c.offset_from_system_time <;> simp

/-- Recording a strictly increasing run of timestamps, each later than everything already in
flight, appends the run to the in-flight set. -/
theorem AddFrameTimestamps_frames (clock : Int → ℚ) (ts : List Int) :
    ∀ c : Container, c.OnCorePerformanceTelemetry.isSome = true → c.recording = true →
      (c.frames_in_graph_timestamps ++ ts).Pairwise (· < ·) →
      (c.AddFrameTimestamps clock ts).frames_in_graph_timestamps =
          c.frames_in_graph_timestamps ++ ts ∧
        (c.AddFrameTimestamps clock ts).OnCorePerformanceTelemetry =
          c.OnCorePerformanceTelemetry ∧
        (c.AddFrameTimestamps clock ts).metrics_buffer_benchmarking_info_buffer =
          c.metrics_buffer_benchmarking_info_buffer ∧
        (ts ≠ [] → (c.AddFrameTimestamps clock ts).offset_from_system_time.isSome = true) := by
  induction ts with
  | nil => intro c _ _ _; exact ⟨by simp [Container.AddFrameTimestamps], rfl, rfl, by simp⟩
  | cons t rest ih =>
      intro c hcb hrec hsorted
      obtain ⟨hf, hc, hr, hb, ho⟩ :=
        AddFrameTimestampToBenchmarkingInfo_frames c t (clock t) hcb hrec
      have hlt : ∀ y ∈ c.frames_in_graph_timestamps, y < t := by
        intro y hy
        exact (List.pairwise_append.mp hsorted).2.2 y hy t (List.mem_cons_self _ _)
      have hf2 : (c.AddFrameTimestampToBenchmarkingInfo t (clock t)).frames_in_graph_timestamps
          = c.frames_in_graph_timestamps ++ [t] := by
        rw [hf, set_insert_append t _ hlt]
      have hsorted2 : ((c.AddFrameTimestampToBenchmarkingInfo t
          (clock t)).frames_in_graph_timestamps ++ rest).Pairwise (· < ·) := by
        rw [hf2]; simpa using hsorted
      obtain ⟨h1, h2, h3, h4⟩ := ih (c.AddFrameTimestampToBenchmarkingInfo t (clock t))
        (by rw [hc]; exact hcb) hr hsorted2
      have hstep : c.AddFrameTimestamps clock (t :: rest) =
          (c.AddFrameTimestampToBenchmarkingInfo t (clock t)).AddFrameTimestamps clock rest :=
        rfl
      rw [hstep]
      refine ⟨by rw [h1, hf2]; simp, by rw [h2, hc], by rw [h3, hb], fun _ => ?_⟩
      cases rest with
      | nil => exact ho
      | cons r rs => exact h4 (by simp)

theorem set_erase_begin_to_find_drop (x : Int) :
    ∀ (s : List Int) (k : Nat), s.Nodup → s[k]? = some x →
      set_erase_begin_to_find x s = s.drop k := by
  intro s
  induction s with
  | nil => intro k _ h; simp at h
  | cons y ys ih =>
      intro k hnd hk
      cases k with
      | zero =>
          simp at hk
          simp [set_erase_begin_to_find, hk]
      | succ k =>
          have hk2 : ys[k]? = some x := by simpa using hk
          have hmem : x ∈ ys := List.getElem?_mem hk2
          have hne : ¬ y = x := fun e => (List.nodup_cons.mp hnd).1 (e ▸ hmem)
          simp [set_erase_begin_to_find, hne, ih k (List.nodup_cons.mp hnd).2 hk2]

theorem set_erase_begin_to_find_absent (x : Int) :
    ∀ s : List Int, x ∉ s → set_erase_begin_to_find x s = [] := by
  intro s
  induction s with
  | nil => intro _; rfl
  | cons y ys ih =>
      intro h
      have hne : ¬ y = x := fun e => h (e ▸ List.mem_cons_self _ _)
      simp [set_erase_begin_to_find, hne, ih (fun hm => h (List.mem_cons_of_mem _ hm))]


/-! ## The benchmarking-record sequence -/

theorem benchmarking_info_location_append (ws : Int) (new : MetricsBufferBenchmarkingInfo)
    (hnew : ¬ new.last_timestamp < ws) (pre : List MetricsBufferBenchmarkingInfo) :
    benchmarking_info_location ws (pre ++ [new]) = benchmarking_info_location ws pre := by
  induction pre with
  | nil => simp [benchmarking_info_location, hnew]
  | cons r rs ih =>
      by_cases h : r.last_timestamp < ws
      · simp [benchmarking_info_location, h, ih]
      · simp [benchmarking_info_location, h]

theorem benchmarking_info_location_le (ws : Int) (l : List MetricsBufferBenchmarkingInfo) :
    benchmarking_info_location ws l ≤ l.length := by
  induction l with
  | nil => simp [benchmarking_info_location]
  | cons r rs ih =>
      by_cases h : r.last_timestamp < ws
      · simp [benchmarking_info_location, h, ih]
      · simp [benchmarking_info_location, h]

/-- Trimming after a push never touches the pushed record: the result is the trimmed earlier
records followed by the pushed one. -/
theorem trim_benchmarking_info_buffer_append (ws : Int) (new : MetricsBufferBenchmarkingInfo)
    (hnew : ¬ new.last_timestamp < ws) (pre : List MetricsBufferBenchmarkingInfo) :
    trim_benchmarking_info_buffer ws (pre ++ [new]) =
      trim_benchmarking_info_buffer ws pre ++ [new] := by
  unfold trim_benchmarking_info_buffer
  simp only [benchmarking_info_location_append ws new hnew pre]
  by_cases h : benchmarking_info_location ws pre > 0 + 1
  · simp only [h, if_true]
    exact List.drop_append_of_le_length (benchmarking_info_location_le ws pre)
  · simp only [h, if_false]

theorem window_start_not_after (t : Int) : ¬ t < t - fps_averaging_window_microseconds := by
  unfold fps_averaging_window_microseconds
  omega

/-- The record `ComputeCorePerformanceTelemetry` pushes for a batch. -/
theorem ComputeCorePerformanceTelemetry_eq (c : Container) (mb : physiology.MetricsBuffer)
    (now : ℚ) (on_telemetry : ℚ → ℚ → Int → Status) (first : Int) (rest : List Int)
    (offset : ℚ)
    (hcb : c.OnCorePerformanceTelemetry = some (some on_telemetry))
    (hframes : c.frames_in_graph_timestamps = first :: rest)
    (hoff : c.offset_from_system_time = some offset) :
    ∃ (out : TelemetryOutcome) (oldest : MetricsBufferBenchmarkingInfo)
      (later : List MetricsBufferBenchmarkingInfo),
      c.ComputeCorePerformanceTelemetry mb now = some out ∧
      out.container.metrics_buffer_benchmarking_info_buffer = oldest :: later ∧
      oldest :: later =
        trim_benchmarking_info_buffer
            (mb.metadata.frame_timestamp - fps_averaging_window_microseconds)
            c.metrics_buffer_benchmarking_info_buffer ++
          [⟨first, mb.metadata.frame_timestamp, mb.metadata.frame_count,
            now - (timestamp_seconds mb.metadata.frame_timestamp + offset)⟩] ∧
      out.container.frames_in_graph_timestamps =
        set_erase_begin_to_find mb.metadata.frame_timestamp (first :: rest) ∧
      out.call = some
        ⟨((window_frame_count (oldest :: later) - 1 : Int) : ℚ) * 1000000 /
            ((mb.metadata.frame_timestamp - oldest.first_timestamp : Int) : ℚ),
          aggregate_latency_seconds (oldest :: later) / ((oldest :: later).length : ℚ),
          first⟩ := by
  have hnew := window_start_not_after mb.metadata.frame_timestamp
  have htrim := trim_benchmarking_info_buffer_append
    (mb.metadata.frame_timestamp - fps_averaging_window_microseconds)
    ⟨first, mb.metadata.frame_timestamp, mb.metadata.frame_count,
      now - (timestamp_seconds mb.metadata.frame_timestamp + offset)⟩ hnew
    c.metrics_buffer_benchmarking_info_buffer
  obtain ⟨oldest, later, hB⟩ : ∃ oldest later,
      trim_benchmarking_info_buffer
            (mb.metadata.frame_timestamp - fps_averaging_window_microseconds)
            c.metrics_buffer_benchmarking_info_buffer ++
          [(⟨first, mb.metadata.frame_timestamp, mb.metadata.frame_count,
            now - (timestamp_seconds mb.metadata.frame_timestamp + offset)⟩ :
              MetricsBufferBenchmarkingInfo)] = oldest :: later := by
    cases hk : trim_benchmarking_info_buffer
        (mb.metadata.frame_timestamp - fps_averaging_window_microseconds)
        c.metrics_buffer_benchmarking_info_buffer with
    | nil => exact ⟨_, [], rfl⟩
    | cons a as => exact ⟨a, as ++ [_], List.cons_append _ _ _⟩
  rw [hB] at htrim
  have hrun : c.ComputeCorePerformanceTelemetry mb now = some
      ⟨{ c with
          frames_in_graph_timestamps :=
            set_erase_begin_to_find mb.metadata.frame_timestamp (first :: rest)
          metrics_buffer_benchmarking_info_buffer := oldest :: later },
        some ⟨((window_frame_count (oldest :: later) - 1 : Int) : ℚ) * 1000000 /
            ((mb.metadata.frame_timestamp - oldest.first_timestamp : Int) : ℚ),
          aggregate_latency_seconds (oldest :: later) / ((oldest :: later).length : ℚ),
          first⟩,
        if (on_telemetry
            (((window_frame_count (oldest :: later) - 1 : Int) : ℚ) * 1000000 /
              ((mb.metadata.frame_timestamp - oldest.first_timestamp : Int) : ℚ))
            (aggregate_latency_seconds (oldest :: later) / ((oldest :: later).length : ℚ))
            first).ok
        then OkStatus
        else on_telemetry
          (((window_frame_count (oldest :: later) - 1 : Int) : ℚ) * 1000000 /
            ((mb.metadata.frame_timestamp - oldest.first_timestamp : Int) : ℚ))
          (aggregate_latency_seconds (oldest :: later) / ((oldest :: later).length : ℚ))
          first⟩ := by
    unfold Container.ComputeCorePerformanceTelemetry
    simp only [hcb, hframes, hoff, htrim]
  exact ⟨_, oldest, later, hrun, rfl, hB.symm, rfl, rfl⟩


theorem window_frame_count_eq_sum (l : List MetricsBufferBenchmarkingInfo) :
    window_frame_count l = (l.map (fun info => info.frame_count)).sum := by
  have h : ∀ (l : List MetricsBufferBenchmarkingInfo) (a : Int),
      l.foldl (fun count info => count + info.frame_count) a =
        a + (l.map (fun info => info.frame_count)).sum := by
    intro l
    induction l with
    | nil => intro a; simp
    | cons r rs ih => intro a; simp [ih, add_assoc]
  simpa [window_frame_count] using h l 0

/-- C1, evaluated: with the telemetry callback registered and recording on, the frames
`0 < 33333 < 66666` are recorded and a batch naming `tk = 33333` arrives; the in-flight set
afterwards is `{33333, 66666}`, so `tk` itself is still in flight and the set is not
`{66666}`. -/
theorem batch_timestamp_stays_in_flight :
    ((((Container.benchmarked 0 (fun _ _ _ => OkStatus)).AddFrameTimestamps (fun _ => 0)
        [0, 33333, 66666]).ComputeCorePerformanceTelemetry ⟨⟨33333, 2⟩⟩ 1).map
          (fun out => out.container.frames_in_graph_timestamps)) = some [33333, 66666] ∧
    ((((Container.benchmarked 0 (fun _ _ _ => OkStatus)).AddFrameTimestamps (fun _ => 0)
        [0, 33333, 66666]).ComputeCorePerformanceTelemetry ⟨⟨33333, 2⟩⟩ 1).map
          (fun out => out.container.frames_in_graph_timestamps)) ≠ some [66666] := by
  decide

/-- What the code does for every run of C1: after the strictly increasing timestamps `ts`
were recorded and a batch naming `ts[k]` arrived, the in-flight set is `ts[k], ts[k+1], ...`
(the batch's own timestamp included). -/
theorem in_flight_after_batch (now_us : Int) (on_telemetry : ℚ → ℚ → Int → Status)
    (clock : Int → ℚ) (ts : List Int) (k : Nat) (tk : Int) (frame_count : Int) (now : ℚ)
    (hsorted : ts.Pairwise (· < ·)) (hk : ts[k]? = some tk) :
    ∃ out, ((Container.benchmarked now_us on_telemetry).AddFrameTimestamps clock
        ts).ComputeCorePerformanceTelemetry ⟨⟨tk, frame_count⟩⟩ now = some out ∧
      out.container.frames_in_graph_timestamps = ts.drop k := by
  obtain ⟨hf, hc, _, ho⟩ := AddFrameTimestamps_frames clock ts
    (Container.benchmarked now_us on_telemetry) rfl rfl (by simpa [Container.benchmarked,
      Container.set_recording, Container.SetOnCorePerformanceTelemetry, CheckCallbackNotNull,
      OkStatus, Status.ok, Container.new] using hsorted)
  have hf2 : ((Container.benchmarked now_us on_telemetry).AddFrameTimestamps clock
      ts).frames_in_graph_timestamps = ts := by
    rw [hf]; rfl
  have hne : ts ≠ [] := by
    intro e; rw [e] at hk; simp at hk
  obtain ⟨first, rest, hts⟩ : ∃ first rest, ts = first :: rest := by
    cases ts with
    | nil => exact absurd rfl hne
    | cons a as => exact ⟨a, as, rfl⟩
  obtain ⟨offset, hoff⟩ := Option.isSome_iff_exists.mp (ho hne)
  obtain ⟨out, _, _, hrun, _, _, hfr, _⟩ := ComputeCorePerformanceTelemetry_eq
    ((Container.benchmarked now_us on_telemetry).AddFrameTimestamps clock ts)
    ⟨⟨tk, frame_count⟩⟩ now on_telemetry first rest offset (by rw [hc]; rfl)
    (by rw [hf2, hts]) hoff
  refine ⟨out, hrun, ?_⟩
  rw [hfr, ← hts]
  exact set_erase_begin_to_find_drop tk ts k
    (hsorted.imp (fun h => ne_of_lt h)) hk

/-- C10, evaluated: frames 10 and 30 are recorded while recording is on, frame 20 is submitted
while recording is off (so it is not recorded), and the batch that arrives names `tk = 20`.
The in-flight set `{10, 30}` becomes empty, although 30 was submitted after `tk`; the set of
entries not earlier than `tk` is `{30}`. -/
theorem batch_with_unrecorded_timestamp_clears_in_flight :
    ((((((Container.benchmarked 0 (fun _ _ _ => OkStatus)).AddFrameTimestampToBenchmarkingInfo
        10 0).set_recording false).AddFrameTimestampToBenchmarkingInfo
        20 0).set_recording true).AddFrameTimestampToBenchmarkingInfo
        30 0).frames_in_graph_timestamps = [10, 30] ∧
    (((((((Container.benchmarked 0 (fun _ _ _ => OkStatus)).AddFrameTimestampToBenchmarkingInfo
        10 0).set_recording false).AddFrameTimestampToBenchmarkingInfo
        20 0).set_recording true).AddFrameTimestampToBenchmarkingInfo
        30 0).ComputeCorePerformanceTelemetry ⟨⟨20, 1⟩⟩ 1).map
          (fun out => out.container.frames_in_graph_timestamps) = some [] ∧
    [10, 30].filter (fun t : Int => decide (20 ≤ t)) = [30] := by
  decide


/-- C2: with the callback registered (and the call defined: a frame in flight, the clock
offset known), the FPS handed to the callback is, in exact rational arithmetic,
`(sum of frame_count over the retained records - 1) * 1000000 / (newest.last_timestamp -
oldest.first_timestamp)` whenever that span is not zero; for exactly two retained records it
is `(c1 + c2 - 1) * 1000000 / (l2 - f1)`. -/
theorem effective_fps_formula (c : Container) (mb : physiology.MetricsBuffer)
    (now : ℚ) (on_telemetry : ℚ → ℚ → Int → Status) (first : Int) (rest : List Int)
    (offset : ℚ)
    (hcb : c.OnCorePerformanceTelemetry = some (some on_telemetry))
    (hframes : c.frames_in_graph_timestamps = first :: rest)
    (hoff : c.offset_from_system_time = some offset) :
    ∃ (out : TelemetryOutcome) (call : TelemetryCall)
      (oldest newest : MetricsBufferBenchmarkingInfo),
      c.ComputeCorePerformanceTelemetry mb now = some out ∧
      out.call = some call ∧
      out.status =
        (if (on_telemetry call.effective_core_fps call.effective_core_latency_seconds
            call.first_buffer_input_timestamp).ok then OkStatus
          else on_telemetry call.effective_core_fps call.effective_core_latency_seconds
            call.first_buffer_input_timestamp) ∧
      out.container.metrics_buffer_benchmarking_info_buffer.head? = some oldest ∧
      out.container.metrics_buffer_benchmarking_info_buffer.getLast? = some newest ∧
      (newest.last_timestamp - oldest.first_timestamp ≠ 0 →
        call.effective_core_fps =
          ((((out.container.metrics_buffer_benchmarking_info_buffer.map
              (fun info => info.frame_count)).sum : Int) : ℚ) - 1) * 1000000 /
            ((newest.last_timestamp : ℚ) - (oldest.first_timestamp : ℚ))) ∧
      (∀ r1 r2 : MetricsBufferBenchmarkingInfo,
        out.container.metrics_buffer_benchmarking_info_buffer = [r1, r2] →
        r2.last_timestamp - r1.first_timestamp ≠ 0 →
        call.effective_core_fps =
          ((r1.frame_count : ℚ) + (r2.frame_count : ℚ) - 1) * 1000000 /
            ((r2.last_timestamp : ℚ) - (r1.first_timestamp : ℚ))) := by
  obtain ⟨out, oldest, later, hrun, hbuf, hB, _, hcall⟩ :=
    ComputeCorePerformanceTelemetry_eq c mb now on_telemetry first rest offset hcb hframes hoff
  have hstatus : out.status =
      (if (on_telemetry
          (((window_frame_count (oldest :: later) - 1 : Int) : ℚ) * 1000000 /
            ((mb.metadata.frame_timestamp - oldest.first_timestamp : Int) : ℚ))
          (aggregate_latency_seconds (oldest :: later) / ((oldest :: later).length : ℚ))
          first).ok then OkStatus
        else on_telemetry
          (((window_frame_count (oldest :: later) - 1 : Int) : ℚ) * 1000000 /
            ((mb.metadata.frame_timestamp - oldest.first_timestamp : Int) : ℚ))
          (aggregate_latency_seconds (oldest :: later) / ((oldest :: later).length : ℚ))
          first) := by
    have hrun2 := hrun
    unfold Container.ComputeCorePerformanceTelemetry at hrun2
    simp only [hcb, hframes, hoff] at hrun2
    rw [trim_benchmarking_info_buffer_append _ _
      (window_start_not_after mb.metadata.frame_timestamp), ← hB] at hrun2
    simp only [Option.some.injEq] at hrun2
    rw [← hrun2]
  have hlast : (oldest :: later).getLast? =
      some ⟨first, mb.metadata.frame_timestamp, mb.metadata.frame_count,
        now - (timestamp_seconds mb.metadata.frame_timestamp + offset)⟩ := by
    rw [hB]; simp
  have hfps : ((window_frame_count (oldest :: later) - 1 : Int) : ℚ) * 1000000 /
        ((mb.metadata.frame_timestamp - oldest.first_timestamp : Int) : ℚ) =
      (((((oldest :: later).map (fun info => info.frame_count)).sum : Int) : ℚ) - 1) *
        1000000 / ((mb.metadata.frame_timestamp : ℚ) - (oldest.first_timestamp : ℚ)) := by
    rw [window_frame_count_eq_sum]; push_cast; rfl
  refine ⟨out, _, oldest, _, hrun, hcall, hstatus, by rw [hbuf]; rfl, by rw [hbuf]; exact hlast,
    fun _ => by rw [hbuf]; exact hfps, ?_⟩
  intro r1 r2 h12 _
  rw [hbuf] at h12
  have ho : oldest = r1 := by injection h12
  have hl : later = [r2] := by injection h12
  have h2 : r2 = ⟨first, mb.metadata.frame_timestamp, mb.metadata.frame_count,
        now - (timestamp_seconds mb.metadata.frame_timestamp + offset)⟩ := by
    have := hlast
    rw [hl] at this
    simpa using this
  show ((window_frame_count (oldest :: later) - 1 : Int) : ℚ) * 1000000 /
        ((mb.metadata.frame_timestamp - oldest.first_timestamp : Int) : ℚ) = _
  rw [hfps, hl, ho, h2]
  simp

theorem effective_fps_formula_witness :
    ∃ (out : TelemetryOutcome) (call : TelemetryCall),
      (sample_container_one_record.AddFrameTimestampToBenchmarkingInfo
        66666 0).ComputeCorePerformanceTelemetry ⟨⟨66666, 1⟩⟩ 2 = some out ∧
      out.call = some call ∧
      out.container.metrics_buffer_benchmarking_info_buffer.map
          (fun info => (info.first_timestamp, info.last_timestamp, info.frame_count)) =
        [(0, 33333, 2), (33333, 66666, 1)] ∧
      call.effective_core_fps = ((2 : ℚ) + 1 - 1) * 1000000 / (66666 - 0) ∧
      call.effective_core_fps =
        ((((out.container.metrics_buffer_benchmarking_info_buffer.map
            (fun info => info.frame_count)).sum : Int) : ℚ) - 1) * 1000000 / (66666 - 0) := by
  obtain ⟨out, call, oldest, newest, hrun, hcall, _, hhead, hlast, hsum, htwo⟩ :=
    effective_fps_formula
      (sample_container_one_record.AddFrameTimestampToBenchmarkingInfo 66666 0)
      ⟨⟨66666, 1⟩⟩ 2 (fun _ _ _ => OkStatus) 33333 [66666] (0 - timestamp_seconds 0)
      rfl rfl rfl
  have hbuf : ((sample_container_one_record.AddFrameTimestampToBenchmarkingInfo
        66666 0).ComputeCorePerformanceTelemetry ⟨⟨66666, 1⟩⟩ 2).map
        (fun out => out.container.metrics_buffer_benchmarking_info_buffer) =
      some [⟨0, 33333, 2, 1 - (timestamp_seconds 33333 + (0 - timestamp_seconds 0))⟩,
        ⟨33333, 66666, 1, 2 - (timestamp_seconds 66666 + (0 - timestamp_seconds 0))⟩] := rfl
  rw [hrun] at hbuf
  simp only [Option.map_some', Option.some.injEq] at hbuf
  have h2 := htwo _ _ hbuf (by decide)
  rw [hbuf] at hhead hlast
  simp only [List.head?_cons, Option.some.injEq] at hhead
  have hnewest : newest = ⟨33333, 66666, 1,
      2 - (timestamp_seconds 66666 + (0 - timestamp_seconds 0))⟩ := by
    simpa using hlast.symm
  have h1 := hsum (by rw [hnewest, ← hhead]; decide)
  rw [hnewest, ← hhead] at h1
  refine ⟨out, call, hrun, hcall, by rw [hbuf]; rfl, ?_, ?_⟩
  · rw [h2]; norm_num
  · rw [h1]; norm_num


theorem trim_benchmarking_info_buffer_singleton (ws : Int)
    (only : MetricsBufferBenchmarkingInfo) :
    trim_benchmarking_info_buffer ws [only] = [only] := by
  unfold trim_benchmarking_info_buffer
  by_cases h : only.last_timestamp < ws <;> simp [benchmarking_info_location, h]

/-- C3: with the callback registered (and the call defined: a frame in flight, the clock
offset known), whatever records the sequence held before and whatever batch arrives, the
sequence afterwards is non-empty and ends with the record pushed for this batch; a sequence
that was empty holds exactly that record, and a sequence that held a single record keeps
it, however old it is. -/
theorem newest_record_survives_trimming (c : Container) (mb : physiology.MetricsBuffer)
    (now : ℚ) (on_telemetry : ℚ → ℚ → Int → Status) (first : Int) (rest : List Int)
    (offset : ℚ)
    (hcb : c.OnCorePerformanceTelemetry = some (some on_telemetry))
    (hframes : c.frames_in_graph_timestamps = first :: rest)
    (hoff : c.offset_from_system_time = some offset) :
    ∃ out : TelemetryOutcome,
      c.ComputeCorePerformanceTelemetry mb now = some out ∧
      out.container.metrics_buffer_benchmarking_info_buffer ≠ [] ∧
      out.container.metrics_buffer_benchmarking_info_buffer.getLast? =
        some ⟨first, mb.metadata.frame_timestamp, mb.metadata.frame_count,
          now - (timestamp_seconds mb.metadata.frame_timestamp + offset)⟩ ∧
      (c.metrics_buffer_benchmarking_info_buffer = [] →
        out.container.metrics_buffer_benchmarking_info_buffer =
          [⟨first, mb.metadata.frame_timestamp, mb.metadata.frame_count,
            now - (timestamp_seconds mb.metadata.frame_timestamp + offset)⟩]) ∧
      (∀ only : MetricsBufferBenchmarkingInfo,
        c.metrics_buffer_benchmarking_info_buffer = [only] →
        out.container.metrics_buffer_benchmarking_info_buffer =
          [only, ⟨first, mb.metadata.frame_timestamp, mb.metadata.frame_count,
            now - (timestamp_seconds mb.metadata.frame_timestamp + offset)⟩]) := by
  obtain ⟨out, oldest, later, hrun, hbuf, hB, _, _⟩ :=
    ComputeCorePerformanceTelemetry_eq c mb now on_telemetry first rest offset hcb hframes hoff
  refine ⟨out, hrun, by rw [hbuf]; simp, by rw [hbuf, hB]; simp, ?_, ?_⟩
  · intro hempty
    rw [hbuf, hB, hempty]
    rfl
  · intro only honly
    rw [hbuf, hB, honly, trim_benchmarking_info_buffer_singleton]
    rfl

theorem newest_record_survives_trimming_witness :
    (∃ out : TelemetryOutcome,
      (sample_container_three_records.AddFrameTimestampToBenchmarkingInfo
        6000000 0).ComputeCorePerformanceTelemetry ⟨⟨6000000, 1⟩⟩ 7 = some out ∧
      sample_container_three_records.metrics_buffer_benchmarking_info_buffer.map
          (fun info => info.last_timestamp) = [0, 2000000, 4000000] ∧
      out.container.metrics_buffer_benchmarking_info_buffer ≠ [] ∧
      out.container.metrics_buffer_benchmarking_info_buffer.getLast? =
        some ⟨4000000, 6000000, 1, 7 - (timestamp_seconds 6000000 + (0 - timestamp_seconds 0))⟩ ∧
      out.container.metrics_buffer_benchmarking_info_buffer.map
          (fun info => info.last_timestamp) = [4000000, 6000000]) ∧
    (∃ out : TelemetryOutcome,
      (sample_container_lone_record.AddFrameTimestampToBenchmarkingInfo
        5000000 0).ComputeCorePerformanceTelemetry ⟨⟨5000000, 1⟩⟩ 6 = some out ∧
      out.container.metrics_buffer_benchmarking_info_buffer =
        [⟨0, 0, 1, 1 - (timestamp_seconds 0 + (0 - timestamp_seconds 0))⟩,
          ⟨0, 5000000, 1, 6 - (timestamp_seconds 5000000 + (0 - timestamp_seconds 0))⟩] ∧
      (0 : Int) < 5000000 - fps_averaging_window_microseconds) ∧
    (∃ out : TelemetryOutcome,
      ((Container.benchmarked 0 (fun _ _ _ => OkStatus)).AddFrameTimestamps (fun _ => 0)
        [0, 33333]).ComputeCorePerformanceTelemetry ⟨⟨33333, 2⟩⟩ 1 = some out ∧
      out.container.metrics_buffer_benchmarking_info_buffer =
        [⟨0, 33333, 2, 1 - (timestamp_seconds 33333 + (0 - timestamp_seconds 0))⟩]) :=
  let ⟨out, hrun, hne, hlast, _, _⟩ := newest_record_survives_trimming
    (sample_container_three_records.AddFrameTimestampToBenchmarkingInfo 6000000 0)
    ⟨⟨6000000, 1⟩⟩ 7 (fun _ _ _ => OkStatus) 4000000 [6000000] (0 - timestamp_seconds 0)
    rfl rfl rfl
  let ⟨out1, hrun1, _, _, _, honly⟩ := newest_record_survives_trimming
    (sample_container_lone_record.AddFrameTimestampToBenchmarkingInfo 5000000 0)
    ⟨⟨5000000, 1⟩⟩ 6 (fun _ _ _ => OkStatus) 0 [5000000] (0 - timestamp_seconds 0)
    rfl rfl rfl
  let ⟨out0, hrun0, _, _, hempty, _⟩ := newest_record_survives_trimming
    ((Container.benchmarked 0 (fun _ _ _ => OkStatus)).AddFrameTimestamps (fun _ => 0)
      [0, 33333])
    ⟨⟨33333, 2⟩⟩ 1 (fun _ _ _ => OkStatus) 0 [33333] (0 - timestamp_seconds 0) rfl rfl rfl
  ⟨⟨out, hrun, by decide, hne, hlast, by
      have hbuf : ((sample_container_three_records.AddFrameTimestampToBenchmarkingInfo
          6000000 0).ComputeCorePerformanceTelemetry ⟨⟨6000000, 1⟩⟩ 7).map
          (fun out => out.container.metrics_buffer_benchmarking_info_buffer.map
            (fun info => info.last_timestamp)) = some [4000000, 6000000] := by decide
      rw [hrun] at hbuf
      simpa using hbuf⟩,
    ⟨out1, hrun1, honly _ rfl, by decide⟩,
    ⟨out0, hrun0, hempty rfl⟩⟩

/-! ## The averaging window -/

theorem mem_drop_benchmarking_info_location (ws : Int) :
    ∀ l : List MetricsBufferBenchmarkingInfo,
      l.Pairwise (fun a b => a.last_timestamp ≤ b.last_timestamp) →
      ∀ r ∈ l.drop (benchmarking_info_location ws l), ws ≤ r.last_timestamp := by
  intro l
  induction l with
  | nil => intro _ r hr; simp at hr
  | cons a as ih =>
      intro hs r hr
      by_cases h : a.last_timestamp < ws
      · simp only [benchmarking_info_location, h, if_true, List.drop_succ_cons] at hr
        exact ih (List.pairwise_cons.mp hs).2 r hr
      · simp only [benchmarking_info_location, h, if_false, List.drop_zero] at hr
        rcases List.mem_cons.mp hr with e | hmem
        · rw [e]; exact not_lt.mp h
        · exact le_trans (not_lt.mp h) ((List.pairwise_cons.mp hs).1 r hmem)

theorem mem_tail_trim_benchmarking_info_buffer (ws : Int)
    (l : List MetricsBufferBenchmarkingInfo) (r : MetricsBufferBenchmarkingInfo)
    (hr : r ∈ (trim_benchmarking_info_buffer ws l).tail) :
    r ∈ l.drop (benchmarking_info_location ws l) := by
  unfold trim_benchmarking_info_buffer at hr
  by_cases h : benchmarking_info_location ws l > 0 + 1
  · simp only [h, if_true] at hr
    exact List.mem_of_mem_tail hr
  · simp only [h, if_false] at hr
    have hle : benchmarking_info_location ws l ≤ 1 := by omega
    rw [← List.drop_one] at hr
    rcases Nat.le_one_iff_eq_zero_or_eq_one.mp hle with h0 | h1
    · rw [h0]; exact List.mem_of_mem_drop hr
    · rw [h1]; exact hr

theorem trim_benchmarking_info_buffer_sublist (ws : Int)
    (l : List MetricsBufferBenchmarkingInfo) :
    List.Sublist (trim_benchmarking_info_buffer ws l) l := by
  unfold trim_benchmarking_info_buffer
  by_cases h : benchmarking_info_location ws l > 0 + 1
  · simp only [h, if_true]; exact List.drop_sublist _ _
  · simp only [h, if_false]; exact List.Sublist.refl _

/-- C9, refuted as stated: frame 0 is recorded and a batch naming it arrives; ten seconds
later frame 10000000 is recorded and a batch naming it arrives.  The record of the first batch
(`last_timestamp = 0`) is still in the sequence, more than 3000000 microseconds before the
newest record's `last_timestamp = 10000000`. -/
theorem lone_stale_record_is_retained :
    (((((Container.benchmarked 0 (fun _ _ _ => OkStatus)).AddFrameTimestampToBenchmarkingInfo
        0 0).ComputeCorePerformanceTelemetry ⟨⟨0, 1⟩⟩ 1).bind
        (fun out => (out.container.AddFrameTimestampToBenchmarkingInfo
          10000000 10).ComputeCorePerformanceTelemetry ⟨⟨10000000, 1⟩⟩ 11)).map
        (fun out => out.container.metrics_buffer_benchmarking_info_buffer.map
          (fun info => (info.last_timestamp,
            decide (10000000 - fps_averaging_window_microseconds ≤ info.last_timestamp)))))
      = some [(0, false), (10000000, true)] := by
  decide

theorem benchmarking_info_location_eq_countP (ws : Int) :
    ∀ l : List MetricsBufferBenchmarkingInfo,
      l.Pairwise (fun a b => a.last_timestamp ≤ b.last_timestamp) →
      benchmarking_info_location ws l =
        l.countP (fun r => decide (r.last_timestamp < ws)) := by
  intro l
  induction l with
  | nil => intro _; rfl
  | cons a as ih =>
      intro hs
      have hs2 := List.pairwise_cons.mp hs
      by_cases h : a.last_timestamp < ws
      · simp only [benchmarking_info_location, h, if_true, ih hs2.2]
        rw [List.countP_cons_of_pos _ _ (by simpa using h)]
      · simp only [benchmarking_info_location, h, if_false]
        symm
        rw [List.countP_eq_zero]
        intro r hr
        rcases List.mem_cons.mp hr with e | hmem
        · rw [e]; simpa using h
        · have := hs2.1 r hmem
          simp only [decide_eq_true_eq, not_lt]
          exact le_trans (not_lt.mp h) this

/-- C9, amended: when the records arrive with non-decreasing last timestamps, count the
records that lie before the 3-second window of the arriving batch (`last_timestamp <
batch timestamp - 3000000`).  With two or more such records all of them are erased, with at
most one nothing is erased, and the batch's record is appended.  Hence every retained record
has `last_timestamp >= newest last_timestamp - 3000000` unless exactly one record lay before
the window; that single record is then retained as the oldest one, and every record behind
it is inside the window. -/
theorem stale_records_erased_unless_exactly_one (c : Container)
    (mb : physiology.MetricsBuffer) (now : ℚ) (on_telemetry : ℚ → ℚ → Int → Status)
    (first : Int) (rest : List Int) (offset : ℚ)
    (hcb : c.OnCorePerformanceTelemetry = some (some on_telemetry))
    (hframes : c.frames_in_graph_timestamps = first :: rest)
    (hoff : c.offset_from_system_time = some offset)
    (hsorted : c.metrics_buffer_benchmarking_info_buffer.Pairwise
      (fun a b => a.last_timestamp ≤ b.last_timestamp))
    (hle : ∀ r ∈ c.metrics_buffer_benchmarking_info_buffer,
      r.last_timestamp ≤ mb.metadata.frame_timestamp) :
    ∃ (out : TelemetryOutcome) (newest : MetricsBufferBenchmarkingInfo),
      c.ComputeCorePerformanceTelemetry mb now = some out ∧
      out.container.metrics_buffer_benchmarking_info_buffer.getLast? = some newest ∧
      newest.last_timestamp = mb.metadata.frame_timestamp ∧
      out.container.metrics_buffer_benchmarking_info_buffer =
        (if 2 ≤ c.metrics_buffer_benchmarking_info_buffer.countP
              (fun r => decide (r.last_timestamp < newest.last_timestamp - 3000000))
          then c.metrics_buffer_benchmarking_info_buffer.drop
            (c.metrics_buffer_benchmarking_info_buffer.countP
              (fun r => decide (r.last_timestamp < newest.last_timestamp - 3000000)))
          else c.metrics_buffer_benchmarking_info_buffer) ++ [newest] ∧
      (c.metrics_buffer_benchmarking_info_buffer.countP
          (fun r => decide (r.last_timestamp < newest.last_timestamp - 3000000)) ≠ 1 →
        ∀ r ∈ out.container.metrics_buffer_benchmarking_info_buffer,
          newest.last_timestamp - 3000000 ≤ r.last_timestamp) ∧
      (c.metrics_buffer_benchmarking_info_buffer.countP
          (fun r => decide (r.last_timestamp < newest.last_timestamp - 3000000)) = 1 →
        ∃ (lone : MetricsBufferBenchmarkingInfo) (later : List MetricsBufferBenchmarkingInfo),
          out.container.metrics_buffer_benchmarking_info_buffer = lone :: later ∧
          lone.last_timestamp < newest.last_timestamp - 3000000 ∧
          ∀ r ∈ later, newest.last_timestamp - 3000000 ≤ r.last_timestamp) ∧
      out.container.metrics_buffer_benchmarking_info_buffer.Pairwise
        (fun a b => a.last_timestamp ≤ b.last_timestamp) ∧
      (∀ r ∈ out.container.metrics_buffer_benchmarking_info_buffer,
        r.last_timestamp ≤ newest.last_timestamp) := by
  obtain ⟨out, oldest, later, hrun, hbuf, hB, _, _⟩ :=
    ComputeCorePerformanceTelemetry_eq c mb now on_telemetry first rest offset hcb hframes hoff
  have hsub := trim_benchmarking_info_buffer_sublist
    (mb.metadata.frame_timestamp - fps_averaging_window_microseconds)
    c.metrics_buffer_benchmarking_info_buffer
  have hws : mb.metadata.frame_timestamp - fps_averaging_window_microseconds =
      mb.metadata.frame_timestamp - 3000000 := by
    unfold fps_averaging_window_microseconds; norm_num
  have hloc := benchmarking_info_location_eq_countP (mb.metadata.frame_timestamp - 3000000)
    c.metrics_buffer_benchmarking_info_buffer hsorted
  have hdrop := mem_drop_benchmarking_info_location (mb.metadata.frame_timestamp - 3000000)
    c.metrics_buffer_benchmarking_info_buffer hsorted
  rw [hloc] at hdrop
  have htrim : trim_benchmarking_info_buffer
      (mb.metadata.frame_timestamp - fps_averaging_window_microseconds)
      c.metrics_buffer_benchmarking_info_buffer =
      (if 2 ≤ c.metrics_buffer_benchmarking_info_buffer.countP
            (fun r => decide (r.last_timestamp < mb.metadata.frame_timestamp - 3000000))
        then c.metrics_buffer_benchmarking_info_buffer.drop
          (c.metrics_buffer_benchmarking_info_buffer.countP
            (fun r => decide (r.last_timestamp < mb.metadata.frame_timestamp - 3000000)))
        else c.metrics_buffer_benchmarking_info_buffer) := by
    unfold trim_benchmarking_info_buffer
    rw [hws, hloc]
    by_cases h : 2 ≤ c.metrics_buffer_benchmarking_info_buffer.countP
        (fun r => decide (r.last_timestamp < mb.metadata.frame_timestamp - 3000000))
    · have h2 : c.metrics_buffer_benchmarking_info_buffer.countP
          (fun r => decide (r.last_timestamp < mb.metadata.frame_timestamp - 3000000)) >
          0 + 1 := by omega
      simp only [h, h2, if_true]
    · have h2 : ¬ c.metrics_buffer_benchmarking_info_buffer.countP
          (fun r => decide (r.last_timestamp < mb.metadata.frame_timestamp - 3000000)) >
          0 + 1 := by omega
      simp only [h, h2, if_false]
  refine ⟨out, ⟨first, mb.metadata.frame_timestamp, mb.metadata.frame_count,
    now - (timestamp_seconds mb.metadata.frame_timestamp + offset)⟩, hrun,
    by rw [hbuf, hB]; simp, rfl, by rw [hbuf, hB, htrim], ?_, ?_, ?_, ?_⟩
  · intro hne r hr
    rw [hbuf, hB, htrim] at hr
    show mb.metadata.frame_timestamp - 3000000 ≤ r.last_timestamp
    rcases List.mem_append.mp hr with hmem | hnew
    · by_cases h : 2 ≤ c.metrics_buffer_benchmarking_info_buffer.countP
          (fun r => decide (r.last_timestamp < mb.metadata.frame_timestamp - 3000000))
      · rw [if_pos h] at hmem
        exact hdrop r hmem
      · rw [if_neg h] at hmem
        have h0 : c.metrics_buffer_benchmarking_info_buffer.countP
            (fun r => decide (r.last_timestamp < mb.metadata.frame_timestamp - 3000000)) =
            0 := by
          have : c.metrics_buffer_benchmarking_info_buffer.countP
            (fun r => decide (r.last_timestamp < mb.metadata.frame_timestamp - 3000000)) ≠
            1 := hne
          omega
        rw [h0] at hdrop
        exact hdrop r hmem
    · rw [List.mem_singleton.mp hnew]
      show mb.metadata.frame_timestamp - 3000000 ≤ mb.metadata.frame_timestamp
      omega
  · intro hone
    have hone2 : c.metrics_buffer_benchmarking_info_buffer.countP
        (fun r => decide (r.last_timestamp < mb.metadata.frame_timestamp - 3000000)) = 1 :=
      hone
    rw [hone2] at hdrop hloc
    rw [hbuf, hB, htrim, hone2]
    cases hc : c.metrics_buffer_benchmarking_info_buffer with
    | nil => rw [hc] at hloc; simp [benchmarking_info_location] at hloc
    | cons a as =>
        rw [hc] at hloc hdrop
        refine ⟨a, as ++ [⟨first, mb.metadata.frame_timestamp, mb.metadata.frame_count,
          now - (timestamp_seconds mb.metadata.frame_timestamp + offset)⟩], by simp, ?_, ?_⟩
        · show a.last_timestamp < mb.metadata.frame_timestamp - 3000000
          by_contra hnot
          simp [benchmarking_info_location, hnot] at hloc
        · intro r hr
          show mb.metadata.frame_timestamp - 3000000 ≤ r.last_timestamp
          rcases List.mem_append.mp hr with hmem | hnew
          · exact hdrop r (by simpa using hmem)
          · rw [List.mem_singleton.mp hnew]
            show mb.metadata.frame_timestamp - 3000000 ≤ mb.metadata.frame_timestamp
            omega
  · rw [hbuf, hB]
    refine List.pairwise_append.mpr ⟨hsorted.sublist hsub, List.pairwise_singleton _ _, ?_⟩
    intro a ha b hb
    rw [List.mem_singleton.mp hb]
    exact hle a (hsub.subset ha)
  · intro r hr
    rw [hbuf, hB] at hr
    rcases List.mem_append.mp hr with hmem | hnew
    · exact hle r (hsub.subset hmem)
    · rw [List.mem_singleton.mp hnew]

theorem stale_records_erased_unless_exactly_one_witness :
    (∃ (out : TelemetryOutcome) (newest : MetricsBufferBenchmarkingInfo),
      (sample_container_three_records.AddFrameTimestampToBenchmarkingInfo
        6500000 0).ComputeCorePerformanceTelemetry ⟨⟨6500000, 2⟩⟩ 8 = some out ∧
      out.container.metrics_buffer_benchmarking_info_buffer.getLast? = some newest ∧
      newest.last_timestamp = 6500000 ∧
      sample_container_three_records.metrics_buffer_benchmarking_info_buffer.map
          (fun info => info.last_timestamp) = [0, 2000000, 4000000] ∧
      out.container.metrics_buffer_benchmarking_info_buffer =
        sample_container_three_records.metrics_buffer_benchmarking_info_buffer.drop 2 ++
          [newest] ∧
      (∀ r ∈ out.container.metrics_buffer_benchmarking_info_buffer,
        newest.last_timestamp - 3000000 ≤ r.last_timestamp)) ∧
    (∃ (out : TelemetryOutcome) (newest lone : MetricsBufferBenchmarkingInfo)
        (later : List MetricsBufferBenchmarkingInfo),
      (sample_container_lone_record.AddFrameTimestampToBenchmarkingInfo
        8000000 0).ComputeCorePerformanceTelemetry ⟨⟨8000000, 1⟩⟩ 9 = some out ∧
      newest.last_timestamp = 8000000 ∧
      sample_container_lone_record.metrics_buffer_benchmarking_info_buffer.map
          (fun info => info.last_timestamp) = [0] ∧
      out.container.metrics_buffer_benchmarking_info_buffer =
        sample_container_lone_record.metrics_buffer_benchmarking_info_buffer ++ [newest] ∧
      out.container.metrics_buffer_benchmarking_info_buffer = lone :: later ∧
      lone.last_timestamp < newest.last_timestamp - 3000000 ∧
      ∀ r ∈ later, newest.last_timestamp - 3000000 ≤ r.last_timestamp) :=
  let ⟨out, newest, hrun, hlast, hnew, hkept, hwindow, _⟩ :=
    stale_records_erased_unless_exactly_one
      (sample_container_three_records.AddFrameTimestampToBenchmarkingInfo 6500000 0)
      ⟨⟨6500000, 2⟩⟩ 8 (fun _ _ _ => OkStatus) 4000000 [6500000] (0 - timestamp_seconds 0)
      rfl rfl rfl (by decide) (by decide)
  let ⟨out1, newest1, hrun1, _, hnew1, hkept1, _, hlone1, _⟩ :=
    stale_records_erased_unless_exactly_one
      (sample_container_lone_record.AddFrameTimestampToBenchmarkingInfo 8000000 0)
      ⟨⟨8000000, 1⟩⟩ 9 (fun _ _ _ => OkStatus) 0 [8000000] (0 - timestamp_seconds 0)
      rfl rfl rfl (by decide) (by decide)
  have h2 : (sample_container_three_records.AddFrameTimestampToBenchmarkingInfo
      6500000 0).metrics_buffer_benchmarking_info_buffer.countP
      (fun r => decide (r.last_timestamp < newest.last_timestamp - 3000000)) = 2 := by
    rw [hnew]; decide
  have h1 : (sample_container_lone_record.AddFrameTimestampToBenchmarkingInfo
      8000000 0).metrics_buffer_benchmarking_info_buffer.countP
      (fun r => decide (r.last_timestamp < newest1.last_timestamp - 3000000)) = 1 := by
    rw [hnew1]; decide
  let ⟨lone, later, hsplit, hstale, hlater⟩ := hlone1 h1
  ⟨⟨out, newest, hrun, hlast, hnew, by decide, by rw [h2] at hkept; exact hkept,
      hwindow (by rw [h2]; decide)⟩,
    ⟨out1, newest1, lone, later, hrun1, hnew1, by decide,
      by rw [h1] at hkept1; exact hkept1, hsplit, hstale, hlater⟩⟩

end presage.smartspectra.container

namespace presage.smartspectra.container

/-! ## Spot-mode operation context -/

theorem QueryPollers_spot_duration (ctx : SpotOperationContext) (poller : PollerQuery ℚ)
    (verbose : Bool) :
    (ctx.QueryPollers poller verbose).context.spot_duration_s = ctx.spot_duration_s := rfl

theorem QueryPollersMany_spot_duration (queries : List (PollerQuery ℚ × Bool)) :
    ∀ ctx : SpotOperationContext,
      (ctx.QueryPollersMany queries).spot_duration_s = ctx.spot_duration_s := by
  induction queries with
  | nil => intro ctx; rfl
  | cons q qs ih =>
      intro ctx
      show (SpotOperationContext.QueryPollersMany (ctx.QueryPollers q.1 q.2).context
        qs).spot_duration_s = ctx.spot_duration_s
      rw [ih, QueryPollers_spot_duration]

/-- C8: a spot-mode context constructed with `spot_duration_s = d`, after any sequence of
`QueryPollers` calls (whatever the time-left stream delivered), has `time_left_s = d` and
`spot_duration_s = d` once `Reset()` has run. -/
theorem Reset_restores_spot_duration (operation_settings : SpotSettings)
    (queries : List (PollerQuery ℚ × Bool)) :
    (((SpotOperationContext.new operation_settings).QueryPollersMany queries).Reset).time_left_s
        = operation_settings.spot_duration_s ∧
    (((SpotOperationContext.new operation_settings).QueryPollersMany
        queries).Reset).spot_duration_s = operation_settings.spot_duration_s := by
  have h := QueryPollersMany_spot_duration queries (SpotOperationContext.new operation_settings)
  exact ⟨h, h⟩

end presage.smartspectra.container

namespace presage.camera.opencv

/-! ## Resolution probing -/

/-- C7, evaluated: a camera that accepts exactly 1920x1080 and 1600x1200 is probed over the
range `High`, which holds both.  The result is `(true, 1920x1200)`: a size the camera does not
accept and that is not among the resolutions of the range.  For a camera accepting exactly
640x480 and 1280x720 the result over `Complete` is 1280x720. -/
theorem maximum_resolution_combines_two_resolutions :
    GetMaximumCameraResolutionFromRange
        (camera_accepting [⟨1920, 1080⟩, ⟨1600, 1200⟩] ⟨1920, 1080⟩) CameraResolutionRange.High
      = some (true, ⟨1920, 1200⟩) ∧
    CheckCameraWorksWithResolution
        (camera_accepting [⟨1920, 1080⟩, ⟨1600, 1200⟩] ⟨1920, 1080⟩) ⟨1920, 1200⟩ = false ∧
    (⟨1920, 1200⟩ : cv.Size) ∉ resolutions_of_range CameraResolutionRange.High ∧
    (⟨1920, 1080⟩ : cv.Size) ∈ resolutions_of_range CameraResolutionRange.High ∧
    (⟨1600, 1200⟩ : cv.Size) ∈ resolutions_of_range CameraResolutionRange.High ∧
    GetMaximumCameraResolutionFromRange
        (camera_accepting [⟨640, 480⟩, ⟨1280, 720⟩] ⟨640, 480⟩) CameraResolutionRange.Complete
      = some (true, ⟨1280, 720⟩) := by
  decide

end presage.camera.opencv

namespace presage.smartspectra.video_source.file_stream

/-! ## Scanning the stream directory -/

theorem map_assign_sorted (key : Int) (path : String) :
    ∀ m : List (Int × String), m.Pairwise (fun a b => a.1 < b.1) →
      (map_assign key path m).Pairwise (fun a b => a.1 < b.1) ∧
      ∀ x ∈ map_assign key path m, x = (key, path) ∨ x ∈ m := by
  intro m
  induction m with
  | nil => intro _; simp [map_assign]
  | cons kp rest ih =>
      obtain ⟨k, p⟩ := kp
      intro hs
      have hrest := (List.pairwise_cons.mp hs).2
      have hhead := (List.pairwise_cons.mp hs).1
      by_cases h1 : key < k
      · simp only [map_assign, h1, if_true]
        refine ⟨List.pairwise_cons.mpr ⟨?_, hs⟩, ?_⟩
        · intro x hx
          rcases List.mem_cons.mp hx with e | hm
          · rw [e]; exact h1
          · exact lt_trans h1 (hhead x hm)
        · intro x hx
          rcases List.mem_cons.mp hx with e | hm
          · exact Or.inl e
          · exact Or.inr hm
      · by_cases h2 : key = k
        · subst h2
          simp only [map_assign, lt_irrefl, if_true, if_false]
          refine ⟨List.pairwise_cons.mpr ⟨?_, hrest⟩, ?_⟩
          · intro x hx; exact hhead x hx
          · intro x hx
            rcases List.mem_cons.mp hx with e | hm
            · exact Or.inl e
            · exact Or.inr (List.mem_cons_of_mem _ hm)
        · simp only [map_assign, h1, h2, if_false]
          obtain ⟨ihs, ihm⟩ := ih hrest
          refine ⟨List.pairwise_cons.mpr ⟨?_, ihs⟩, ?_⟩
          · intro x hx
            rcases ihm x hx with e | hm
            · rw [e]
              show k < key
              omega
            · exact hhead x hm
          · intro x hx
            rcases List.mem_cons.mp hx with e | hm
            · exact Or.inr (by rw [e]; exact List.mem_cons_self _ _)
            · rcases ihm x hm with e | hm2
              · exact Or.inl e
              · exact Or.inr (List.mem_cons_of_mem _ hm2)

theorem map_assign_perm (key : Int) (path : String) :
    ∀ m : List (Int × String), (∀ x ∈ m, x.1 ≠ key) →
      List.Perm (map_assign key path m) ((key, path) :: m) := by
  intro m
  induction m with
  | nil => intro _; exact List.Perm.refl _
  | cons kp rest ih =>
      obtain ⟨k, p⟩ := kp
      intro hne
      have hk : ¬ key = k := fun e => hne (k, p) (List.mem_cons_self _ _) e.symm
      by_cases h1 : key < k
      · simp only [map_assign, h1, if_true]
        exact List.Perm.refl _
      · simp only [map_assign, h1, hk, if_false]
        exact ((ih (fun x hx => hne x (List.mem_cons_of_mem _ hx))).cons (k, p)).trans
          (List.Perm.swap _ _ _)

/-- The scan of a directory whose frame files have pairwise distinct indices, none of them in
the map so far, and whose end-of-stream marker (if present) is not a frame file: the resulting
map is
in ascending key order and holds the map so far together with one entry per frame file. -/
theorem scan_entries_perm (regex : String → Option Nat) (eos : String) :
    ∀ (directory : Directory) (flag : Bool) (m : List (Int × String)),
      (∀ entry ∈ directory, entry.filename = eos → frame_file_key regex entry = none) →
      m.Pairwise (fun a b => a.1 < b.1) →
      ((directory.filterMap (frame_file_key regex)).map Prod.fst ++ m.map Prod.fst).Nodup →
      ((scan_entries regex eos directory flag m).2).Pairwise (fun a b => a.1 < b.1) ∧
      List.Perm (scan_entries regex eos directory flag m).2
        (directory.filterMap (frame_file_key regex) ++ m) ∧
      (scan_entries regex eos directory flag m).1 =
        (flag || directory.any (fun entry => entry.filename == eos)) := by
  intro directory
  induction directory with
  | nil => intro flag m _ hs _; simp [scan_entries, hs]
  | cons entry rest ih =>
      intro flag m heos hs hnd
      have heos_rest : ∀ e ∈ rest, e.filename = eos → frame_file_key regex e = none :=
        fun e he => heos e (List.mem_cons_of_mem _ he)
      by_cases hskip : (!flag && entry.filename == eos) = true
      · -- the marker itself, seen for the first time
        have hname : entry.filename = eos := by
          simp only [Bool.and_eq_true, beq_iff_eq] at hskip; exact hskip.2
        have hkey : frame_file_key regex entry = none :=
          heos entry (List.mem_cons_self _ _) hname
        have hnd2 : ((rest.filterMap (frame_file_key regex)).map Prod.fst ++
            m.map Prod.fst).Nodup := by
          simpa [List.filterMap_cons, hkey] using hnd
        obtain ⟨h1, h2, h3⟩ := ih true m heos_rest hs hnd2
        simp only [scan_entries, hskip, if_true]
        refine ⟨h1, ?_, ?_⟩
        · simpa [List.filterMap_cons, hkey] using h2
        · rw [h3]; simp [hname]
      · have hany : (flag || (entry :: rest).any (fun entry => entry.filename == eos)) =
            (flag || rest.any (fun entry => entry.filename == eos)) := by
          by_cases hf : flag = true
          · simp [hf]
          · have hne : (entry.filename == eos) = false := by
              simp only [Bool.not_eq_true] at hf
              simpa [hf] using hskip
            simp [hne]
        have hnone : frame_file_key regex entry = none →
            scan_entries regex eos (entry :: rest) flag m =
              scan_entries regex eos rest flag m →
            ((scan_entries regex eos (entry :: rest) flag m).2).Pairwise
                (fun a b => a.1 < b.1) ∧
              List.Perm (scan_entries regex eos (entry :: rest) flag m).2
                ((entry :: rest).filterMap (frame_file_key regex) ++ m) ∧
              (scan_entries regex eos (entry :: rest) flag m).1 =
                (flag || (entry :: rest).any (fun entry => entry.filename == eos)) := by
          intro hk hstep
          have hnd2 : ((rest.filterMap (frame_file_key regex)).map Prod.fst ++
              m.map Prod.fst).Nodup := by
            simpa [List.filterMap_cons, hk] using hnd
          obtain ⟨h1, h2, h3⟩ := ih flag m heos_rest hs hnd2
          rw [hstep, hany]
          refine ⟨h1, ?_, h3⟩
          simpa [List.filterMap_cons, hk] using h2
        by_cases hreg : entry.is_regular_file = true
        · cases hr : regex entry.filename with
          | none =>
              exact hnone (by simp [frame_file_key, hreg, hr])
                (by simp [scan_entries, hskip, hreg, hr])
          | some i =>
              have hk : frame_file_key regex entry = some ((i : Int), entry.filename) := by
                simp [frame_file_key, hreg, hr]
              have hstep : scan_entries regex eos (entry :: rest) flag m =
                  scan_entries regex eos rest flag (map_assign (i : Int) entry.filename m) := by
                simp [scan_entries, hskip, hreg, hr]
              have hnd' : ((i : Int) :: ((rest.filterMap (frame_file_key regex)).map Prod.fst ++
                  m.map Prod.fst)).Nodup := by
                simpa [List.filterMap_cons, hk] using hnd
              have hknew : ∀ x ∈ m, x.1 ≠ (i : Int) := by
                intro x hx e
                exact (List.nodup_cons.mp hnd').1
                  (List.mem_append_right _ (e ▸ List.mem_map_of_mem Prod.fst hx))
              have hperm := map_assign_perm (i : Int) entry.filename m hknew
              have hnd2 : ((rest.filterMap (frame_file_key regex)).map Prod.fst ++
                  (map_assign (i : Int) entry.filename m).map Prod.fst).Nodup := by
                have hp2 : List.Perm
                    ((rest.filterMap (frame_file_key regex)).map Prod.fst ++
                      (map_assign (i : Int) entry.filename m).map Prod.fst)
                    ((i : Int) :: ((rest.filterMap (frame_file_key regex)).map Prod.fst ++
                      m.map Prod.fst)) := by
                  refine (List.Perm.append_left _ (hperm.map Prod.fst)).trans ?_
                  exact List.perm_middle
                exact hp2.nodup_iff.mpr hnd'
              obtain ⟨h1, h2, h3⟩ := ih flag (map_assign (i : Int) entry.filename m)
                heos_rest (map_assign_sorted (i : Int) entry.filename m hs).1 hnd2
              rw [hstep, hany]
              refine ⟨h1, ?_, h3⟩
              refine h2.trans ?_
              simp only [List.filterMap_cons, hk]
              exact (List.Perm.append_left _ hperm).trans List.perm_middle
        · exact hnone (by simp [frame_file_key, hreg]) (by simp [scan_entries, hskip, hreg])


theorem filterMap_frame_file_key_paths (regex : String → Option Nat) :
    ∀ directory : Directory,
      List.Sublist ((directory.filterMap (frame_file_key regex)).map Prod.snd)
        (directory.map (fun entry => entry.filename)) := by
  intro directory
  induction directory with
  | nil => simp
  | cons entry rest ih =>
      by_cases hreg : entry.is_regular_file = true
      · cases hr : regex entry.filename with
        | none =>
            have hk : frame_file_key regex entry = none := by simp [frame_file_key, hreg, hr]
            simp only [List.filterMap_cons, hk, List.map_cons]
            exact List.Sublist.cons _ ih
        | some i =>
            have hk : frame_file_key regex entry = some ((i : Int), entry.filename) := by
              simp [frame_file_key, hreg, hr]
            simp only [List.filterMap_cons, hk, List.map_cons]
            exact List.Sublist.cons₂ _ ih
      · have hk : frame_file_key regex entry = none := by simp [frame_file_key, hreg]
        simp only [List.filterMap_cons, hk, List.map_cons]
        exact List.Sublist.cons _ ih

theorem frame_file_key_eq_some (regex : String → Option Nat) (entry : DirectoryEntry)
    (x : Int × String) :
    frame_file_key regex entry = some x ↔
      entry.is_regular_file = true ∧
        ∃ i : Nat, regex entry.filename = some i ∧ x = ((i : Int), entry.filename) := by
  by_cases hreg : entry.is_regular_file = true
  · cases hr : regex entry.filename with
    | none => simp [frame_file_key, hreg, hr]
    | some i =>
        simp only [frame_file_key, hreg, hr, if_true, Option.map_some', Option.some.injEq,
          true_and]
        constructor
        · intro h; exact ⟨i, rfl, h.symm⟩
        · rintro ⟨j, hj, hx⟩; rw [hx, hj]
  · simp [frame_file_key, hreg]

/-- The map `ScanInputDirectory` builds is the listing of the frame files in increasing
index order, and the scan sees the end-of-stream marker exactly when the directory holds it,
when the directory has unique file names and the marker (if present) is not a frame file. -/
theorem scan_entries_eq_frames (regex : String → Option Nat) (eos : String)
    (directory : Directory) (frames : List (Nat × DirectoryEntry))
    (heos : ∀ entry ∈ directory, entry.filename = eos → frame_file_key regex entry = none)
    (hnames : (directory.map (fun entry => entry.filename)).Nodup)
    (hframes : ∀ (i : Nat) (entry : DirectoryEntry), (i, entry) ∈ frames ↔
      entry ∈ directory ∧ entry.is_regular_file = true ∧ regex entry.filename = some i)
    (horder : frames.Pairwise (fun a b => a.1 < b.1)) (flag : Bool) :
    (scan_entries regex eos directory flag []).2 =
        frames.map (fun frame => ((frame.1 : Int), frame.2.filename)) ∧
      (scan_entries regex eos directory flag []).1 =
        (flag || filesystem_exists directory eos) := by
  have hsorted : (frames.map (fun frame => ((frame.1 : Int), frame.2.filename))).Pairwise
      (fun a b => a.1 < b.1) := by
    rw [List.pairwise_map]
    exact horder.imp (fun h => Int.ofNat_lt.mpr h)
  have hfiles_nodup : (frames.map (fun frame => ((frame.1 : Int), frame.2.filename))).Nodup :=
    hsorted.imp (fun h e => absurd h (by rw [e]; exact lt_irrefl _))
  have hD_nodup : (directory.filterMap (frame_file_key regex)).Nodup :=
    List.Nodup.of_map Prod.snd ((filterMap_frame_file_key_paths regex directory).nodup hnames)
  have hmem : ∀ x : Int × String,
      x ∈ frames.map (fun frame => ((frame.1 : Int), frame.2.filename)) ↔
        x ∈ directory.filterMap (frame_file_key regex) := by
    intro x
    rw [List.mem_filterMap, List.mem_map]
    constructor
    · rintro ⟨⟨i, entry⟩, hf, hx⟩
      obtain ⟨hd, hreg, hr⟩ := (hframes i entry).mp hf
      exact ⟨entry, hd, (frame_file_key_eq_some regex entry x).mpr ⟨hreg, i, hr, hx.symm⟩⟩
    · rintro ⟨entry, hd, hk⟩
      obtain ⟨hreg, i, hr, hx⟩ := (frame_file_key_eq_some regex entry x).mp hk
      exact ⟨(i, entry), (hframes i entry).mpr ⟨hd, hreg, hr⟩, hx.symm⟩
  have hperm : List.Perm (frames.map (fun frame => ((frame.1 : Int), frame.2.filename)))
      (directory.filterMap (frame_file_key regex)) :=
    (List.perm_ext_iff_of_nodup hfiles_nodup hD_nodup).mpr hmem
  have hkeys : ((directory.filterMap (frame_file_key regex)).map Prod.fst ++
      ([] : List (Int × String)).map Prod.fst).Nodup := by
    simp only [List.map_nil, List.append_nil]
    refine (hperm.map Prod.fst).nodup_iff.mp ?_
    have : ((frames.map (fun frame => ((frame.1 : Int), frame.2.filename))).map
        Prod.fst).Pairwise (· < ·) := by
      rw [List.pairwise_map]; exact hsorted
    exact this.imp (fun h => ne_of_lt h)
  obtain ⟨h1, h2, h3⟩ := scan_entries_perm regex eos directory flag [] heos
    List.Pairwise.nil hkeys
  haveI : IsAntisymm (Int × String) (fun a b => a.1 < b.1) :=
    ⟨fun a b hab hba => absurd hab (not_lt.mpr (le_of_lt hba))⟩
  refine ⟨List.eq_of_perm_of_sorted ?_ h1 hsorted, ?_⟩
  swap
  · rw [h3]; rfl
  exact (h2.trans (by simp)).trans hperm.symm

theorem imread_of_mem :
    ∀ (directory : Directory) (entry : DirectoryEntry),
      (directory.map (fun entry => entry.filename)).Nodup → entry ∈ directory →
      imread directory entry.filename = entry.image := by
  intro directory
  induction directory with
  | nil => intro entry _ h; simp at h
  | cons first rest ih =>
      intro entry hnd hmem
      rcases List.mem_cons.mp hmem with e | hm
      · rw [e]; simp [imread]
      · have hne : first.filename ≠ entry.filename := by
          intro e
          have h1 := (List.nodup_cons.mp hnd).1
          have h2 : entry.filename ∈ rest.map (fun entry => entry.filename) :=
            List.mem_map_of_mem (fun entry => entry.filename) hm
          rw [← e] at h2
          exact h1 h2
        have := ih entry (List.nodup_cons.mp hnd).2 hm
        unfold imread at this ⊢
        simp only [List.find?_cons]
        have hb : (first.filename == entry.filename) = false := by simpa using hne
        rw [hb]
        exact this

theorem map_find_of_sorted :
    ∀ (m : List (Int × String)) (j : Nat) (kp : Int × String),
      m.Pairwise (fun a b => a.1 < b.1) → m[j]? = some kp → map_find kp.1 m = some j := by
  intro m
  induction m with
  | nil => intro j kp _ h; simp at h
  | cons a rest ih =>
      intro j kp hs hj
      obtain ⟨k, p⟩ := a
      cases j with
      | zero =>
          simp only [List.getElem?_cons_zero, Option.some.injEq] at hj
          rw [← hj]; simp [map_find]
      | succ j =>
          have hj2 : rest[j]? = some kp := by simpa using hj
          have hlt : k < kp.1 := (List.pairwise_cons.mp hs).1 kp (List.getElem?_mem hj2)
          have hne : ¬ k = kp.1 := ne_of_lt hlt
          simp [map_find, hne, ih j kp (List.pairwise_cons.mp hs).2 hj2]


/-! ## Pulling frames from a directory stream -/

theorem InputTransformer_apply_None (cv_transform : InputTransformMode → cv.Mat → cv.Mat)
    (frame : cv.Mat) : InputTransformer_apply InputTransformMode.None cv_transform frame = frame := by
  unfold InputTransformer_apply
  by_cases h : frame.empty = true <;> simp [h]

/-- The first pass of a fresh non-erasing source over a directory whose scan finds the marker
and at least two frame files: the first frame file is read. -/
theorem scan_pass_first (s : FileStreamVideoSource) (directory : Directory)
    (k0 k1 : Int) (p0 p1 : String) (more : List (Int × String))
    (herase : s.erase_read_files = false)
    (hfresh : s.current_frame_timestamp = kTimestampNotYetSet)
    (hscan : scan_entries s.frame_filename_regex s.end_of_stream_filename directory
      s.end_of_stream_encountered [] = (true, (k0, p0) :: (k1, p1) :: more)) :
    s.scan_pass directory = Except.ok
      ({ s with end_of_stream_encountered := true, current_frame_timestamp := k0 },
        directory, some (imread directory p0)) := by
  unfold FileStreamVideoSource.scan_pass FileStreamVideoSource.ScanInputDirectory
  simp [hscan, herase, hfresh]

/-- A later pass of a non-erasing source that has read the frame at position `j` of the
listing, when there is a frame at position `j + 1`: that frame is read. -/
theorem scan_pass_next (s : FileStreamVideoSource) (directory : Directory)
    (files : List (Int × String)) (j : Nat) (kj k : Int) (pj p : String)
    (herase : s.erase_read_files = false)
    (hsorted : files.Pairwise (fun a b => a.1 < b.1))
    (hj : files[j]? = some (kj, pj)) (hkj : 0 ≤ kj)
    (hcurrent : s.current_frame_timestamp = kj)
    (hscan : scan_entries s.frame_filename_regex s.end_of_stream_filename directory
      s.end_of_stream_encountered [] = (true, files))
    (hnext : files[j + 1]? = some (k, p)) :
    s.scan_pass directory = Except.ok
      ({ s with end_of_stream_encountered := true, current_frame_timestamp := k },
        directory, some (imread directory p)) := by
  have hfind := map_find_of_sorted files j (kj, pj) hsorted hj
  have hne : ¬ kj = kTimestampNotYetSet := by
    unfold kTimestampNotYetSet; omega
  have hnil : files ≠ [] := by
    intro e; rw [e] at hj; simp at hj
  unfold FileStreamVideoSource.scan_pass FileStreamVideoSource.ScanInputDirectory
  simp only [hscan, herase, hcurrent]
  simp [hne, hnil, hfind, hnext]

/-- A later pass of a non-erasing source that has read the last frame of the listing: the
marker having been seen, the pass returns the empty frame. -/
theorem scan_pass_end (s : FileStreamVideoSource) (directory : Directory)
    (files : List (Int × String)) (j : Nat) (kj : Int) (pj : String)
    (herase : s.erase_read_files = false)
    (hsorted : files.Pairwise (fun a b => a.1 < b.1))
    (hj : files[j]? = some (kj, pj)) (hkj : 0 ≤ kj)
    (hcurrent : s.current_frame_timestamp = kj)
    (hscan : scan_entries s.frame_filename_regex s.end_of_stream_filename directory
      s.end_of_stream_encountered [] = (true, files))
    (hnext : files[j + 1]? = none) :
    s.scan_pass directory = Except.ok
      ({ s with end_of_stream_encountered := true, current_frame_timestamp := int64_max },
        directory, some cv.Mat.mk0) := by
  have hfind := map_find_of_sorted files j (kj, pj) hsorted hj
  have hne : ¬ kj = kTimestampNotYetSet := by
    unfold kTimestampNotYetSet; omega
  have hnil : files ≠ [] := by
    intro e; rw [e] at hj; simp at hj
  unfold FileStreamVideoSource.scan_pass FileStreamVideoSource.ScanInputDirectory
  simp only [hscan, herase, hcurrent]
  simp [hne, hnil, hfind, hnext]


theorem operator_shr_of_scan_pass (rescans : Nat)
    (cv_transform : InputTransformMode → cv.Mat → cv.Mat)
    (s s1 : FileStreamVideoSource) (directory directory1 : Directory) (frame : cv.Mat)
    (hloop : s.loop = false) (hmode : s1.input_transformer_mode = InputTransformMode.None)
    (hpass : s.scan_pass directory = Except.ok (s1, directory1, some frame)) :
    FileStreamVideoSource.operator_shr (rescans + 1) cv_transform s directory =
      Except.ok (s1, directory1, frame) := by
  simp [FileStreamVideoSource.operator_shr, FileStreamVideoSource.ProducePreTransformFrame,
    FileStreamVideoSource.rescan_loop, hloop, hpass, hmode, InputTransformer_apply_None]

theorem pull_frames_from (regex : String → Option Nat) (eos : String) (directory : Directory)
    (files : List (Int × String)) (rescans : Nat)
    (cv_transform : InputTransformMode → cv.Mat → cv.Mat)
    (hsorted : files.Pairwise (fun a b => a.1 < b.1))
    (hkeys : ∀ x ∈ files, 0 ≤ x.1)
    (hscan : ∀ flag, scan_entries regex eos directory flag [] = (true, files)) :
    ∀ (remaining j : Nat) (s : FileStreamVideoSource) (kj : Int) (pj : String),
      s.loop = false → s.erase_read_files = false →
      s.input_transformer_mode = InputTransformMode.None →
      s.frame_filename_regex = regex → s.end_of_stream_filename = eos →
      files[j]? = some (kj, pj) → s.current_frame_timestamp = kj →
      j + 1 + remaining = files.length →
      FileStreamVideoSource.pull_frames (rescans + 1) cv_transform (remaining + 1) s directory =
        Except.ok (((files.drop (j + 1)).map (fun kp => imread directory kp.2)) ++
          [cv.Mat.mk0]) := by
  intro remaining
  induction remaining with
  | zero =>
      intro j s kj pj hloop herase hmode hregex heosn hj hcur hlen
      have hnone : files[j + 1]? = none := List.getElem?_eq_none (by omega)
      have hpass := scan_pass_end s directory files j kj pj herase hsorted hj
        (hkeys _ (List.getElem?_mem hj)) hcur (by rw [hregex, heosn]; exact hscan _) hnone
      have hdrop : files.drop (j + 1) = [] := List.drop_eq_nil_of_le (by omega)
      have hpull := operator_shr_of_scan_pass rescans cv_transform s
        { s with end_of_stream_encountered := true, current_frame_timestamp := int64_max }
        directory directory _ hloop hmode hpass
      simp [FileStreamVideoSource.pull_frames, hpull, hdrop]
  | succ remaining ih =>
      intro j s kj pj hloop herase hmode hregex heosn hj hcur hlen
      have hlt : j + 1 < files.length := by omega
      obtain ⟨kp, hnext⟩ : ∃ kp, files[j + 1]? = some kp :=
        ⟨files[j + 1], List.getElem?_eq_getElem hlt⟩
      obtain ⟨k, p⟩ := kp
      have hpass := scan_pass_next s directory files j kj k pj p herase hsorted hj
        (hkeys _ (List.getElem?_mem hj)) hcur (by rw [hregex, heosn]; exact hscan _) hnext
      have hrec := ih (j + 1)
        { s with end_of_stream_encountered := true, current_frame_timestamp := k } k p
        hloop herase hmode hregex heosn hnext rfl (by omega)
      have hdrop : files.drop (j + 1) = (k, p) :: files.drop (j + 1 + 1) := by
        rw [List.drop_eq_getElem_cons hlt]
        have : files[j + 1] = (k, p) := by
          have := List.getElem?_eq_getElem hlt
          rw [hnext] at this
          exact (Option.some.inj this).symm
        rw [this]
      have hpull := operator_shr_of_scan_pass rescans cv_transform s
        { s with end_of_stream_encountered := true, current_frame_timestamp := k }
        directory directory _ hloop hmode hpass
      rw [FileStreamVideoSource.pull_frames, hpull]
      simp only []
      rw [hrec, hdrop]
      simp

/-- C5: a directory with unique file names holds the end-of-stream marker (not named like a
frame) and `n >= 2` frame files, listed by `frames` in increasing frame-index order, each
index an `int64_t` value (at most `int64_max`).  A fresh
non-loop source with `erase_read_files = false` and no input transform, allowed at least one
scan per pull, returns on `n + 1` successive pulls the images of the `n` frame files in that
order, each the image of its file, followed by the empty frame. -/
theorem directory_stream_replay (source : FileStreamVideoSource) (directory : Directory)
    (frames : List (Nat × DirectoryEntry)) (rescans : Nat)
    (cv_transform : InputTransformMode → cv.Mat → cv.Mat)
    (hloop : source.loop = false) (herase : source.erase_read_files = false)
    (hmode : source.input_transformer_mode = InputTransformMode.None)
    (hfresh : source.current_frame_timestamp = kTimestampNotYetSet)
    (hnames : (directory.map (fun entry => entry.filename)).Nodup)
    (hmarker : filesystem_exists directory source.end_of_stream_filename = true)
    (hmarker_name : source.frame_filename_regex source.end_of_stream_filename = none)
    (hframes : ∀ (i : Nat) (entry : DirectoryEntry), (i, entry) ∈ frames ↔
      entry ∈ directory ∧ entry.is_regular_file = true ∧
        source.frame_filename_regex entry.filename = some i)
    (hrange : ∀ frame ∈ frames, (frame.1 : Int) ≤ int64_max)
    (horder : frames.Pairwise (fun a b => a.1 < b.1))
    (hn : 2 ≤ frames.length) (hrescans : 1 ≤ rescans) :
    FileStreamVideoSource.pull_frames rescans cv_transform (frames.length + 1) source directory
      = Except.ok (frames.map (fun frame => frame.2.image) ++ [cv.Mat.mk0]) := by
  have hscan : ∀ flag, scan_entries source.frame_filename_regex source.end_of_stream_filename
      directory flag [] =
        (true, frames.map (fun frame => ((frame.1 : Int), frame.2.filename))) := by
    intro flag
    obtain ⟨h2, h1⟩ := scan_entries_eq_frames source.frame_filename_regex
      source.end_of_stream_filename directory frames
      (fun entry _ hname => by simp [frame_file_key, hname, hmarker_name])
      hnames hframes horder flag
    rw [hmarker, Bool.or_true] at h1
    exact Prod.ext h1 h2
  have hsorted : (frames.map (fun frame => ((frame.1 : Int), frame.2.filename))).Pairwise
      (fun a b => a.1 < b.1) := by
    rw [List.pairwise_map]
    exact horder.imp (fun h => Int.ofNat_lt.mpr h)
  have hkeys : ∀ x ∈ frames.map (fun frame => ((frame.1 : Int), frame.2.filename)),
      0 ≤ x.1 := by
    intro x hx
    obtain ⟨f, _, hf⟩ := List.mem_map.mp hx
    rw [← hf]; exact Int.ofNat_nonneg _
  have himages : ∀ l : List (Nat × DirectoryEntry), (∀ f ∈ l, f ∈ frames) →
      (l.map (fun frame => ((frame.1 : Int), frame.2.filename))).map
          (fun kp => imread directory kp.2) = l.map (fun frame => frame.2.image) := by
    intro l hl
    rw [List.map_map]
    refine List.map_congr_left (fun f hf => ?_)
    obtain ⟨i, entry⟩ := f
    exact imread_of_mem directory entry hnames ((hframes i entry).mp (hl _ hf)).1
  obtain ⟨r, hr⟩ : ∃ r, rescans = r + 1 := ⟨rescans - 1, by omega⟩
  obtain ⟨f0, f1, more, hfr⟩ : ∃ f0 f1 more, frames = f0 :: f1 :: more := by
    match frames, hn with
    | f0 :: f1 :: more, _ => exact ⟨f0, f1, more, rfl⟩
  have hfirst := scan_pass_first source directory (f0.1 : Int) (f1.1 : Int) f0.2.filename
    f1.2.filename (more.map (fun frame => ((frame.1 : Int), frame.2.filename))) herase hfresh
    (by rw [hscan, hfr]; rfl)
  have hrest := pull_frames_from source.frame_filename_regex source.end_of_stream_filename
    directory _ r cv_transform hsorted hkeys hscan (more.length + 1) 0
    { source with end_of_stream_encountered := true, current_frame_timestamp := (f0.1 : Int) }
    (f0.1 : Int) f0.2.filename hloop herase hmode rfl rfl (by rw [hfr]; rfl) rfl
    (by simp [hfr]; omega)
  have hlen : frames.length + 1 = (more.length + 1 + 1) + 1 := by rw [hfr]; simp
  have hpull := operator_shr_of_scan_pass r cv_transform source
    { source with end_of_stream_encountered := true, current_frame_timestamp := (f0.1 : Int) }
    directory directory _ hloop hmode hfirst
  rw [hlen, hr, FileStreamVideoSource.pull_frames, hpull]
  simp only []
  rw [hrest]
  have h0 : imread directory f0.2.filename = f0.2.image := by
    have := himages [f0] (by intro f hf; rw [hfr]; simp at hf; simp [hf])
    simpa using this
  have hd : (frames.map (fun frame => ((frame.1 : Int), frame.2.filename))).drop (0 + 1) =
      (f1 :: more).map (fun frame => ((frame.1 : Int), frame.2.filename)) := by
    rw [hfr]; rfl
  rw [hd, himages (f1 :: more) (by intro f hf; rw [hfr]; exact List.mem_cons_of_mem _ hf), h0,
    hfr]
  rfl


theorem sample_frames_listing (directory : Directory)
    (hsub : ∀ entry ∈ sample_loop_directory, entry ∈ directory)
    (hdir : ∀ entry ∈ directory,
      entry ∈ sample_loop_directory ∨ entry = ⟨"end_of_stream", true, cv.Mat.mk0⟩)
    (i : Nat) (entry : DirectoryEntry) :
    (i, entry) ∈ sample_frames ↔
      entry ∈ directory ∧ entry.is_regular_file = true ∧
        sample_frame_filename_regex entry.filename = some i := by
  constructor
  · intro h
    simp only [sample_frames, List.mem_cons, Prod.mk.injEq, List.mem_singleton,
      List.not_mem_nil, or_false] at h
    rcases h with ⟨rfl, rfl⟩ | ⟨rfl, rfl⟩ | ⟨rfl, rfl⟩ | ⟨rfl, rfl⟩ | ⟨rfl, rfl⟩ <;>
      exact ⟨hsub _ (by decide), by decide, by decide⟩
  · rintro ⟨hd, _, hr⟩
    have hd2 := hdir entry hd
    simp only [sample_loop_directory, List.mem_cons, List.mem_singleton, List.not_mem_nil,
      or_false] at hd2
    rcases hd2 with (rfl | rfl | rfl | rfl | rfl) | rfl <;>
      simp [sample_frame_filename_regex] at hr <;> subst hr <;> decide

theorem directory_stream_replay_witness :
    FileStreamVideoSource.pull_frames 1 (fun _ frame => frame) (5 + 1)
        (FileStreamVideoSource.Initialize (fun _ => Except.ok sample_frame_filename_regex)
          absl.OkStatus sample_settings sample_directory).1 sample_directory
      = Except.ok ([sample_image 10, sample_image 11, sample_image 12, sample_image 13,
          sample_image 14] ++ [cv.Mat.mk0]) :=
  directory_stream_replay
    (FileStreamVideoSource.Initialize (fun _ => Except.ok sample_frame_filename_regex)
      absl.OkStatus sample_settings sample_directory).1
    sample_directory sample_frames 1 (fun _ frame => frame)
    (by decide) (by decide) (by decide) (by decide) (by decide) (by decide) (by decide)
    (sample_frames_listing sample_directory
      (fun entry h => List.mem_cons_of_mem _ h)
      (fun entry h => by
        rcases List.mem_cons.mp h with e | hm
        · exact Or.inr e
        · exact Or.inl hm))
    (by decide) (by decide) (by decide) (by decide)


/-! ## Loop mode -/

/-- In loop mode with an empty `end_of_stream_filename`, `end_of_stream_path` is the stream
directory itself: every pull returns the empty frame, whatever the directory holds. -/
theorem ProducePreTransformFrame_loop_empty_marker_name (rescans : Nat)
    (s : FileStreamVideoSource) (directory : Directory) (hloop : s.loop = true)
    (hname : s.end_of_stream_filename = "") :
    FileStreamVideoSource.ProducePreTransformFrame rescans s directory =
      Except.ok (s, directory, cv.Mat.mk0) := by
  have hpath : s.end_of_stream_path_exists directory = true := by
    unfold FileStreamVideoSource.end_of_stream_path_exists
    rw [hname]
    rfl
  unfold FileStreamVideoSource.ProducePreTransformFrame
  simp [hloop, hpath]

end presage.smartspectra.video_source.file_stream

namespace presage.smartspectra.container

open absl

/-! ## The telemetry callback's timestamp argument -/

/-- C16, refuted as stated: frames 0 and 33333 are recorded and a batch naming 33333 arrives,
then frame 66666 is recorded and a batch naming it arrives.  Two records are retained, the
oldest with `first_timestamp = 0`; the callback's third argument is 33333. -/
theorem telemetry_timestamp_is_not_window_start :
    ((((Container.benchmarked 0 (fun _ _ _ => OkStatus)).AddFrameTimestamps (fun _ => 0)
        [0, 33333]).ComputeCorePerformanceTelemetry ⟨⟨33333, 2⟩⟩ 1).bind
      (fun out => (out.container.AddFrameTimestampToBenchmarkingInfo
        66666 1).ComputeCorePerformanceTelemetry ⟨⟨66666, 1⟩⟩ 2)).map
      (fun out =>
        (out.call.map (fun call => call.first_buffer_input_timestamp),
          out.container.metrics_buffer_benchmarking_info_buffer.map
            (fun info => info.first_timestamp)))
      = some (some 33333, [0, 33333]) := by
  decide

/-- C16, amended: whenever `ComputeCorePerformanceTelemetry` invokes the callback, the third
argument is the first in-flight timestamp at the time the batch arrived, which is the
`first_timestamp` of the newest record (the one pushed for this batch); it is the
`first_timestamp` of the oldest retained record when exactly one record is retained. -/
theorem telemetry_timestamp_is_first_in_flight (c : Container)
    (mb : physiology.MetricsBuffer) (now : ℚ) (on_telemetry : ℚ → ℚ → Int → Status)
    (first : Int) (rest : List Int) (offset : ℚ)
    (hcb : c.OnCorePerformanceTelemetry = some (some on_telemetry))
    (hframes : c.frames_in_graph_timestamps = first :: rest)
    (hoff : c.offset_from_system_time = some offset) :
    ∃ (out : TelemetryOutcome) (call : TelemetryCall) (newest : MetricsBufferBenchmarkingInfo),
      c.ComputeCorePerformanceTelemetry mb now = some out ∧
      out.call = some call ∧
      call.first_buffer_input_timestamp = first ∧
      out.container.metrics_buffer_benchmarking_info_buffer.getLast? = some newest ∧
      newest.first_timestamp = call.first_buffer_input_timestamp ∧
      (∀ only : MetricsBufferBenchmarkingInfo,
        out.container.metrics_buffer_benchmarking_info_buffer = [only] →
        call.first_buffer_input_timestamp = only.first_timestamp) := by
  obtain ⟨out, oldest, later, hrun, hbuf, hB, _, hcall⟩ :=
    ComputeCorePerformanceTelemetry_eq c mb now on_telemetry first rest offset hcb hframes hoff
  have hlast : (oldest :: later).getLast? =
      some ⟨first, mb.metadata.frame_timestamp, mb.metadata.frame_count,
        now - (timestamp_seconds mb.metadata.frame_timestamp + offset)⟩ := by
    rw [hB]; simp
  refine ⟨out, _, _, hrun, hcall, rfl, by rw [hbuf]; exact hlast, rfl, ?_⟩
  intro only honly
  rw [hbuf] at honly
  rw [honly] at hlast
  have : only = ⟨first, mb.metadata.frame_timestamp, mb.metadata.frame_count,
        now - (timestamp_seconds mb.metadata.frame_timestamp + offset)⟩ := by
    simpa using hlast
  rw [this]

theorem telemetry_timestamp_is_first_in_flight_witness :
    ∃ (out : TelemetryOutcome) (call : TelemetryCall) (newest : MetricsBufferBenchmarkingInfo),
      ((Container.benchmarked 0 (fun _ _ _ => OkStatus)).AddFrameTimestamps (fun _ => 0)
        [0, 33333]).ComputeCorePerformanceTelemetry ⟨⟨33333, 2⟩⟩ 1 = some out ∧
      out.call = some call ∧
      call.first_buffer_input_timestamp = 0 ∧
      out.container.metrics_buffer_benchmarking_info_buffer.getLast? = some newest ∧
      newest.first_timestamp = call.first_buffer_input_timestamp :=
  let ⟨out, call, newest, hrun, hcall, hfirst, hlast, hnew, _⟩ :=
    telemetry_timestamp_is_first_in_flight
      ((Container.benchmarked 0 (fun _ _ _ => OkStatus)).AddFrameTimestamps (fun _ => 0)
        [0, 33333])
      ⟨⟨33333, 2⟩⟩ 1 (fun _ _ _ => OkStatus) 0 [33333] (0 - timestamp_seconds 0) rfl rfl rfl
  ⟨out, call, newest, hrun, hcall, hfirst, hlast, hnew⟩

/-! ## The spot-mode state-change flag -/

/-- C17, refuted as stated: with an empty queue and `verbose = true` the flag is `false`; with
a packet carrying the value already held (30, the full duration) and `verbose = false` the
flag is `true`. -/
theorem operation_state_changed_ignores_value_and_verbose :
    ((SpotOperationContext.new ⟨30⟩).QueryPollers PollerQuery.queue_empty
        true).operation_state_changed = false ∧
    ((SpotOperationContext.new ⟨30⟩).QueryPollers (PollerQuery.next ⟨some 30, 0⟩)
        false).operation_state_changed = true := by
  decide

/-- C17, amended: `QueryPollers` sets `operation_state_changed` to `true` exactly when the
poll delivers a non-empty packet, whatever its value and whatever `verbose` is; the value test
(below `spot_duration_s` and different from the value held before) or `verbose` decides only
whether the packet is logged, and the delivered value becomes `time_left_s`. -/
theorem operation_state_changed_iff_packet_received (ctx : SpotOperationContext)
    (time_left_poller : PollerQuery ℚ) (verbose : Bool) :
    ((ctx.QueryPollers time_left_poller verbose).operation_state_changed = true ↔
      ∃ (timestamp : Int) (time_left : ℚ),
        time_left_poller = PollerQuery.next ⟨some time_left, timestamp⟩) ∧
    (∀ (timestamp : Int) (time_left : ℚ),
      time_left_poller = PollerQuery.next ⟨some time_left, timestamp⟩ →
      (ctx.QueryPollers time_left_poller verbose).context.time_left_s = time_left ∧
      ((ctx.QueryPollers time_left_poller verbose).logged = true ↔
        (time_left < ctx.spot_duration_s ∧ time_left ≠ ctx.time_left_s) ∨ verbose = true)) := by
  constructor
  · cases time_left_poller with
    | queue_empty => simp [SpotOperationContext.QueryPollers, GetPacketContentsIfAny]
    | next_failed => simp [SpotOperationContext.QueryPollers, GetPacketContentsIfAny]
    | next packet =>
        obtain ⟨contents, timestamp⟩ := packet
        cases contents with
        | none => simp [SpotOperationContext.QueryPollers, GetPacketContentsIfAny]
        | some value => simp [SpotOperationContext.QueryPollers, GetPacketContentsIfAny]
  · intro timestamp time_left h
    subst h
    simp [SpotOperationContext.QueryPollers, GetPacketContentsIfAny]

end presage.smartspectra.container

namespace presage.smartspectra.video_source.file_stream

/-! ## Loop and erasure are mutually exclusive -/

/-- C19: when the mask is valid and both `erase_read_files` and `loop` are set, `Initialize`
returns the invalid-argument error, and it does so without creating or scanning the stream
directory: the outcome is the same whatever the directory holds and whatever the creation
would have returned, and the source has scanned nothing. -/
theorem Initialize_rejects_erase_with_loop
    (BuildFrameFileNameRegex : String → Except absl.Status (String → Option Nat))
    (regex : String → Option Nat) (settings : VideoSourceSettings)
    (create_directory : absl.Status) (directory : Directory)
    (hbuild : BuildFrameFileNameRegex (path_filename settings.file_stream_path) =
      Except.ok regex)
    (herase : settings.erase_read_files = true) (hloop : settings.loop = true) :
    (FileStreamVideoSource.Initialize BuildFrameFileNameRegex create_directory settings
        directory).2 = absl.InvalidArgumentError "Cannot erase read files when looping." ∧
    (absl.InvalidArgumentError "Cannot erase read files when looping.").code =
      absl.StatusCode.kInvalidArgument ∧
    (∀ (other_creation : absl.Status) (other_directory : Directory),
      FileStreamVideoSource.Initialize BuildFrameFileNameRegex other_creation settings
          other_directory =
        FileStreamVideoSource.Initialize BuildFrameFileNameRegex create_directory settings
          directory) ∧
    (FileStreamVideoSource.Initialize BuildFrameFileNameRegex create_directory settings
        directory).1.end_of_stream_encountered = false ∧
    (FileStreamVideoSource.Initialize BuildFrameFileNameRegex create_directory settings
        directory).1.loop_frame_filenames = [] ∧
    (FileStreamVideoSource.Initialize BuildFrameFileNameRegex create_directory settings
        directory).1.first_frame_width = -1 := by
  unfold FileStreamVideoSource.Initialize
  simp only [hbuild, herase, hloop, Bool.and_self, if_true]
  refine ⟨?_, ?_, ?_, ?_, ?_, ?_⟩ <;> first | trivial | rfl | (intro _ _; trivial)

theorem Initialize_rejects_erase_with_loop_witness :
    (FileStreamVideoSource.Initialize (fun _ => Except.ok sample_frame_filename_regex)
        absl.OkStatus { sample_settings with erase_read_files := true, loop := true }
        sample_directory).2 =
      absl.InvalidArgumentError "Cannot erase read files when looping." ∧
    (FileStreamVideoSource.Initialize (fun _ => Except.ok sample_frame_filename_regex)
        absl.OkStatus { sample_settings with erase_read_files := true, loop := true }
        sample_directory).1.end_of_stream_encountered = false :=
  have h := Initialize_rejects_erase_with_loop
    (fun _ => Except.ok sample_frame_filename_regex) sample_frame_filename_regex
    { sample_settings with erase_read_files := true, loop := true } absl.OkStatus
    sample_directory rfl rfl rfl
  ⟨h.1, h.2.2.2.1⟩

end presage.smartspectra.video_source.file_stream

namespace presage.smartspectra.video_source.file_stream

/-! ## Erasing read files -/

theorem filesystem_exists_remove_self (directory : Directory) (path : String) :
    filesystem_exists (filesystem_remove directory path) path = false := by
  unfold filesystem_exists filesystem_remove
  rw [Bool.eq_false_iff]
  intro h
  obtain ⟨entry, hmem, hname⟩ := List.any_eq_true.mp h
  have hfilter := (List.mem_filter.mp hmem).2
  simp at hfilter hname
  exact hfilter hname

theorem filesystem_exists_remove_other (directory : Directory) (removed path : String)
    (hne : removed ≠ path) :
    filesystem_exists (filesystem_remove directory removed) path =
      filesystem_exists directory path := by
  unfold filesystem_exists filesystem_remove
  induction directory with
  | nil => rfl
  | cons entry rest ih =>
      by_cases h : entry.filename = removed
      · have hp : ¬ entry.filename = path := fun e => hne (h ▸ e)
        simp [List.filter_cons, h, ih, hne]
      · simp [List.filter_cons, h, ih]

theorem filesystem_exists_remove_false (directory : Directory) (removed path : String)
    (h : filesystem_exists directory path = false) :
    filesystem_exists (filesystem_remove directory removed) path = false := by
  by_cases hne : removed = path
  · rw [hne]; exact filesystem_exists_remove_self directory path
  · rw [filesystem_exists_remove_other directory removed path hne]; exact h

theorem erase_up_to_current_keeps_absent (current : Int) (path : String) :
    ∀ (file_paths : List (Int × String)) (directory : Directory),
      filesystem_exists directory path = false →
      filesystem_exists (erase_up_to_current current file_paths directory) path = false := by
  intro file_paths
  induction file_paths with
  | nil => intro directory h; exact h
  | cons kp rest ih =>
      obtain ⟨k, q⟩ := kp
      intro directory h
      by_cases hk : k < current
      · simp only [erase_up_to_current, hk, if_true]
        exact ih _ (filesystem_exists_remove_false directory q path h)
      · simp only [erase_up_to_current, hk, if_false]
        exact h

/-- The erase loop removes every scanned file whose index lies in front of the current one. -/
theorem erase_up_to_current_removes (current : Int) :
    ∀ (file_paths : List (Int × String)) (directory : Directory),
      file_paths.Pairwise (fun a b => a.1 < b.1) →
      ∀ kq ∈ file_paths, kq.1 < current →
        filesystem_exists (erase_up_to_current current file_paths directory) kq.2 = false := by
  intro file_paths
  induction file_paths with
  | nil => intro _ _ kq h; simp at h
  | cons kp rest ih =>
      obtain ⟨k, q⟩ := kp
      intro directory hs kq hmem hlt
      have hhead := (List.pairwise_cons.mp hs).1
      by_cases hk : k < current
      · simp only [erase_up_to_current, hk, if_true]
        rcases List.mem_cons.mp hmem with e | hr
        · rw [e]
          exact erase_up_to_current_keeps_absent current q rest _
            (filesystem_exists_remove_self directory q)
        · exact ih _ (List.pairwise_cons.mp hs).2 kq hr hlt
      · exfalso
        rcases List.mem_cons.mp hmem with e | hr
        · rw [e] at hlt; exact hk hlt
        · have := hhead kq hr
          have h2 : k < kq.1 := this
          omega

/-- The erase loop leaves a file in place unless it is a scanned file in front of the current
index. -/
theorem erase_up_to_current_keeps (current : Int) (path : String) :
    ∀ (file_paths : List (Int × String)) (directory : Directory),
      filesystem_exists directory path = true →
      (∀ kq ∈ file_paths, kq.1 < current → kq.2 ≠ path) →
      filesystem_exists (erase_up_to_current current file_paths directory) path = true := by
  intro file_paths
  induction file_paths with
  | nil => intro directory h _; exact h
  | cons kp rest ih =>
      obtain ⟨k, q⟩ := kp
      intro directory h hne
      by_cases hk : k < current
      · simp only [erase_up_to_current, hk, if_true]
        have hq : q ≠ path := hne (k, q) (List.mem_cons_self _ _) hk
        refine ih _ ?_ (fun kq hm => hne kq (List.mem_cons_of_mem _ hm))
        rw [filesystem_exists_remove_other directory q path hq]
        exact h
      · simp only [erase_up_to_current, hk, if_false]
        exact h

/-- Every entry of the map built by a scan is either an entry of the map the scan started
from or the index and name of a regular file of the directory whose name matches the
frame-name expression; the map stays in ascending key order. -/
theorem scan_entries_sorted_mem (regex : String → Option Nat) (eos : String) :
    ∀ (directory : Directory) (flag : Bool) (m : List (Int × String)),
      m.Pairwise (fun a b => a.1 < b.1) →
      ((scan_entries regex eos directory flag m).2).Pairwise (fun a b => a.1 < b.1) ∧
      ∀ x ∈ (scan_entries regex eos directory flag m).2,
        x ∈ m ∨ ∃ entry ∈ directory, entry.is_regular_file = true ∧ entry.filename = x.2 ∧
          ∃ i : Nat, regex x.2 = some i ∧ (i : Int) = x.1 := by
  intro directory
  induction directory with
  | nil => intro flag m hs; exact ⟨by simpa [scan_entries] using hs, fun x hx => Or.inl hx⟩
  | cons entry rest ih =>
      intro flag m hs
      have lift : ∀ (flag1 : Bool) (m1 : List (Int × String)),
          scan_entries regex eos (entry :: rest) flag m = scan_entries regex eos rest flag1 m1 →
          m1.Pairwise (fun a b => a.1 < b.1) →
          (∀ x ∈ m1, x ∈ m ∨ (entry.is_regular_file = true ∧ entry.filename = x.2 ∧
            ∃ i : Nat, regex x.2 = some i ∧ (i : Int) = x.1)) →
          ((scan_entries regex eos (entry :: rest) flag m).2).Pairwise
              (fun a b => a.1 < b.1) ∧
            ∀ x ∈ (scan_entries regex eos (entry :: rest) flag m).2,
              x ∈ m ∨ ∃ e ∈ entry :: rest, e.is_regular_file = true ∧ e.filename = x.2 ∧
                ∃ i : Nat, regex x.2 = some i ∧ (i : Int) = x.1 := by
        intro flag1 m1 hstep hs1 hm1
        obtain ⟨h1, h2⟩ := ih flag1 m1 hs1
        rw [hstep]
        refine ⟨h1, fun x hx => ?_⟩
        rcases h2 x hx with hin | ⟨e, he, hprops⟩
        · rcases hm1 x hin with hm | hprops
          · exact Or.inl hm
          · exact Or.inr ⟨entry, List.mem_cons_self _ _, hprops⟩
        · exact Or.inr ⟨e, List.mem_cons_of_mem _ he, hprops⟩
      by_cases hskip : (!flag && entry.filename == eos) = true
      · exact lift true m (by simp only [scan_entries, hskip, if_true]) hs
          (fun x hx => Or.inl hx)
      · by_cases hreg : entry.is_regular_file = true
        · cases hr : regex entry.filename with
          | none =>
              exact lift flag m (by simp [scan_entries, hskip, hreg, hr]) hs
                (fun x hx => Or.inl hx)
          | some i =>
              obtain ⟨hs1, hm1⟩ := map_assign_sorted (i : Int) entry.filename m hs
              refine lift flag (map_assign (i : Int) entry.filename m)
                (by simp [scan_entries, hskip, hreg, hr]) hs1 (fun x hx => ?_)
              rcases hm1 x hx with e | hm
              · rw [e]; exact Or.inr ⟨hreg, rfl, i, hr, rfl⟩
              · exact Or.inl hm
        · exact lift flag m (by simp [scan_entries, hskip, hreg]) hs
            (fun x hx => Or.inl hx)

end presage.smartspectra.video_source.file_stream

namespace presage.smartspectra.video_source.file_stream

theorem scan_pass_erases (s s' : FileStreamVideoSource) (directory directory' : Directory)
    (frame : cv.Mat) (herase : s.erase_read_files = true)
    (hpass : s.scan_pass directory = Except.ok (s', directory', some frame)) :
    s'.erase_read_files = true ∧
    ((∃ path, (s'.current_frame_timestamp, path) ∈ (s.ScanInputDirectory directory).2 ∧
        frame = imread directory path ∧ filesystem_exists directory' path = true) ∨
      (frame = cv.Mat.mk0 ∧ s'.current_frame_timestamp = int64_max ∧
        filesystem_exists directory' s.end_of_stream_filename = false)) ∧
    ∀ kq ∈ (s.ScanInputDirectory directory).2, kq.1 < s'.current_frame_timestamp →
      filesystem_exists directory' kq.2 = false := by
  obtain ⟨hsorted, hmem⟩ := scan_entries_sorted_mem s.frame_filename_regex
    s.end_of_stream_filename directory s.end_of_stream_encountered [] List.Pairwise.nil
  have hfp : (s.ScanInputDirectory directory).2 =
      (scan_entries s.frame_filename_regex s.end_of_stream_filename directory
        s.end_of_stream_encountered []).2 := rfl
  have he1 : (s.ScanInputDirectory directory).1.erase_read_files = true := herase
  have hn1 : (s.ScanInputDirectory directory).1.end_of_stream_filename
      = s.end_of_stream_filename := rfl
  rw [← hfp] at hsorted hmem
  unfold FileStreamVideoSource.scan_pass at hpass
  simp only [he1, if_true] at hpass
  generalize (s.ScanInputDirectory directory).2 = file_paths at hpass hsorted hmem ⊢
  generalize (s.ScanInputDirectory directory).1 = src at hpass he1 hn1
  split at hpass
  · simp at hpass
  · split at hpass
    · simp at hpass
    · rename_i position hposition
      split at hpass
      · rename_i timestamp path hget
        split at hpass
        · simp only [Except.ok.injEq, Prod.mk.injEq, Option.some.injEq] at hpass
          obtain ⟨hs, hd, hf⟩ := hpass
          have hin : (timestamp, path) ∈ file_paths := List.getElem?_mem hget
          have hcur : s'.current_frame_timestamp = timestamp := by rw [← hs]
          refine ⟨by rw [← hs], Or.inl ⟨path, by rw [hcur]; exact hin, hf.symm, ?_⟩,
            ?_⟩
          · rw [← hd]
            apply erase_up_to_current_keeps
            · rcases hmem _ hin with h | ⟨entry, hentry, _, hname, _⟩
              · simp at h
              · unfold filesystem_exists
                exact List.any_eq_true.mpr ⟨entry, hentry, by simpa using hname⟩
            · intro kq hkq hlt heq
              rcases hmem _ hin with h | ⟨_, _, _, _, i, hi, hik⟩
              · simp at h
              · rcases hmem _ hkq with h | ⟨_, _, _, _, j, hj, hjk⟩
                · simp at h
                · rw [heq] at hj
                  simp only at hi hik
                  rw [hi] at hj
                  have : i = j := Option.some.inj hj
                  simp only at hlt
                  omega
          · intro kq hkq hlt
            rw [← hd]
            rw [hcur] at hlt
            exact erase_up_to_current_removes _ file_paths directory hsorted kq hkq hlt
        · simp at hpass
      · split at hpass
        · simp only [Except.ok.injEq, Prod.mk.injEq, Option.some.injEq] at hpass
          obtain ⟨hs, hd, hf⟩ := hpass
          have hcur : s'.current_frame_timestamp = int64_max := by rw [← hs]
          refine ⟨by rw [← hs], Or.inr ⟨hf.symm, hcur, ?_⟩, ?_⟩
          · rw [← hd, ← hn1]
            apply erase_up_to_current_keeps_absent
            exact filesystem_exists_remove_self directory _
          · intro kq hkq hlt
            rw [← hd]
            rw [hcur] at hlt
            exact erase_up_to_current_removes _ file_paths _ hsorted kq hkq hlt
        · simp at hpass

theorem scan_pass_keeps_erase_read_files (s s' : FileStreamVideoSource)
    (directory directory' : Directory) (frame : Option cv.Mat)
    (hpass : s.scan_pass directory = Except.ok (s', directory', frame)) :
    s'.erase_read_files = s.erase_read_files ∧
      s'.end_of_stream_filename = s.end_of_stream_filename := by
  have he1 : (s.ScanInputDirectory directory).1.erase_read_files = s.erase_read_files := rfl
  have hn1 : (s.ScanInputDirectory directory).1.end_of_stream_filename =
      s.end_of_stream_filename := rfl
  unfold FileStreamVideoSource.scan_pass at hpass
  simp only at hpass
  generalize (s.ScanInputDirectory directory).2 = file_paths at hpass
  generalize (s.ScanInputDirectory directory).1 = src at hpass he1 hn1
  rw [← he1, ← hn1]
  split at hpass
  · simp only [Except.ok.injEq, Prod.mk.injEq] at hpass
    rw [← hpass.1]; exact ⟨rfl, rfl⟩
  · split at hpass
    · simp at hpass
    · split at hpass <;> split at hpass <;> split at hpass <;>
        simp only [Except.ok.injEq, Prod.mk.injEq] at hpass <;> rw [← hpass.1] <;>
        exact ⟨rfl, rfl⟩

/-- A non-loop pull with `erase_read_files` ends in a pass of the scan loop that returns the
frame; after it the scanned files in front of the current index are gone, the file of a
returned frame is still there, and at the end of the stream the marker is gone. -/
theorem rescan_loop_erases : ∀ (rescans : Nat) (s s' : FileStreamVideoSource)
    (directory directory' : Directory) (frame : cv.Mat), s.erase_read_files = true →
    FileStreamVideoSource.rescan_loop rescans s directory = Except.ok (s', directory', frame) →
    ∃ (last : FileStreamVideoSource) (scanned : Directory),
      last.scan_pass scanned = Except.ok (s', directory', some frame) ∧
      last.end_of_stream_filename = s.end_of_stream_filename ∧
      ((∃ path, (s'.current_frame_timestamp, path) ∈ (last.ScanInputDirectory scanned).2 ∧
          frame = imread scanned path ∧ filesystem_exists directory' path = true) ∨
        (frame = cv.Mat.mk0 ∧ s'.current_frame_timestamp = int64_max ∧
          filesystem_exists directory' s.end_of_stream_filename = false)) ∧
      ∀ kq ∈ (last.ScanInputDirectory scanned).2, kq.1 < s'.current_frame_timestamp →
        filesystem_exists directory' kq.2 = false := by
  intro rescans
  induction rescans with
  | zero => intro s s' directory directory' frame _ h; simp [FileStreamVideoSource.rescan_loop] at h
  | succ rescans ih =>
      intro s s' directory directory' frame herase h
      unfold FileStreamVideoSource.rescan_loop at h
      split at h
      · simp at h
      · rename_i s1 d1 f1 hpass
        simp only [Except.ok.injEq, Prod.mk.injEq] at h
        obtain ⟨h1, h2, h3⟩ := h
        subst h1 h2 h3
        obtain ⟨_, hcase, hall⟩ := scan_pass_erases s s1 directory d1 f1 herase hpass
        exact ⟨s, directory, hpass, rfl, hcase, hall⟩
      · rename_i s1 d1 hpass
        have he : s1.erase_read_files = true := by
          rw [(scan_pass_keeps_erase_read_files s s1 directory d1 none hpass).1]; exact herase
        have hname := (scan_pass_keeps_erase_read_files s s1 directory d1 none hpass).2
        obtain ⟨last, scanned, hp, hn, hcase, hall⟩ := ih s1 s' d1 directory' frame he h
        rw [hname] at hn hcase
        exact ⟨last, scanned, hp, hn, hcase, hall⟩

end presage.smartspectra.video_source.file_stream

namespace presage.smartspectra.video_source.file_stream

/-- C20 (evaluation at the failing input): on a finished stream whose last frame carries the
index `INT64_MAX`, the first two pulls return the two frames; the scan of the third pull sees
the file of the last frame, the pull returns the empty end-of-stream frame, and that file is
still in the directory afterwards (the marker and the other frame file are gone). -/
theorem end_of_stream_pull_keeps_file_with_largest_index :
    (match FileStreamVideoSource.pulled 1 2
        (FileStreamVideoSource.Initialize (fun _ => Except.ok wide_frame_filename_regex)
          absl.OkStatus wide_settings wide_directory).1 wide_directory with
      | Except.ok (source, directory, frames) =>
          some (frames, (source.ScanInputDirectory directory).2,
            match source.ProducePreTransformFrame 1 directory with
            | Except.ok (_, remaining, frame) =>
                some (frame, remaining.map (fun entry => entry.filename),
                  filesystem_exists remaining "frame_9223372036854775807.png")
            | Except.error _ => none)
      | Except.error _ => none) =
      some ([sample_image 10, sample_image 11],
        [(int64_max, "frame_9223372036854775807.png")],
        some (cv.Mat.mk0, ["frame_9223372036854775807.png"], true)) := by
  rfl

end presage.smartspectra.video_source.file_stream

namespace presage.smartspectra.container

open absl

/-! ## Frame submission -/

end presage.smartspectra.container

namespace presage.smartspectra.container

open absl

/-! ## Null callbacks at `StartGraph` -/

theorem OperationContext.mode_Reset (context : OperationContext) :
    context.Reset.mode = context.mode := by
  cases context <;> rfl

/-- The five callback slots hold the no-op callbacks after construction, and a setter either
stores the non-null callback it was given or returns its error and stores nothing: no setter
call turns a slot that holds a callback into a null slot. -/
theorem callback_slots_stay_non_null (c : Container) (now_us : Int) :
    ((Container.new now_us).OnStatusChange.isSome = true ∧
      (Container.new now_us).OnCoreMetricsOutput.isSome = true ∧
      (Container.new now_us).OnEdgeMetricsOutput.isSome = true ∧
      (Container.new now_us).OnVideoOutput.isSome = true ∧
      (Container.new now_us).OnFrameSentThrough.isSome = true) ∧
    (∀ callback, c.OnStatusChange.isSome = true →
      (c.SetOnStatusChange callback).1.OnStatusChange.isSome = true) ∧
    (∀ callback, c.OnCoreMetricsOutput.isSome = true →
      (c.SetOnCoreMetricsOutput callback).1.OnCoreMetricsOutput.isSome = true) ∧
    (∀ callback, c.OnEdgeMetricsOutput.isSome = true →
      (c.SetOnEdgeMetricsOutput callback).1.OnEdgeMetricsOutput.isSome = true) ∧
    (∀ callback, c.OnVideoOutput.isSome = true →
      (c.SetOnVideoOutput callback).1.OnVideoOutput.isSome = true) ∧
    (∀ callback, c.OnFrameSentThrough.isSome = true →
      (c.SetOnFrameSentThrough callback).1.OnFrameSentThrough.isSome = true) := by
  refine ⟨⟨rfl, rfl, rfl, rfl, rfl⟩, ?_, ?_, ?_, ?_, ?_⟩ <;>
    (intro callback h
     cases callback with
     | none => exact h
     | some f => rfl)

/-- The null checks of `StartGraph`, on a state with a null callback slot (a state outside the
reach of the constructor and the setters, see `callback_slots_stay_non_null`): with a graph
that accepts observers, `StartGraph` returns the invalid-argument error naming the first null
callback in the order status, core metrics, edge metrics (continuous mode with edge metrics
enabled), video output, frame-sent-through; the observers attached by the call are those of
the channels in front of it. -/
theorem StartGraph_names_first_null_callback (responses : GraphResponses)
    (c : BackgroundContainer) (callback_name : String) (attached : List OutputStream)
    (hinit : c.initialized = true)
    (hobserve : ∀ graph stream, (responses.ObserveOutputStream graph stream).ok = true)
    (hnull : first_null_callback c.consumed_channels = some (callback_name, attached)) :
    (c.StartGraph responses).2 =
      InvalidArgumentError (callback_name ++
        " callback is nullptr. Expecting a valid callback. " ++
        "Please ensure your callback doesn\x27t go out of scope and get destroyed while the graph is running.") ∧
    (c.StartGraph responses).2.code = StatusCode.kInvalidArgument ∧
    (c.StartGraph responses).1.graph.observed_streams =
      c.graph.observed_streams ++ attached := by
  obtain ⟨⟨f1, f2, f3, f4, f5, f6, ini, run, st, rec, fr, buf, off⟩, dev, settings, graph,
    out, ctx, prev⟩ := c
  simp only at hinit
  subst hinit
  have hcode : ∀ graph stream, (responses.ObserveOutputStream graph stream).code =
      StatusCode.kOk := by
    intro graph stream
    simpa [Status.ok] using hobserve graph stream
  by_cases hedge : ctx.mode = OperationMode.Continuous ∧ settings.enable_edge_metrics = true
  · cases f1 <;> cases f3 <;> cases f2 <;> cases f4 <;> cases f5 <;>
      simp [BackgroundContainer.consumed_channels, first_null_callback, hedge] at hnull <;>
      obtain ⟨rfl, rfl⟩ := hnull <;>
      simp [BackgroundContainer.StartGraph, BackgroundContainer.check_and_observe,
        BackgroundContainer.CheckCallbackNotNull, CalculatorGraph.ObserveOutputStream,
        hcode, hedge, OperationContext.mode_Reset, Status.ok, OkStatus,
        InvalidArgumentError]
  · cases f1 <;> cases f3 <;> cases f2 <;> cases f4 <;> cases f5 <;>
      simp [BackgroundContainer.consumed_channels, first_null_callback, hedge] at hnull <;>
      obtain ⟨rfl, rfl⟩ := hnull <;>
      simp [BackgroundContainer.StartGraph, BackgroundContainer.check_and_observe,
        BackgroundContainer.CheckCallbackNotNull, CalculatorGraph.ObserveOutputStream,
        hcode, hedge, OperationContext.mode_Reset, Status.ok, OkStatus,
        InvalidArgumentError]

end presage.smartspectra.container

namespace presage.smartspectra.container

open absl

end presage.smartspectra.container

namespace presage.smartspectra.container

open absl

/-! ## Operations before the state they require -/

/-- Every operation of the asynchronous container on an uninitialized container fails with
the failed-precondition error `Container not initialized.` and leaves the container as it
was. -/
theorem background_operations_require_initialized (responses : GraphResponses)
    (c : BackgroundContainer) (hinit : c.initialized = false) (recording_on : Bool)
    (frame_rgb : cv.Mat) (frame_timestamp : Int) (current_system_seconds : ℚ) :
    c.StartGraph responses = (c, FailedPreconditionError "Container not initialized.") ∧
    c.StopGraph responses = (c, FailedPreconditionError "Container not initialized.") ∧
    c.SetRecording recording_on = (c, FailedPreconditionError "Container not initialized.") ∧
    c.WaitUntilGraphIsIdle responses =
      (c, FailedPreconditionError "Container not initialized.") ∧
    c.AddFrameWithTimestamp responses frame_rgb frame_timestamp current_system_seconds =
      (c, FailedPreconditionError "Container not initialized.") := by
  simp [BackgroundContainer.StartGraph, BackgroundContainer.StopGraph,
    BackgroundContainer.SetRecording, BackgroundContainer.WaitUntilGraphIsIdle,
    BackgroundContainer.AddFrameWithTimestamp, hinit]

/-- The operations of the asynchronous container that need a started graph fail on an
initialized container whose graph is not running with the failed-precondition error
`Graph not started.` and leave the container as it was. -/
theorem background_operations_require_running (responses : GraphResponses)
    (c : BackgroundContainer) (hinit : c.initialized = true) (hrun : c.running = false)
    (recording_on : Bool) (frame_rgb : cv.Mat) (frame_timestamp : Int)
    (current_system_seconds : ℚ) :
    c.SetRecording recording_on = (c, FailedPreconditionError "Graph not started.") ∧
    c.WaitUntilGraphIsIdle responses = (c, FailedPreconditionError "Graph not started.") ∧
    c.AddFrameWithTimestamp responses frame_rgb frame_timestamp current_system_seconds =
      (c, FailedPreconditionError "Graph not started.") := by
  simp [BackgroundContainer.SetRecording, BackgroundContainer.WaitUntilGraphIsIdle,
    BackgroundContainer.AddFrameWithTimestamp, hinit, hrun]

/-- C13 (evaluation at the failing input): `Run` on a freshly constructed synchronous
container, which is not initialized, returns the permission-denied error
`Client not initialized.`; its code is not the failed-precondition code and no frame is
pulled. -/
theorem Run_before_Initialize_returns_permission_denied :
    ((ForegroundContainer.new DeviceType.Cpu sample_general_settings
        OperationSettings.Continuous 0).Run GraphResponses.accepting (fun _ frame => frame)
        [quiet_iteration (video_source.file_stream.sample_image 10) 0]).map
      (fun result => (result.status, result.status.code,
        decide (result.status.code = StatusCode.kFailedPrecondition),
        result.container.initialized, result.unread.length)) =
      some (PermissionDeniedError "Client not initialized.", StatusCode.kPermissionDenied,
        false, false, 1) := by
  rfl

end presage.smartspectra.container

namespace presage.smartspectra.container

open absl

/-! ## Status changes -/

theorem status_code_before_cons (initial : physiology.StatusCode)
    (status_packet : Packet physiology.StatusValue)
    (earlier : List (Packet physiology.StatusValue)) :
    status_code_before initial (status_packet :: earlier) =
      status_code_before (status_code_before initial [status_packet]) earlier := by
  unfold status_code_before
  cases hc : status_packet.contents with
  | none => simp [List.filterMap_cons, hc]
  | some status =>
      simp only [List.filterMap_cons, hc, List.filterMap_nil]
      rw [List.getLast?_cons]
      cases (List.filterMap (fun packet : Packet physiology.StatusValue => packet.contents)
        earlier).getLast? <;> simp

theorem status_change_calls_getElem? (packets : List (Packet physiology.StatusValue)) :
    ∀ (previous : physiology.StatusCode) (i : Nat)
      (status_packet : Packet physiology.StatusValue),
      packets[i]? = some status_packet →
      (status_change_calls previous packets)[i]? =
        some (status_change_calls_for (status_code_before previous (packets.take i))
          status_packet) := by
  induction packets with
  | nil => intro previous i status_packet h; simp at h
  | cons first rest ih =>
      intro previous i status_packet h
      cases i with
      | zero =>
          simp at h
          subst h
          simp [status_change_calls, status_code_before]
      | succ i =>
          simp at h
          simp only [status_change_calls, List.getElem?_cons_succ, List.take_succ_cons]
          rw [ih _ i status_packet h, status_code_before_cons previous first (rest.take i)]

theorem status_change_calls_length (packets : List (Packet physiology.StatusValue)) :
    ∀ previous, (status_change_calls previous packets).length = packets.length := by
  induction packets with
  | nil => intro _; rfl
  | cons first rest ih => intro previous; simp [status_change_calls, ih]

theorem status_change_calls_chain (packets : List (Packet physiology.StatusValue)) :
    ∀ previous, List.Chain (fun earlier later => earlier ≠ later) previous
      (status_change_codes (status_change_calls previous packets).flatten) := by
  induction packets with
  | nil => intro _; exact List.Chain.nil
  | cons first rest ih =>
      intro previous
      cases hc : first.contents with
      | none =>
          have h := ih previous
          simpa [status_change_calls, status_change_calls_for, status_code_before, hc,
            status_change_codes] using h
      | some status =>
          by_cases hne : status.value = previous
          · have h := ih previous
            simpa [status_change_calls, status_change_calls_for, status_code_before, hc, hne,
              status_change_codes] using h
          · have h := ih status.value
            simp only [status_change_calls, status_change_calls_for, status_code_before, hc,
              List.filterMap_cons, List.filterMap_nil, List.getLast?_singleton, Option.map_some',
              Option.getD_some, ne_eq, hne, not_false_eq_true, if_true, List.flatten_cons,
              List.singleton_append, status_change_codes]
            exact List.Chain.cons (fun e => hne e.symm) h

theorem observe_status_packets_eq (packets : List (Packet physiology.StatusValue)) :
    ∀ (c : BackgroundContainer), c.OnStatusChange.isSome = true →
      c.observe_status_packets packets =
        status_change_calls c.previous_status_code packets := by
  induction packets with
  | nil => intro c _; rfl
  | cons first rest ih =>
      intro c hcb
      obtain ⟨callback, hcallback⟩ := Option.isSome_iff_exists.mp hcb
      cases hc : first.contents with
      | none =>
          simp [BackgroundContainer.observe_status_packets, BackgroundContainer.status_observer,
            status_change_calls, status_change_calls_for, status_code_before, hc, ih c hcb]
      | some status =>
          by_cases hne : status.value = c.previous_status_code
          · simp [BackgroundContainer.observe_status_packets,
              BackgroundContainer.status_observer, status_change_calls,
              status_change_calls_for, status_code_before, hc, hne, ih c hcb]
          · have hnext := ih { c with previous_status_code := status.value } hcb
            simp [BackgroundContainer.observe_status_packets,
              BackgroundContainer.status_observer, status_change_calls,
              status_change_calls_for, status_code_before, hc, hne, hcallback]
            simpa using hnext

theorem poll_status_packets_eq (packets : List (Packet physiology.StatusValue))
    (on_status_change : physiology.StatusValue → Status)
    (hok : ∀ status, (on_status_change status).ok = true) :
    ∀ (state : LoopState), state.container.OnStatusChange = some on_status_change →
      ForegroundContainer.poll_status_packets state packets =
        status_change_calls state.previous_status_code packets := by
  induction packets with
  | nil => intro state _; rfl
  | cons first rest ih =>
      intro state hcallback
      cases hc : first.contents with
      | none =>
          have hnext := ih state hcallback
          simp [ForegroundContainer.poll_status_packets, ForegroundContainer.status_poll,
            GetPacketContentsIfAny, status_change_calls, status_change_calls_for,
            status_code_before, hc, Status.ok, OkStatus]
          exact hnext
      | some status =>
          by_cases hne : status.value = state.previous_status_code
          · have hnext := ih { state with
              container := { state.container with status := status } } hcallback
            simp [ForegroundContainer.poll_status_packets, ForegroundContainer.status_poll,
              GetPacketContentsIfAny, status_change_calls, status_change_calls_for,
              status_code_before, hc, hne, Status.ok, OkStatus]
            simpa [hne] using hnext
          · have hnext := ih ⟨{ state.container with status := status }, status.value⟩
              hcallback
            have hok' : (on_status_change status).code = StatusCode.kOk := by
              simpa [Status.ok] using hok status
            simp [ForegroundContainer.poll_status_packets, ForegroundContainer.status_poll,
              GetPacketContentsIfAny, status_change_calls, status_change_calls_for,
              status_code_before, hc, hne, hcallback, hok', Status.ok, OkStatus]
            simpa [hcallback] using hnext

theorem status_change_calls_for_spec (previous : physiology.StatusCode)
    (status_packet : Packet physiology.StatusValue) :
    (status_change_calls_for previous status_packet ≠ [] ↔
      ∃ status, status_packet.contents = some status ∧ status.value ≠ previous) ∧
    (∀ invocation ∈ status_change_calls_for previous status_packet,
      ∃ status, status_packet.contents = some status ∧
        invocation = Invocation.OnStatusChange status) ∧
    (status_change_calls_for previous status_packet).length ≤ 1 := by
  unfold status_change_calls_for
  cases hc : status_packet.contents with
  | none => simp
  | some status =>
      by_cases hne : status.value = previous
      · simp [hne]
      · simp [hne]

/-- Status packets delivered one after another, to an asynchronous container whose member
`previous_status_code` is `PROCESSING_NOT_STARTED` when the first of them arrives (its value
after construction and after a `StopGraph` that completed) and to the loop of the synchronous
container (handler returning OK; `Run` starts from a local `PROCESSING_NOT_STARTED`): the
status-change callback is invoked for a packet exactly when the packet is non-empty and its
code differs from the code of the most recent earlier non-empty packet
(`PROCESSING_NOT_STARTED` when there is none), once and with the packet's status; two
consecutive invocations never carry the same code. -/
theorem status_change_invoked_iff_code_differs (background : BackgroundContainer)
    (foreground : ForegroundContainer) (on_status_change : physiology.StatusValue → Status)
    (packets : List (Packet physiology.StatusValue))
    (hbackground : background.OnStatusChange.isSome = true)
    (hstart : background.previous_status_code = physiology.StatusCode.PROCESSING_NOT_STARTED)
    (hforeground : foreground.OnStatusChange = some on_status_change)
    (hok : ∀ status, (on_status_change status).ok = true) :
    (∀ (i : Nat) (status_packet : Packet physiology.StatusValue),
      packets[i]? = some status_packet →
      ∃ calls,
        (background.observe_status_packets packets)[i]? = some calls ∧
        (ForegroundContainer.poll_status_packets
          ⟨foreground, physiology.StatusCode.PROCESSING_NOT_STARTED⟩ packets)[i]? =
            some calls ∧
        (calls ≠ [] ↔ ∃ status, status_packet.contents = some status ∧
          status.value ≠ most_recent_status_code (packets.take i)) ∧
        (∀ invocation ∈ calls, ∃ status, status_packet.contents = some status ∧
          invocation = Invocation.OnStatusChange status) ∧
        calls.length ≤ 1) ∧
    List.Chain' (fun earlier later => earlier ≠ later)
      (status_change_codes (background.observe_status_packets packets).flatten) ∧
    List.Chain' (fun earlier later => earlier ≠ later)
      (status_change_codes (ForegroundContainer.poll_status_packets
        ⟨foreground, physiology.StatusCode.PROCESSING_NOT_STARTED⟩ packets).flatten) := by
  have hb := observe_status_packets_eq packets background hbackground
  have hf := poll_status_packets_eq packets on_status_change hok
    ⟨foreground, physiology.StatusCode.PROCESSING_NOT_STARTED⟩ hforeground
  rw [hstart] at hb
  simp only at hf
  rw [hb, hf]
  have hchain : List.Chain' (fun earlier later : physiology.StatusCode => earlier ≠ later)
      (physiology.StatusCode.PROCESSING_NOT_STARTED ::
        status_change_codes (status_change_calls
          physiology.StatusCode.PROCESSING_NOT_STARTED packets).flatten) :=
    status_change_calls_chain packets physiology.StatusCode.PROCESSING_NOT_STARTED
  refine ⟨?_, hchain.tail, hchain.tail⟩
  intro i status_packet hget
  have hcalls := status_change_calls_getElem? packets
    physiology.StatusCode.PROCESSING_NOT_STARTED i status_packet hget
  have hspec := status_change_calls_for_spec
    (status_code_before physiology.StatusCode.PROCESSING_NOT_STARTED (packets.take i))
    status_packet
  exact ⟨_, hcalls, hcalls, hspec.1, hspec.2.1, hspec.2.2⟩

theorem status_change_invoked_iff_code_differs_witness :
    List.Chain' (fun earlier later => earlier ≠ later)
      (status_change_codes
        (BackgroundContainer.observe_status_packets
          (sample_background_container.StartGraph GraphResponses.accepting).1
          [⟨some ⟨physiology.StatusCode.OK, 1⟩, 1⟩, ⟨some ⟨physiology.StatusCode.OK, 2⟩, 2⟩,
            ⟨none, 3⟩, ⟨some ⟨physiology.StatusCode.OTHER 3, 4⟩, 4⟩]).flatten) :=
  (status_change_invoked_iff_code_differs
    (sample_background_container.StartGraph GraphResponses.accepting).1
    (sample_foreground_container sample_general_settings OperationSettings.Continuous)
    (fun _ => OkStatus)
    [⟨some ⟨physiology.StatusCode.OK, 1⟩, 1⟩, ⟨some ⟨physiology.StatusCode.OK, 2⟩, 2⟩,
      ⟨none, 3⟩, ⟨some ⟨physiology.StatusCode.OTHER 3, 4⟩, 4⟩]
    rfl rfl rfl (fun _ => rfl)).2.1

theorem check_and_observe_previous_status_code {Sig : Type} (responses : GraphResponses)
    (c : BackgroundContainer) (callback_name : String) (callback : Option Sig)
    (stream : OutputStream) :
    (c.check_and_observe responses callback_name callback stream).1.previous_status_code =
      c.previous_status_code := by
  unfold BackgroundContainer.check_and_observe
  simp only
  split <;> rfl

/-- `StartGraph` never writes `previous_status_code`: the code the status observer compares
the first packet with is whatever the member held before the call. -/
theorem StartGraph_keeps_previous_status_code (responses : GraphResponses)
    (c : BackgroundContainer) :
    (c.StartGraph responses).1.previous_status_code = c.previous_status_code := by
  unfold BackgroundContainer.StartGraph
  by_cases hinit : c.initialized = true
  · simp -zeta only [hinit, Bool.not_true, Bool.false_eq_true, if_false]
    lift_lets
    intro c1 status_code c2 core_metrics c3 edge_metrics c4 output_video c5
      frame_sent_through c6 started c7 idle
    have h1 : status_code.1.previous_status_code = c.previous_status_code := by
      simp only [status_code, check_and_observe_previous_status_code, c1]
    have h2 : core_metrics.1.previous_status_code = c.previous_status_code := by
      simp only [core_metrics, check_and_observe_previous_status_code, c2, h1]
    have h3 : edge_metrics.1.previous_status_code = c.previous_status_code := by
      simp only [edge_metrics]
      split
      · simp only [check_and_observe_previous_status_code, c3, h2]
      · exact h2
    have h4 : output_video.1.previous_status_code = c.previous_status_code := by
      simp only [output_video, check_and_observe_previous_status_code, c4, h3]
    have h5 : frame_sent_through.1.previous_status_code = c.previous_status_code := by
      simp only [frame_sent_through, check_and_observe_previous_status_code, c5, h4]
    have h6 : c7.previous_status_code = c.previous_status_code := h5
    split
    · exact h1
    · split
      · exact h2
      · split
        · exact h3
        · split
          · exact h4
          · split
            · exact h5
            · split
              · exact h6
              · split
                · exact h6
                · exact h6
  · simp [hinit]

/-- `StopGraph` resets `previous_status_code` on the path that returns after a successful
`WaitUntilDone` only: when it returns an error, or finds the input streams already closed,
the member keeps its value. -/
theorem StopGraph_previous_status_code (responses : GraphResponses)
    (c : BackgroundContainer) :
    (c.StopGraph responses).1.previous_status_code =
      physiology.StatusCode.PROCESSING_NOT_STARTED ∨
    (c.StopGraph responses).1.previous_status_code = c.previous_status_code := by
  unfold BackgroundContainer.StopGraph
  simp only
  split_ifs <;> first | exact Or.inr rfl | exact Or.inl rfl

/-- The first start: a container as constructed, then initialised and started, compares the
first status packet with `PROCESSING_NOT_STARTED`. -/
theorem first_StartGraph_previous_status_code (device_type : DeviceType)
    (settings : GeneralSettings) (operation : OperationSettings) (now_us : Int)
    (InitializeGraph InitializeComputingDevice : Status) (responses : GraphResponses) :
    (((BackgroundContainer.new device_type settings operation now_us).Initialize
      InitializeGraph InitializeComputingDevice).1.StartGraph responses).1.previous_status_code =
      physiology.StatusCode.PROCESSING_NOT_STARTED := by
  rw [StartGraph_keeps_previous_status_code]
  unfold BackgroundContainer.Initialize
  simp only
  split_ifs <;> rfl

end presage.smartspectra.container

namespace presage.smartspectra.container

open absl

/-! ## Telemetry per metrics batch -/

/-- C15, refuted as stated: in the synchronous container in spot mode a non-empty metrics
batch arrives, `OnCoreMetricsOutput` is called with it, and
`ComputeCorePerformanceTelemetry` is not called. -/
theorem spot_loop_skips_ComputeCorePerformanceTelemetry :
    (((sample_foreground_container sample_general_settings
        (OperationSettings.Spot ⟨30⟩)).HandleOutputData 33333
        (PollerQuery.next ⟨some ⟨⟨33333, 1⟩⟩, 33333⟩) [] 1).invocations,
      ((sample_foreground_container sample_general_settings
        (OperationSettings.Spot ⟨30⟩)).HandleOutputData 33333
        (PollerQuery.next ⟨some ⟨⟨33333, 1⟩⟩, 33333⟩) [] 1).invocations.count
          (Invocation.ComputeCorePerformanceTelemetry ⟨⟨33333, 1⟩⟩)) =
      ([Invocation.OnCoreMetricsOutput ⟨⟨33333, 1⟩⟩ 33333], 0) := by
  rfl

theorem poll_edge_metrics_invocations (c : ForegroundContainer)
    (metrics_buffer : physiology.MetricsBuffer) :
    ∀ (queries : List (PollerQuery physiology.Metrics)),
      (c.poll_edge_metrics queries).invocations.count
        (Invocation.ComputeCorePerformanceTelemetry metrics_buffer) = 0 := by
  intro queries
  induction queries with
  | nil => rfl
  | cons query rest ih =>
      unfold ForegroundContainer.poll_edge_metrics
      simp only
      split
      · rfl
      · split
        · split
          · rfl
          · split
            · simp
            · simpa using ih
        · rfl

theorem handle_core_metrics_invocations (c : ForegroundContainer)
    (metrics_buffer : physiology.MetricsBuffer) (packet_timestamp frame_timestamp : Int)
    (current_system_seconds : ℚ)
    (on_core_metrics_output : physiology.MetricsBuffer → Int → Status)
    (hcallback : c.OnCoreMetricsOutput = some on_core_metrics_output)
    (hok : (on_core_metrics_output metrics_buffer frame_timestamp).ok = true) :
    (c.handle_core_metrics frame_timestamp
        (PollerQuery.next ⟨some metrics_buffer, packet_timestamp⟩)
        current_system_seconds).invocations =
      match c.operation_context.mode with
      | OperationMode.Spot => [Invocation.OnCoreMetricsOutput metrics_buffer frame_timestamp]
      | OperationMode.Continuous =>
          [Invocation.OnCoreMetricsOutput metrics_buffer frame_timestamp,
            Invocation.ComputeCorePerformanceTelemetry metrics_buffer] := by
  have hcode : (on_core_metrics_output metrics_buffer frame_timestamp).code =
      StatusCode.kOk := by simpa [Status.ok] using hok
  unfold ForegroundContainer.handle_core_metrics
  simp only [GetPacketContentsIfAny, hcallback, Status.ok, OkStatus, hcode, beq_self_eq_true,
    Bool.not_true, Bool.false_eq_true, if_false, if_true]
  cases c.operation_context.mode
  · simp only
    split
    · rfl
    · split
      · split
        · rfl
        · split <;> rfl
      · rfl
  · simp only
    split <;> rfl

theorem HandleOutputData_invocations (c : ForegroundContainer)
    (metrics_buffer : physiology.MetricsBuffer) (packet_timestamp frame_timestamp : Int)
    (current_system_seconds : ℚ) (edge_metrics_poller : List (PollerQuery physiology.Metrics))
    (on_core_metrics_output : physiology.MetricsBuffer → Int → Status)
    (hcallback : c.OnCoreMetricsOutput = some on_core_metrics_output)
    (hok : (on_core_metrics_output metrics_buffer frame_timestamp).ok = true) :
    (c.HandleOutputData frame_timestamp
        (PollerQuery.next ⟨some metrics_buffer, packet_timestamp⟩) edge_metrics_poller
        current_system_seconds).invocations.count
          (Invocation.ComputeCorePerformanceTelemetry metrics_buffer) =
      match c.operation_context.mode with
      | OperationMode.Spot => 0
      | OperationMode.Continuous => 1 := by
  have hcore := handle_core_metrics_invocations c metrics_buffer packet_timestamp
    frame_timestamp current_system_seconds on_core_metrics_output hcallback hok
  have hcount : (c.handle_core_metrics frame_timestamp
        (PollerQuery.next ⟨some metrics_buffer, packet_timestamp⟩)
        current_system_seconds).invocations.count
          (Invocation.ComputeCorePerformanceTelemetry metrics_buffer) =
      match c.operation_context.mode with
      | OperationMode.Spot => 0
      | OperationMode.Continuous => 1 := by
    rw [hcore]
    cases c.operation_context.mode <;> simp
  unfold ForegroundContainer.HandleOutputData
  simp only
  split
  · exact hcount
  · split
    · exact hcount
    · split
      · simp only [List.count_append, poll_edge_metrics_invocations, Nat.add_zero]
        exact hcount
      · exact hcount

/-- C15, amended: for every non-empty metrics batch that arrives on the metrics channel, the
asynchronous container (in either mode) invokes `ComputeCorePerformanceTelemetry` exactly
once with that batch, before `OnCoreMetricsOutput`; the synchronous container invokes it
exactly once in continuous mode, after an `OnCoreMetricsOutput` call that returned OK, and
not at all in spot mode. -/
theorem ComputeCorePerformanceTelemetry_calls_per_batch (background : BackgroundContainer)
    (foreground : ForegroundContainer) (metrics_buffer : physiology.MetricsBuffer)
    (packet_timestamp frame_timestamp : Int) (current_system_seconds : ℚ)
    (edge_metrics_poller : List (PollerQuery physiology.Metrics))
    (on_core_metrics_output : physiology.MetricsBuffer → Int → Status)
    (hcallback : foreground.OnCoreMetricsOutput = some on_core_metrics_output)
    (hok : (on_core_metrics_output metrics_buffer frame_timestamp).ok = true) :
    (background.metrics_observer ⟨some metrics_buffer, packet_timestamp⟩
        current_system_seconds).invocations.count
          (Invocation.ComputeCorePerformanceTelemetry metrics_buffer) = 1 ∧
    (background.metrics_observer ⟨some metrics_buffer, packet_timestamp⟩
        current_system_seconds).invocations.head? =
          some (Invocation.ComputeCorePerformanceTelemetry metrics_buffer) ∧
    (foreground.HandleOutputData frame_timestamp
        (PollerQuery.next ⟨some metrics_buffer, packet_timestamp⟩) edge_metrics_poller
        current_system_seconds).invocations.count
          (Invocation.ComputeCorePerformanceTelemetry metrics_buffer) =
      match foreground.operation_context.mode with
      | OperationMode.Spot => 0
      | OperationMode.Continuous => 1 := by
  refine ⟨?_, ?_, HandleOutputData_invocations foreground metrics_buffer packet_timestamp
    frame_timestamp current_system_seconds edge_metrics_poller on_core_metrics_output
    hcallback hok⟩
  · unfold BackgroundContainer.metrics_observer
    simp only
    split
    · simp
    · split
      · simp
      · split <;> simp
  · unfold BackgroundContainer.metrics_observer
    simp only
    split
    · rfl
    · split
      · rfl
      · split <;> rfl

theorem ComputeCorePerformanceTelemetry_calls_per_batch_witness :
    (sample_background_container.metrics_observer ⟨some ⟨⟨33333, 1⟩⟩, 33333⟩
        1).invocations.count (Invocation.ComputeCorePerformanceTelemetry ⟨⟨33333, 1⟩⟩) = 1 ∧
    ((sample_foreground_container sample_general_settings
        OperationSettings.Continuous).HandleOutputData 33333
        (PollerQuery.next ⟨some ⟨⟨33333, 1⟩⟩, 33333⟩) [] 1).invocations.count
          (Invocation.ComputeCorePerformanceTelemetry ⟨⟨33333, 1⟩⟩) = 1 :=
  have h := ComputeCorePerformanceTelemetry_calls_per_batch sample_background_container
    (sample_foreground_container sample_general_settings OperationSettings.Continuous)
    ⟨⟨33333, 1⟩⟩ 33333 33333 1 [] (fun _ _ => OkStatus) rfl rfl
  ⟨h.1, h.2.2⟩

end presage.smartspectra.container

namespace presage.smartspectra.container

open absl

/-! ## Headless start of recording -/

/-- At the end of a headless iteration on a live source, with recording off and the latest
status OK: when `auto_lock` is on and the source supports exposure controls, `Run` returns
the status of `TurnOffAutoExposure` and `recording` stays off; otherwise `recording` is set
and the loop goes on. -/
theorem headless_end_of_iteration (state : LoopState) (pressed_key : Int)
    (source : video_source.VideoSource)
    (hheadless : state.container.settings.headless = true)
    (hlive : state.container.load_video = false)
    (hrecording : state.container.recording = false)
    (hstatus : state.container.status.value = physiology.StatusCode.OK)
    (hsource : state.container.video_source = some source) :
    ForegroundContainer.end_of_iteration state pressed_key =
      if state.container.settings.video_source.auto_lock = true
          ∧ source.SupportsExposureControls = true then
        some ⟨state, [], LoopControl.return_status source.TurnOffAutoExposure⟩
      else
        some ⟨{ state with container := { state.container with recording := true } }, [],
          LoopControl.proceed⟩ := by
  unfold ForegroundContainer.end_of_iteration
  simp only [hheadless, hlive, hrecording, hstatus, hsource, if_true, Bool.not_false,
    Bool.and_self, beq_self_eq_true]
  by_cases hlock : state.container.settings.video_source.auto_lock = true
  · by_cases hsupport : source.SupportsExposureControls = true
    · simp [hlock, hsupport]
    · simp [hlock, hsupport]
  · simp [hlock]

/-- After a successful `Initialize` of a synchronous container constructed with an input
video file, `recording` is on (an error of `BuildVideoSource` is never the OK status). -/
theorem Initialize_with_input_video_records (responses : InitializeResponses)
    (c : ForegroundContainer) (hload : c.load_video = true)
    (hbuild : ∀ status, responses.BuildVideoSource = Except.error status → status.ok = false)
    (hok : (c.Initialize responses).2.ok = true) :
    (c.Initialize responses).1.recording = true := by
  unfold ForegroundContainer.Initialize at hok ⊢
  simp only at hok ⊢
  by_cases hbase : (c.toContainer.Initialize responses.InitializeGraph
      responses.InitializeComputingDevice).2.ok = true
  · simp only [hbase, Bool.not_true, Bool.false_eq_true, if_false] at hok ⊢
    cases hsource : responses.BuildVideoSource with
    | error status =>
        simp only [hsource] at hok
        rw [hbuild status hsource] at hok
        simp at hok
    | ok built =>
        simp only [hsource] at hok ⊢
        by_cases hgui : responses.InitializeGui.ok = true
        · simp [hgui, hload]
        · have hgui' : responses.InitializeGui.ok = false := by simpa using hgui
          simp [hgui'] at hok
  · have hbase' : (c.toContainer.Initialize responses.InitializeGraph
        responses.InitializeComputingDevice).2.ok = false := by simpa using hbase
    simp [hbase'] at hok

/-- C18 (evaluation at the failing input): a headless synchronous container on a live source
with `auto_lock` on and exposure controls supported runs over two frames, the first of which
comes with an OK status packet.  `Run` returns (with the OK status of `TurnOffAutoExposure`)
at the end of the first iteration: `recording` is still off, the second frame is never
pulled, only the first frame's two packets were submitted, and the graph is left running. -/
theorem headless_auto_lock_run_returns_instead_of_recording :
    ((sample_foreground_container sample_general_settings OperationSettings.Continuous).Run
        GraphResponses.accepting (fun _ frame => frame)
        [{ quiet_iteration (video_source.file_stream.sample_image 10) 0 with
            status_code_poller := PollerQuery.next ⟨some ⟨physiology.StatusCode.OK, 0⟩, 0⟩ },
          quiet_iteration (video_source.file_stream.sample_image 11) 33333]).map
      (fun result => (result.status, result.container.status.value,
        result.container.recording, result.unread.length,
        result.container.graph.input_packets.length, result.container.running,
        result.container.graph.input_streams_closed)) =
      some (OkStatus, physiology.StatusCode.OK, false, 1, 2, true, false) := by
  rfl

end presage.smartspectra.container

namespace presage.smartspectra.container

open absl

/-! ## Repeated initialization -/

/-- `Container::Initialize` and `BackgroundContainer::Initialize` on an initialized container
return `OkStatus` and leave the container as it was, whatever the collaborators would
answer. -/
theorem Initialize_of_initialized (base : Container) (background : BackgroundContainer)
    (InitializeGraph InitializeComputingDevice : Status)
    (hbase : base.initialized = true) (hbackground : background.initialized = true) :
    base.Initialize InitializeGraph InitializeComputingDevice = (base, OkStatus) ∧
    background.Initialize InitializeGraph InitializeComputingDevice =
      (background, OkStatus) := by
  simp [Container.Initialize, BackgroundContainer.Initialize, hbase, hbackground]

/-- C21 (evaluation at the failing input): a synchronous container with
`start_with_recording_on` is initialized and run with a window; the user presses `s`
(recording off) and then `q`.  The container is initialized and not recording.  `Initialize`
is called again: when `BuildVideoSource` now fails the call returns that error, and when every
collaborator succeeds the call replaces the video source by the newly built one and switches
`recording` on. -/
theorem ForegroundContainer_Initialize_again_is_not_skipped :
    (((sample_foreground_container
          { sample_general_settings with headless := false, start_with_recording_on := true }
          OperationSettings.Continuous).Run GraphResponses.accepting (fun _ frame => frame)
        [{ quiet_iteration (video_source.file_stream.sample_image 10) 0 with
            pressed_key := 115 },
          { quiet_iteration (video_source.file_stream.sample_image 11) 33333 with
            pressed_key := 113 }]).map
      (fun result =>
        (result.status, result.container.initialized, result.container.recording,
          result.container.video_source.map (fun source => source.SupportsExposureControls),
          (result.container.Initialize
            ⟨OkStatus, OkStatus, Except.error (InvalidArgumentError "no camera"),
              OkStatus⟩).2,
          (result.container.Initialize
            ⟨OkStatus, OkStatus,
              Except.ok ⟨false, OkStatus, OkStatus, OkStatus, OkStatus, OkStatus⟩,
              OkStatus⟩).2,
          (result.container.Initialize
            ⟨OkStatus, OkStatus,
              Except.ok ⟨false, OkStatus, OkStatus, OkStatus, OkStatus, OkStatus⟩,
              OkStatus⟩).1.recording,
          (result.container.Initialize
            ⟨OkStatus, OkStatus,
              Except.ok ⟨false, OkStatus, OkStatus, OkStatus, OkStatus, OkStatus⟩,
              OkStatus⟩).1.video_source.map
                (fun source => source.SupportsExposureControls)))) =
      some (OkStatus, true, false, some true, InvalidArgumentError "no camera", OkStatus,
        true, some false) := by
  rfl

end presage.smartspectra.container

namespace presage.smartspectra.video_source.capture

open absl

/-! ## Resolution selection of the camera source -/

/-- With the `Range` selection mode and a named range, the resolution requested from the
capture device is the one the probe of that range finds, and initialization fails when the
probe finds none. -/
theorem select_camera_resolution_Range (settings : VideoSourceSettings)
    (probed : camera.opencv.VideoCapture) (found : Bool) (resolution : cv.Size)
    (hmode : settings.resolution_selection_mode = ResolutionSelectionMode.Range)
    (hrange : settings.resolution_range ≠ camera.CameraResolutionRange.Unspecified_EnumEnd)
    (hprobe : camera.opencv.GetMaximumCameraResolutionFromRange probed
      settings.resolution_range = some (found, resolution)) :
    CaptureCameraSource.select_camera_resolution settings probed =
      if found then some (Except.ok resolution)
      else some (Except.error
        (FailedPreconditionError "Failed to find a suitable camera resolution.")) := by
  unfold CaptureCameraSource.select_camera_resolution
  simp only [hmode, hrange, hprobe]
  cases found <;> simp

/-- With the `Auto` selection mode and a named range, the probe is not consulted: the frame
size passed to `capture.set` is the default-constructed `cv::Size`, whatever the device
accepts. -/
theorem select_camera_resolution_Auto_with_range (settings : VideoSourceSettings)
    (probed : camera.opencv.VideoCapture)
    (hmode : settings.resolution_selection_mode = ResolutionSelectionMode.Auto)
    (hrange : settings.resolution_range ≠ camera.CameraResolutionRange.Unspecified_EnumEnd) :
    CaptureCameraSource.select_camera_resolution settings probed =
      some (Except.ok ⟨0, 0⟩) := by
  unfold CaptureCameraSource.select_camera_resolution
  simp [hmode, hrange]

/-- C22 (evaluation at the failing input): with the selection mode `Auto`, no exact
resolution (`-1` by `-1`), no file paths and the range `Mid`, on a device that accepts 1280
by 720 (which the probe of `Mid` finds), the frame size requested from the capture device is
0 by 0. -/
theorem Auto_mode_with_range_requests_empty_resolution :
    (file_stream.sample_settings.resolution_selection_mode,
      file_stream.sample_settings.capture_width_px,
      file_stream.sample_settings.capture_height_px,
      camera.opencv.GetMaximumCameraResolutionFromRange
        (camera.opencv.camera_accepting [cv.Size.mk 1280 720] (cv.Size.mk 0 0))
        camera.CameraResolutionRange.Mid,
      CaptureCameraSource.select_camera_resolution
        { file_stream.sample_settings with
          file_stream_path := ""
          resolution_range := camera.CameraResolutionRange.Mid }
        (camera.opencv.camera_accepting [cv.Size.mk 1280 720] (cv.Size.mk 0 0))) =
      (ResolutionSelectionMode.Auto, -1, -1, some (true, cv.Size.mk 1280 720),
        some (Except.ok (cv.Size.mk 0 0))) := by
  rfl

end presage.smartspectra.video_source.capture

namespace presage.smartspectra.container

open absl

/-! ## The in-flight set when a batch arrives -/

/-- C23 (evaluation at the failing inputs): an asynchronous container with a
performance-telemetry callback registered is initialized and started.  First route: two
frames are added while `recording` is off; nothing is recorded for them, and when a metrics
batch arrives `ComputeCorePerformanceTelemetry` reads `begin()` of the empty in-flight set
(no outcome).  Second route: recording is switched on, two frames are added, a batch naming
a timestamp that was never submitted empties the set, and the next batch finds it empty. -/
theorem telemetry_reads_empty_in_flight_set :
    (let registered := ((BackgroundContainer.new DeviceType.Cpu sample_general_settings
        OperationSettings.Continuous 0).SetOnCorePerformanceTelemetry
          (some (fun _ _ _ => OkStatus))).1
      let started := ((registered.Initialize OkStatus OkStatus).1.StartGraph
        GraphResponses.accepting).1
      let fed := ((started.AddFrameWithTimestamp GraphResponses.accepting
        (video_source.file_stream.sample_image 10) 0 0).1.AddFrameWithTimestamp
          GraphResponses.accepting (video_source.file_stream.sample_image 11) 33333 0).1
      let recorded := (((started.SetRecording true).1.AddFrameWithTimestamp
        GraphResponses.accepting (video_source.file_stream.sample_image 10) 0 0
          ).1.AddFrameWithTimestamp
            GraphResponses.accepting (video_source.file_stream.sample_image 11) 33333 0).1
      let first_batch := recorded.metrics_observer ⟨some ⟨⟨5, 2⟩⟩, 5⟩ 1
      (started.running, fed.recording, fed.graph.input_packets.length,
        fed.frames_in_graph_timestamps, fed.offset_from_system_time,
        (fed.metrics_observer ⟨some ⟨⟨33333, 2⟩⟩, 33333⟩ 1).invocations,
        (fed.metrics_observer ⟨some ⟨⟨33333, 2⟩⟩, 33333⟩ 1).outcome.isNone,
        recorded.frames_in_graph_timestamps,
        first_batch.outcome.map (fun handled => handled.1.frames_in_graph_timestamps),
        first_batch.outcome.map (fun handled =>
          (handled.1.metrics_observer ⟨some ⟨⟨33333, 2⟩⟩, 33333⟩ 2).outcome.isNone))) =
      (true, false, 4, [], none,
        [Invocation.ComputeCorePerformanceTelemetry ⟨⟨33333, 2⟩⟩], true,
        [0, 33333], some [], some true) := by
  rfl

/-! ## The divisor of the effective FPS -/

/-- The FPS handed to the callback is the quotient by `window_total_microseconds` of the
retained records. -/
theorem effective_fps_divisor (c : Container) (mb : physiology.MetricsBuffer)
    (now : ℚ) (on_telemetry : ℚ → ℚ → Int → Status) (first : Int) (rest : List Int)
    (offset : ℚ)
    (hcb : c.OnCorePerformanceTelemetry = some (some on_telemetry))
    (hframes : c.frames_in_graph_timestamps = first :: rest)
    (hoff : c.offset_from_system_time = some offset) :
    ∃ (out : TelemetryOutcome) (call : TelemetryCall) (divisor : Int),
      c.ComputeCorePerformanceTelemetry mb now = some out ∧ out.call = some call ∧
      window_total_microseconds mb.metadata.frame_timestamp
        out.container.metrics_buffer_benchmarking_info_buffer = some divisor ∧
      call.effective_core_fps =
        ((window_frame_count out.container.metrics_buffer_benchmarking_info_buffer - 1 : Int)
          : ℚ) * 1000000 / (divisor : ℚ) := by
  obtain ⟨out, oldest, later, hrun, hbuf, _, _, hcall⟩ :=
    ComputeCorePerformanceTelemetry_eq c mb now on_telemetry first rest offset hcb hframes hoff
  exact ⟨out, _, mb.metadata.frame_timestamp - oldest.first_timestamp, hrun, hcall,
    by rw [hbuf]; rfl, by rw [hbuf]⟩

/-- C24 (evaluation at the failing input): on a started, recording asynchronous container
with a telemetry callback, one frame with timestamp 0 is added and a batch covering that
frame arrives.  One record is retained, with `first_timestamp = last_timestamp = 0`, and the
divisor `window_total_microseconds` is 0. -/
theorem single_frame_batch_has_zero_window :
    (let registered := ((BackgroundContainer.new DeviceType.Cpu sample_general_settings
        OperationSettings.Continuous 0).SetOnCorePerformanceTelemetry
          (some (fun _ _ _ => OkStatus))).1
      let started := ((registered.Initialize OkStatus OkStatus).1.StartGraph
        GraphResponses.accepting).1
      let recorded := ((started.SetRecording true).1.AddFrameWithTimestamp
        GraphResponses.accepting (video_source.file_stream.sample_image 10) 0 0).1
      (recorded.frames_in_graph_timestamps,
        (recorded.metrics_observer ⟨some ⟨⟨0, 1⟩⟩, 0⟩ 1).outcome.map (fun handled =>
          (handled.1.metrics_buffer_benchmarking_info_buffer.map
              (fun info => (info.first_timestamp, info.last_timestamp, info.frame_count)),
            window_total_microseconds 0
              handled.1.metrics_buffer_benchmarking_info_buffer)))) =
      ([0], some ([(0, 0, 1)], some 0)) := by
  rfl

/-! ## The running flag after a failed start -/

theorem check_and_observe_running {Sig : Type} (responses : GraphResponses)
    (c : BackgroundContainer) (callback_name : String) (callback : Option Sig)
    (stream : OutputStream) :
    (c.check_and_observe responses callback_name callback stream).1.running = c.running := by
  unfold BackgroundContainer.check_and_observe
  simp only
  split <;> rfl

/-- On an initialized asynchronous container `StartGraph` leaves `running` set, whether it
returns `OkStatus` or an error. -/
theorem StartGraph_sets_running (responses : GraphResponses) (c : BackgroundContainer)
    (hinit : c.initialized = true) :
    (c.StartGraph responses).1.GraphIsRunning = true := by
  unfold BackgroundContainer.StartGraph BackgroundContainer.GraphIsRunning
  simp -zeta only [hinit, Bool.not_true, Bool.false_eq_true, if_false]
  lift_lets
  intro c1 status_code c2 core_metrics c3 edge_metrics c4 output_video c5 frame_sent_through
    c6 started c7 idle
  have h1 : status_code.1.running = true := by
    simp only [status_code, check_and_observe_running, c1]
  have h2 : core_metrics.1.running = true := by
    simp only [core_metrics, check_and_observe_running, c2, h1]
  have h3 : edge_metrics.1.running = true := by
    simp only [edge_metrics]
    split
    · simp only [check_and_observe_running, c3, h2]
    · exact h2
  have h4 : output_video.1.running = true := by
    simp only [output_video, check_and_observe_running, c4, h3]
  have h5 : frame_sent_through.1.running = true := by
    simp only [frame_sent_through, check_and_observe_running, c5, h4]
  have h6 : c7.running = true := h5
  split
  · exact h1
  · split
    · exact h2
    · split
      · exact h3
      · split
        · exact h4
        · split
          · exact h5
          · split
            · exact h6
            · split
              · exact h6
              · rfl

/-- C27 (evaluation at the failing input): on an initialized asynchronous container whose
graph fails `StartRun`, `StartGraph` returns that error and `GraphIsRunning()` is `true`
afterwards; `SetRecording(true)` then succeeds and sets the flag, and
`AddFrameWithTimestamp` passes its checks and submits the frame's two packets. -/
theorem failed_StartGraph_leaves_graph_running :
    (let responses : GraphResponses :=
        { GraphResponses.accepting with
          StartRun := fun _ => ⟨StatusCode.kInternal, "StartRun failed"⟩ }
      let started := sample_background_container.StartGraph responses
      (sample_background_container.initialized, started.2, started.1.GraphIsRunning,
        (started.1.SetRecording true).2, (started.1.SetRecording true).1.recording,
        (started.1.AddFrameWithTimestamp responses
          (video_source.file_stream.sample_image 10) 0 0).2,
        (started.1.AddFrameWithTimestamp responses
          (video_source.file_stream.sample_image 10) 0 0).1.graph.input_packets.length)) =
      (true, ⟨StatusCode.kInternal, "StartRun failed"⟩, true, OkStatus, true, OkStatus,
        2) := by
  rfl

end presage.smartspectra.container

namespace presage.smartspectra.video_source.file_stream

/-! ## Streams with fewer than two frames -/

/-- When a pass of the scan loop ends in a sleep and leaves a source for which the next pass
on the same directory does the same, the loop never returns: every bound on the number of
passes is reached. -/
theorem rescan_loop_waits (s s' : FileStreamVideoSource) (directory : Directory)
    (hfirst : s.scan_pass directory = Except.ok (s', directory, none))
    (hagain : s'.scan_pass directory = Except.ok (s', directory, none)) :
    ∀ rescans, FileStreamVideoSource.rescan_loop rescans s directory =
      Except.error Fault.still_waiting := by
  have hrest : ∀ rescans, FileStreamVideoSource.rescan_loop rescans s' directory =
      Except.error Fault.still_waiting := by
    intro rescans
    induction rescans with
    | zero => rfl
    | succ rescans ih => simp only [FileStreamVideoSource.rescan_loop, hagain, ih]
  intro rescans
  cases rescans with
  | zero => rfl
  | succ rescans => simp only [FileStreamVideoSource.rescan_loop, hfirst, hrest]

/-- C25 (evaluation at the failing inputs): on an unchanging directory that holds the
end-of-stream marker and no frame file, and on one that holds the marker and one frame file,
the first pull of a non-loop source has not returned after any number of rescans. -/
theorem pull_waits_forever_with_fewer_than_two_frames (rescans : Nat) :
    FileStreamVideoSource.ProducePreTransformFrame rescans
        (FileStreamVideoSource.Initialize (fun _ => Except.ok sample_frame_filename_regex)
          absl.OkStatus sample_settings marker_only_directory).1 marker_only_directory =
      Except.error Fault.still_waiting ∧
    FileStreamVideoSource.ProducePreTransformFrame rescans
        (FileStreamVideoSource.Initialize (fun _ => Except.ok sample_frame_filename_regex)
          absl.OkStatus sample_settings single_frame_directory).1 single_frame_directory =
      Except.error Fault.still_waiting := by
  constructor
  · exact rescan_loop_waits
      (FileStreamVideoSource.Initialize (fun _ => Except.ok sample_frame_filename_regex)
        absl.OkStatus sample_settings marker_only_directory).1
      (FileStreamVideoSource.Initialize (fun _ => Except.ok sample_frame_filename_regex)
        absl.OkStatus sample_settings marker_only_directory).1
      marker_only_directory rfl rfl rescans
  · exact rescan_loop_waits
      (FileStreamVideoSource.Initialize (fun _ => Except.ok sample_frame_filename_regex)
        absl.OkStatus sample_settings single_frame_directory).1
      (FileStreamVideoSource.Initialize (fun _ => Except.ok sample_frame_filename_regex)
        absl.OkStatus sample_settings single_frame_directory).1
      single_frame_directory rfl rfl rescans

/-! ## The frame timestamp after a pull -/

/-- In the stream branch, a pass that returns a frame read from a file leaves
`GetFrameTimestamp()` at the index parsed from that file's name; a pass that returns the
end-of-stream frame leaves it at `INT64_MAX`. -/
theorem scan_pass_timestamp (s s' : FileStreamVideoSource) (directory directory' : Directory)
    (frame : cv.Mat)
    (hpass : s.scan_pass directory = Except.ok (s', directory', some frame)) :
    (∃ (path : String) (i_frame : Nat),
        (s'.GetFrameTimestamp, path) ∈ (s.ScanInputDirectory directory).2 ∧
        frame = imread directory path ∧ s.frame_filename_regex path = some i_frame ∧
        s'.GetFrameTimestamp = (i_frame : Int)) ∨
      (frame = cv.Mat.mk0 ∧ s'.GetFrameTimestamp = int64_max) := by
  obtain ⟨_, hmem⟩ := scan_entries_sorted_mem s.frame_filename_regex
    s.end_of_stream_filename directory s.end_of_stream_encountered [] List.Pairwise.nil
  have hfp : (s.ScanInputDirectory directory).2 =
      (scan_entries s.frame_filename_regex s.end_of_stream_filename directory
        s.end_of_stream_encountered []).2 := rfl
  rw [← hfp] at hmem
  have he1 : (s.ScanInputDirectory directory).1.erase_read_files = s.erase_read_files := rfl
  unfold FileStreamVideoSource.GetFrameTimestamp
  unfold FileStreamVideoSource.scan_pass at hpass
  rcases Bool.eq_false_or_eq_true s.erase_read_files with herase | herase
  all_goals
    rw [herase] at he1
    simp only [he1, if_true, if_false, Bool.false_eq_true] at hpass
    generalize (s.ScanInputDirectory directory).2 = file_paths at hpass hmem ⊢
    generalize (s.ScanInputDirectory directory).1 = src at hpass he1
    split at hpass
    · simp at hpass
    · split at hpass
      · simp at hpass
      · split at hpass
        · rename_i timestamp path hget
          have hin : (timestamp, path) ∈ file_paths := List.getElem?_mem hget
          have hfound : ∃ i_frame : Nat, s.frame_filename_regex path = some i_frame ∧
              timestamp = (i_frame : Int) := by
            rcases hmem _ hin with h | ⟨_, _, _, _, i, hi, hik⟩
            · simp at h
            · exact ⟨i, hi, hik.symm⟩
          obtain ⟨i_frame, hregex, hindex⟩ := hfound
          split at hpass
          · simp only [Except.ok.injEq, Prod.mk.injEq, Option.some.injEq] at hpass
            obtain ⟨hs, _, hf⟩ := hpass
            have hcur : s'.current_frame_timestamp = timestamp := by rw [← hs]
            exact Or.inl ⟨path, i_frame, by rw [hcur]; exact hin, hf.symm, hregex,
              by rw [hcur]; exact hindex⟩
          · simp at hpass
        · split at hpass
          · simp only [Except.ok.injEq, Prod.mk.injEq, Option.some.injEq] at hpass
            obtain ⟨hs, _, hf⟩ := hpass
            exact Or.inr ⟨hf.symm, by rw [← hs]⟩
          · simp at hpass

/-- C26 (evaluation at the failing input): a loop-mode source over the five sample frames
returns, at its first pull, the image of `frame_0000.png` (index 0); `GetFrameTimestamp()`
is then 1, the index of the next frame.  After the second pull, which returns the image of
`frame_0001.png`, it is 2. -/
theorem loop_pull_reports_next_frame_index :
    (match FileStreamVideoSource.ProducePreTransformFrame 1
        (FileStreamVideoSource.Initialize (fun _ => Except.ok sample_frame_filename_regex)
          absl.OkStatus { sample_settings with loop := true } sample_loop_directory).1
        sample_loop_directory with
      | Except.ok (source, directory, frame) =>
          some (frame, imread sample_loop_directory "frame_0000.png",
            sample_frame_filename_regex "frame_0000.png", source.GetFrameTimestamp,
            match FileStreamVideoSource.ProducePreTransformFrame 1 source directory with
            | Except.ok (next_source, _, next_frame) =>
                some (next_frame, imread sample_loop_directory "frame_0001.png",
                  next_source.GetFrameTimestamp)
            | Except.error _ => none)
      | Except.error _ => none) =
      some (sample_image 10, sample_image 10, some 0, 1,
        some (sample_image 11, sample_image 11, 2)) := by
  rfl

end presage.smartspectra.video_source.file_stream

namespace presage.smartspectra.gui

/-! ## Overlapping sample ranges in the trace plotter -/

/-- C28 (evaluation at the failing input): a plotter holds the samples at times 0, 1, 2, 3
(value 0), put there by one update of an empty plotter, and is updated with the range at
times 2, 3, 4 (value 1), which overlaps the tail of the buffer and ends after it.  The
buffer then holds the times 0, 1, 2, 3, 3, 4: the time 3 appears twice and the samples at
times 2 and 3 that were in the buffer keep the value 0. -/
theorem overlapping_range_duplicates_sample_times :
    (((OpenCvTracePlotter.new 300).UpdateTraceWithSampleRange
        [⟨0, 0⟩, ⟨1, 0⟩, ⟨2, 0⟩, ⟨3, 0⟩]).bind
      (fun plotter => plotter.UpdateTraceWithSampleRange [⟨2, 1⟩, ⟨3, 1⟩, ⟨4, 1⟩])).map
      (fun plotter => (plotter.buffer, plotter.last_overlap_area_start)) =
      some ([⟨0, 0⟩, ⟨1, 0⟩, ⟨2, 0⟩, ⟨3, 0⟩, ⟨3, 1⟩, ⟨4, 1⟩], 3) := by
  decide

end presage.smartspectra.gui

namespace presage.camera.opencv

/-! ## The order of capture backends -/

/-- The comparison orders a backend with a priority before every backend with a lower
priority and before every backend without one, and never the other way round. -/
theorem backend_comparison_respects_priorities (backend_a backend_b : cv.VideoCaptureAPIs)
    (priority_a : Int) (ha : backendPriorities backend_a = some priority_a)
    (hb : ∀ priority_b, backendPriorities backend_b = some priority_b →
      priority_b < priority_a) :
    backend_comparison backend_a backend_b = true ∧
      backend_comparison backend_b backend_a = false := by
  unfold backend_comparison
  rw [ha]
  cases hpb : backendPriorities backend_b with
  | none => simp
  | some priority_b =>
      have := hb priority_b hpb
      simp
      omega

/-- C30 (evaluation at the failing input): for the backends `CAP_MSMF` and `CAP_DSHOW`,
which have no entry in the priority table, the comparison answers `true` for a backend
against itself and for the two backends in both orders, so it is neither irreflexive nor
asymmetric. -/
theorem backend_comparison_is_not_a_strict_order :
    (backendPriorities cv.VideoCaptureAPIs.CAP_MSMF,
      backendPriorities cv.VideoCaptureAPIs.CAP_DSHOW,
      backend_comparison cv.VideoCaptureAPIs.CAP_MSMF cv.VideoCaptureAPIs.CAP_MSMF,
      backend_comparison cv.VideoCaptureAPIs.CAP_MSMF cv.VideoCaptureAPIs.CAP_DSHOW,
      backend_comparison cv.VideoCaptureAPIs.CAP_DSHOW cv.VideoCaptureAPIs.CAP_MSMF) =
      (none, none, true, true, true) := by
  decide

/-! ## The resolution ranges and the resolution table -/

theorem scan_resolutions_in_table (capture : VideoCapture) :
    ∀ (count : Nat) (i_resolution : Int) (acc : ResolutionScan),
      0 ≤ i_resolution → i_resolution + count ≤ kCommonCameraResolutions.length →
      (scan_resolutions capture count i_resolution acc).isSome = true := by
  intro count
  induction count with
  | zero => intro _ _ _ _; rfl
  | succ count ih =>
      intro i_resolution acc h0 hle
      have hlt : i_resolution.toNat < kCommonCameraResolutions.length := by
        have := Int.toNat_of_nonneg h0
        omega
      have hnot : ¬ i_resolution < 0 := by omega
      simp only [scan_resolutions, hnot, if_false, List.getElem?_eq_getElem hlt]
      split
      · exact ih _ _ (by omega) (by push_cast at hle ⊢; omega)
      · exact ih _ _ (by omega) (by push_cast at hle ⊢; omega)

/-- C29: each of the named ranges `Low`, `Mid`, `High`, `Ultra`, `FourK`, `Giant` and
`Complete` has an entry `(first, second)` in `kCommonCameraResolutionRanges` with
`0 ≤ first ≤ second < size of kCommonCameraResolutions`; every index of the inclusive scan
lies in the table, so `GetMaximumCameraResolutionFromRange` returns a result for every
capture device; and the entry of `Complete` is `(0, size - 1)`. -/
theorem named_ranges_lie_in_resolution_table (range : CameraResolutionRange)
    (hnamed : range ∈ [CameraResolutionRange.Low, CameraResolutionRange.Mid,
      CameraResolutionRange.High, CameraResolutionRange.Ultra, CameraResolutionRange.FourK,
      CameraResolutionRange.Giant, CameraResolutionRange.Complete]) :
    (∃ first second : Int, kCommonCameraResolutionRanges range = some (first, second) ∧
      0 ≤ first ∧ first ≤ second ∧ second < kCommonCameraResolutions.length ∧
      ∀ i_resolution : Int, first ≤ i_resolution → i_resolution ≤ second →
        (kCommonCameraResolutions[i_resolution.toNat]?).isSome = true) ∧
    (∀ capture : VideoCapture,
      (GetMaximumCameraResolutionFromRange capture range).isSome = true) ∧
    kCommonCameraResolutionRanges CameraResolutionRange.Complete =
      some (0, (kCommonCameraResolutions.length : Int) - 1) := by
  have hlen : kCommonCameraResolutions.length = 104 := by decide
  have hentry : ∃ first second : Int, kCommonCameraResolutionRanges range =
      some (first, second) ∧ 0 ≤ first ∧ first ≤ second ∧
      second < kCommonCameraResolutions.length := by
    rw [hlen]
    simp only [List.mem_cons, List.mem_singleton, List.not_mem_nil, or_false] at hnamed
    rcases hnamed with rfl | rfl | rfl | rfl | rfl | rfl | rfl <;>
      exact ⟨_, _, rfl, by decide, by decide, by decide⟩
  obtain ⟨first, second, hrange, h0, h1, h2⟩ := hentry
  refine ⟨⟨first, second, hrange, h0, h1, h2, ?_⟩, ?_, ?_⟩
  · intro i_resolution hlo hhi
    have hlt : i_resolution.toNat < kCommonCameraResolutions.length := by
      have := Int.toNat_of_nonneg (le_trans h0 hlo)
      omega
    rw [List.getElem?_eq_getElem hlt]
    rfl
  · intro capture
    unfold GetMaximumCameraResolutionFromRange
    by_cases hopen : capture.opens = true
    · simp only [hopen, Bool.not_true, Bool.false_eq_true, if_false, hrange]
      have hscan := scan_resolutions_in_table capture (second + 1 - first).toNat first
        ⟨0, 0, false⟩ h0 (by
          have := Int.toNat_of_nonneg (show (0 : Int) ≤ second + 1 - first by omega)
          omega)
      obtain ⟨acc, hacc⟩ := Option.isSome_iff_exists.mp hscan
      simp [hacc]
    · have hclosed : capture.opens = false := by simpa using hopen
      simp [hclosed]
  · rw [hlen]; rfl

theorem named_ranges_lie_in_resolution_table_witness :
    (∃ first second : Int,
      kCommonCameraResolutionRanges CameraResolutionRange.Mid = some (first, second) ∧
      0 ≤ first ∧ first ≤ second ∧ second < kCommonCameraResolutions.length ∧
      ∀ i_resolution : Int, first ≤ i_resolution → i_resolution ≤ second →
        (kCommonCameraResolutions[i_resolution.toNat]?).isSome = true) :=
  (named_ranges_lie_in_resolution_table CameraResolutionRange.Mid (by decide)).1

end presage.camera.opencv
